import Mathlib

/-!
# Blue/green deployment orchestration for an RDS cluster

A shallow embedding of `internal/service/rds/cluster_blue_green_resource.go`.

The handlers talk to a remote control plane.  Every remote operation a handler
performs is recorded as a `Call`; the control plane is an arbitrary `Remote`
whose answers may depend on the whole history of calls made so far.  A handler
is then a function from the history at its entry to an `Outcome`: the history
at its exit and whether it stopped on a Go run-time panic.

Errors that the source only logs (`log.Printf`) are read from the remote and
dropped, exactly as the source drops them.
-/

namespace BlueGreen

/-! ## Data model -/

/-- An error returned by the remote API: its error code (for a typed fault, the
name of the fault) and its message. -/
structure ApiError where
  code : String
  message : String
deriving DecidableEq

/-- The fields of `types.BlueGreenDeployment` the handlers read.  `Status` is
dereferenced with `*deploy.Status` in the source, so it stays optional; the
other fields are only read through `aws.StringValue`, which maps a nil pointer
to the empty string. -/
structure BlueGreenDeployment where
  BlueGreenDeploymentIdentifier : String
  Status : Option String
  Source : String
  Target : String
  StatusDetails : String
deriving DecidableEq

/-- The fields of `rds.DBCluster` the handlers read: the identifier, the
identifiers of the member instances, the ARN, the resource id and the tags. -/
structure DBCluster where
  DBClusterIdentifier : String
  DBClusterMembers : List String
  DBClusterArn : String := ""
  DbClusterResourceId : String := ""
  TagList : List (String × String) := []
deriving DecidableEq

/-- The configuration attributes read with `d.Get` by the handlers. -/
structure ResourceData where
  cluster_identifier : String
  engine : String
  create_deployment : Bool
  switchover_enabled : Bool
  cleanup_resources : Bool
  deletion_protection : Bool
deriving DecidableEq

/-- One remote operation issued by a handler.  The methods of the orchestrator
(`createDeploymentCluster`, `waitForDeploymentAvailable`, `switchover`) are
declared outside this file and are recorded as one call each. -/
inductive Call where
  /-- The call `orchestrator.createDeploymentCluster(ctx, createIn)`. -/
  | createDeploymentCluster
  /-- The call `connv2.DescribeBlueGreenDeployments` filtered on `blue-green-deployment-name`. -/
  | describeBlueGreenDeployments (name : String)
  /-- The call `orchestrator.waitForDeploymentAvailable(ctx, id, ...)`. -/
  | waitForDeploymentAvailable (id : String)
  /-- The call `orchestrator.switchover(ctx, id, ...)`. -/
  | switchover (id : String)
  /-- The call `waitBlueGreenDeploymenClusterSwitchoverCompleted(ctx, connv2, id, ...)`. -/
  | waitSwitchoverCompleted (id : String)
  /-- The call `conn.ModifyDBCluster` with the given `DeletionProtection` value. -/
  | modifyDBCluster (id : String) (deletionProtection : Bool)
  /-- The call `waitDBClusterAvailableSDKv2(ctx, conn, id, ...)`. -/
  | waitDBClusterAvailable (id : String)
  /-- The call `conn.DescribeDBClusters`. -/
  | describeDBClusters (id : String)
  /-- The call `connv2.DeleteDBInstance`. -/
  | deleteDBInstance (id : String)
  /-- The call `waitDBInstanceDeleted(ctx, conn, id, ...)`. -/
  | waitDBInstanceDeleted (id : String)
  /-- The call `conn.DeleteDBCluster`. -/
  | deleteDBCluster (id : String)
  /-- The call `connv2.DeleteBlueGreenDeployment`. -/
  | deleteBlueGreenDeployment (id : String)
  /-- The call `waitBlueGreenClusterDeploymentDeleted(ctx, connv2, id, ...)`. -/
  | waitBlueGreenClusterDeploymentDeleted (id : String)
  /-- The call `FindDBClusterByID(ctx, conn, id)`, declared outside this file. -/
  | findDBClusterByID (id : String)
deriving DecidableEq

/-- The remote control plane.  Each answer is a function of the history of
calls, the call being answered last. -/
structure Remote where
  /-- The error, if any, returned by the last call of the history -/
  result : List Call → Option ApiError
  /-- The output of `DescribeBlueGreenDeployments`; `none` is the nil output
  that accompanies an error -/
  deployments : List Call → Option (List BlueGreenDeployment)
  /-- The output of `DescribeDBClusters`; `none` is the nil output that
  accompanies an error -/
  clusters : List Call → Option (List DBCluster)
  /-- The number of further attempts that fit into the time window of a
  `tfresource.RetryWhen` started at the given history -/
  retryBudget : List Call → Nat
  /-- The value of the constant `errCodeInvalidParameterValue`, which is
  declared outside this file -/
  errCodeInvalidParameterValue : String
  /-- The value of the constant `errCodeInvalidParameterCombination`, which is
  declared outside this file -/
  errCodeInvalidParameterCombination : String
  /-- The cluster returned by `FindDBClusterByID`; `none` is the nil cluster
  that accompanies an error, such as the not-found error -/
  cluster : List Call → Option DBCluster

/-- The Go run-time panics the handlers can raise. -/
inductive Panic where
  | nilDereference
  | indexOutOfRange
deriving DecidableEq

/-- The result of running a piece of a handler: the history of calls at its
end, and the panic that stopped it, if any. -/
structure Outcome where
  calls : List Call
  panic : Option Panic
deriving DecidableEq

/-- Sequential composition: the next statement runs only if no panic has been
raised. -/
def Outcome.andThen (o : Outcome) (f : List Call → Outcome) : Outcome :=
  match o.panic with
  | some _ => o
  | none => f o.calls

/-- The identifiers collected by
`for _, value := range out.BlueGreenDeployments { bluegreen = append(bluegreen, aws.StringValue(value.BlueGreenDeploymentIdentifier)) }`. -/
def deploymentIds (out : List BlueGreenDeployment) : List String :=
  out.map (fun value => value.BlueGreenDeploymentIdentifier)

/-- The statuses collected by
`for _, deploy := range bluegreenDesc { bluegreenDeployStatus = append(bluegreenDeployStatus, *deploy.Status) }`;
`none` when some `Status` pointer is nil (the dereference panics). -/
def deploymentStatuses : List BlueGreenDeployment → Option (List String)
  | [] => some []
  | deploy :: rest =>
    match deploy.Status, deploymentStatuses rest with
    | some s, some ss => some (s :: ss)
    | _, _ => none

/-! ## The Create handler: its deferred closure (lines 258-540) -/

/-- Lines 263-300 of `resourceClusterBlueGreenCreate`, the body of
`if create_deployment && !switchover_enabled`.  The error of
`createDeploymentCluster` and the error of `waitForDeploymentAvailable` are
only logged. -/
def createBranchCreateOnly (r : Remote) (d : ResourceData) (h : List Call) : Outcome :=
  let h1 := h ++ [Call.createDeploymentCluster]
  let _err := r.result h1
  let h2 := h1 ++ [Call.describeBlueGreenDeployments d.cluster_identifier]
  match r.deployments h2 with
  | none => ⟨h2, some Panic.nilDereference⟩
  | some out =>
    match deploymentIds out with
    | [] => ⟨h2, some Panic.indexOutOfRange⟩
    | id0 :: _ =>
      let h3 := h2 ++ [Call.waitForDeploymentAvailable id0]
      let _err := r.result h3
      ⟨h3, none⟩

/-- Lines 302-339 of `resourceClusterBlueGreenCreate`, the body of
`if create_deployment && switchover_enabled`: create, look the deployment up,
`orchestrator.switchover`, `waitBlueGreenDeploymenClusterSwitchoverCompleted`.
Every error is only logged or dropped. -/
def createBranchCreateAndSwitchover (r : Remote) (d : ResourceData) (h : List Call) : Outcome :=
  let h1 := h ++ [Call.createDeploymentCluster]
  let _err := r.result h1
  let h2 := h1 ++ [Call.describeBlueGreenDeployments d.cluster_identifier]
  match r.deployments h2 with
  | none => ⟨h2, some Panic.nilDereference⟩
  | some out =>
    match deploymentIds out with
    | [] => ⟨h2, some Panic.indexOutOfRange⟩
    | id0 :: _ =>
      let h3 := h2 ++ [Call.switchover id0]
      let _err := r.result h3
      let h4 := h3 ++ [Call.waitSwitchoverCompleted id0]
      let _err := r.result h4
      ⟨h4, none⟩

/-- Lines 341-382 of `resourceClusterBlueGreenCreate`, the body of
`if !create_deployment && switchover_enabled`: look the deployment up and
switch over only when
`len(bluegreenDeployStatus) > 0 && bluegreenDeployStatus[0] != "SWITCHOVER_COMPLETED"`. -/
def createBranchSwitchoverOnly (r : Remote) (d : ResourceData) (h : List Call) : Outcome :=
  let h1 := h ++ [Call.describeBlueGreenDeployments d.cluster_identifier]
  match r.deployments h1 with
  | none => ⟨h1, some Panic.nilDereference⟩
  | some out =>
    match deploymentStatuses out with
    | none => ⟨h1, some Panic.nilDereference⟩
    | some [] => ⟨h1, none⟩
    | some (status0 :: _) =>
      if status0 ≠ "SWITCHOVER_COMPLETED" then
        match deploymentIds out with
        | [] => ⟨h1, some Panic.indexOutOfRange⟩
        | id0 :: _ =>
          let h2 := h1 ++ [Call.switchover id0]
          let _err := r.result h2
          let h3 := h2 ++ [Call.waitSwitchoverCompleted id0]
          let _err := r.result h3
          ⟨h3, none⟩
      else ⟨h1, none⟩

/-- Lines 384-539 of `resourceClusterBlueGreenCreate`, the body of
`if cleanup_resources`.  The guard is
`len(bluegreenDeployStatus) > 0 && bluegreenDeployStatus[1] == "SWITCHOVER_COMPLETED"`;
everything in its body but a `log.Printf` is commented out. -/
def createCleanup (r : Remote) (d : ResourceData) (h : List Call) : Outcome :=
  let h1 := h ++ [Call.describeBlueGreenDeployments d.cluster_identifier]
  match r.deployments h1 with
  | none => ⟨h1, some Panic.nilDereference⟩
  | some out =>
    match deploymentStatuses out with
    | none => ⟨h1, some Panic.nilDereference⟩
    | some [] => ⟨h1, none⟩
    | some [_] => ⟨h1, some Panic.indexOutOfRange⟩
    | some (_ :: _status1 :: _) => ⟨h1, none⟩

/-- Run `body` when `cond` holds, as a Go `if` without `else`. -/
def whenThen (cond : Bool) (body : List Call → Outcome) (h : List Call) : Outcome :=
  if cond then body h else ⟨h, none⟩

/-- The three flag-guarded deployment branches of the Create handler's deferred
closure (lines 263-382), in source order. -/
def createDeploymentSteps (r : Remote) (d : ResourceData) (h : List Call) : Outcome :=
  ((whenThen (d.create_deployment && !d.switchover_enabled) (createBranchCreateOnly r d) h).andThen
    (whenThen (d.create_deployment && d.switchover_enabled) (createBranchCreateAndSwitchover r d))).andThen
    (whenThen (!d.create_deployment && d.switchover_enabled) (createBranchSwitchoverOnly r d))

/-- The deferred closure of `resourceClusterBlueGreenCreate` (lines 258-540):
the three deployment branches, then the cleanup branch.  It runs when the
handler returns, after `resourceClusterBlueGreenRead`; `h` is the history of
the calls made before it. -/
def createDeferred (r : Remote) (d : ResourceData) (h : List Call) : Outcome :=
  (createDeploymentSteps r d h).andThen (whenThen d.cleanup_resources (createCleanup r d))

/-! ## Retried calls -/

/-- The check `tfawserr_sdkv2.ErrMessageContains(err, code, message)`: `err` is
an API error with that code whose message contains `message`. -/
def ErrMessageContains (err : Option ApiError) (code message : String) : Bool :=
  match err with
  | none => false
  | some e => e.code == code && decide (message.data <:+: e.message.data)

/-- The check `errs.IsA[*types.InvalidDBClusterStateFault](err)`. -/
def isInvalidDBClusterStateFault (err : Option ApiError) : Bool :=
  match err with
  | none => false
  | some e => e.code == "InvalidDBClusterStateFault"

/-- Modelled from the spec: `tfresource.RetryWhen(ctx, timeout, f, retryable)`,
whose source is not part of this file ("bounded retry within the deadline, not
unbounded").  `f` is attempted; `retryable` inspects the error of the attempt
and says whether to attempt again; at most `budget` further attempts are made.
Both `f` and `retryable` act on a state `σ` (the call history and whatever
else the closures capture). -/
def RetryWhen {σ : Type} (budget : Nat) (f : σ → σ × Option ApiError)
    (retryable : σ → Option ApiError → σ × Bool × Option ApiError) (s : σ) : σ × Option ApiError :=
  match budget with
  | 0 =>
    let (s1, err) := f s
    let (s2, _, err1) := retryable s1 err
    (s2, err1)
  | n + 1 =>
    let (s1, err) := f s
    let (s2, again, err1) := retryable s1 err
    if again then RetryWhen n f retryable s2 else (s2, err1)

/-- The retry predicate of `dbClusterModify` (lines 1357-1372). -/
def dbClusterModifyRetryable (r : Remote) (err : Option ApiError) : Bool × Option ApiError :=
  if ErrMessageContains err r.errCodeInvalidParameterValue
      "IAM role ARN value is invalid or does not include the required permissions" then (true, err)
  else if ErrMessageContains err r.errCodeInvalidParameterCombination
      "previous storage change is being optimized" then (true, err)
  else if isInvalidDBClusterStateFault err then (true, err)
  else (false, err)

/-- The function `dbClusterModify` (lines 1352-1382), called with an input that
sets `DeletionProtection`: the retried `ModifyDBCluster`, then, if that
succeeded, `waitDBClusterAvailableSDKv2`, whose error is wrapped. -/
def dbClusterModify (r : Remote) (resourceID : String) (deletionProtection : Bool)
    (h : List Call) : List Call × Option ApiError :=
  let res := RetryWhen (r.retryBudget h)
    (fun hist => (hist ++ [Call.modifyDBCluster resourceID deletionProtection],
                  r.result (hist ++ [Call.modifyDBCluster resourceID deletionProtection])))
    (fun hist err => (hist, dbClusterModifyRetryable r err)) h
  match res.2 with
  | some e => (res.1, some e)
  | none =>
    let h2 := res.1 ++ [Call.waitDBClusterAvailable resourceID]
    match r.result h2 with
    | some e => (h2, some ⟨e.code, "waiting for completion: " ++ e.message⟩)
    | none => (h2, none)

/-! ## The Update handler: its deferred closures (lines 685-983) -/

/-- Lines 706-743 of `resourceClusterBlueGreenUpdate`, the body of
`if create_deployment && !switchover_enabled`. -/
def updateBranchCreateOnly (r : Remote) (d : ResourceData) (h : List Call) : Outcome :=
  let h1 := h ++ [Call.createDeploymentCluster]
  let _err := r.result h1
  let h2 := h1 ++ [Call.describeBlueGreenDeployments d.cluster_identifier]
  match r.deployments h2 with
  | none => ⟨h2, some Panic.nilDereference⟩
  | some out =>
    match deploymentIds out with
    | [] => ⟨h2, some Panic.indexOutOfRange⟩
    | id0 :: _ =>
      let h3 := h2 ++ [Call.waitForDeploymentAvailable id0]
      let _err := r.result h3
      ⟨h3, none⟩

/-- Lines 745-794 of `resourceClusterBlueGreenUpdate`, the body of
`if create_deployment && switchover_enabled`: create, look the deployment up,
wait for it to be available, switch over, wait for the switchover to complete.
Every error is only logged or dropped. -/
def updateBranchCreateAndSwitchover (r : Remote) (d : ResourceData) (h : List Call) : Outcome :=
  let h1 := h ++ [Call.createDeploymentCluster]
  let _err := r.result h1
  let h2 := h1 ++ [Call.describeBlueGreenDeployments d.cluster_identifier]
  match r.deployments h2 with
  | none => ⟨h2, some Panic.nilDereference⟩
  | some out =>
    match deploymentIds out with
    | [] => ⟨h2, some Panic.indexOutOfRange⟩
    | id0 :: _ =>
      let h3 := h2 ++ [Call.waitForDeploymentAvailable id0]
      let _err := r.result h3
      let h4 := h3 ++ [Call.switchover id0]
      let _err := r.result h4
      let h5 := h4 ++ [Call.waitSwitchoverCompleted id0]
      let _err := r.result h5
      ⟨h5, none⟩

/-- Lines 796-832 of `resourceClusterBlueGreenUpdate`, the body of
`if !create_deployment && switchover_enabled`: look the deployment up, collect
the statuses, then switch over `bluegreen[0]` and wait, with no test of the
status. -/
def updateBranchSwitchoverOnly (r : Remote) (d : ResourceData) (h : List Call) : Outcome :=
  let h1 := h ++ [Call.describeBlueGreenDeployments d.cluster_identifier]
  match r.deployments h1 with
  | none => ⟨h1, some Panic.nilDereference⟩
  | some out =>
    match deploymentStatuses out with
    | none => ⟨h1, some Panic.nilDereference⟩
    | some _ =>
      match deploymentIds out with
      | [] => ⟨h1, some Panic.indexOutOfRange⟩
      | id0 :: _ =>
        let h2 := h1 ++ [Call.switchover id0]
        let _err := r.result h2
        let h3 := h2 ++ [Call.waitSwitchoverCompleted id0]
        let _err := r.result h3
        ⟨h3, none⟩

/-- The three flag-guarded deployment branches of the Update handler's deferred
closure (lines 706-832), in source order. -/
def updateDeploymentSteps (r : Remote) (d : ResourceData) (h : List Call) : Outcome :=
  ((whenThen (d.create_deployment && !d.switchover_enabled) (updateBranchCreateOnly r d) h).andThen
    (whenThen (d.create_deployment && d.switchover_enabled) (updateBranchCreateAndSwitchover r d))).andThen
    (whenThen (!d.create_deployment && d.switchover_enabled) (updateBranchSwitchoverOnly r d))

/-- The state threaded through the cleanup branch of the Update handler: the
call history and the closures appended to `cleaupWaiters`, each recorded as
the wait it performs when run. -/
structure CleanupState where
  calls : List Call
  cleaupWaiters : List Call
deriving DecidableEq

/-- The retry predicate of the instance deletion (lines 911-922). -/
def deleteInstanceRetryable (r : Remote) (err : Option ApiError) : Bool × Option ApiError :=
  if ErrMessageContains err r.errCodeInvalidParameterValue
      "IAM role ARN value is invalid or does not include the required permissions" then (true, err)
  else if ErrMessageContains err r.errCodeInvalidParameterCombination "disable deletion pro" then (true, err)
  else (false, err)

/-- One attempt of the retried instance deletion (lines 898-909):
`DeleteDBInstance`, and `waitDBInstanceDeleted` only if the deletion call
returned no error. -/
def deleteInstanceAttempt (r : Remote) (inst : String) (s : CleanupState) :
    CleanupState × Option ApiError :=
  let h1 := s.calls ++ [Call.deleteDBInstance inst]
  match r.result h1 with
  | some e => (⟨h1, s.cleaupWaiters⟩, some e)
  | none =>
    let h2 := h1 ++ [Call.waitDBInstanceDeleted inst]
    (⟨h2, s.cleaupWaiters⟩, r.result h2)

/-- The loop over `clusters.DBClusters[0].DBClusterMembers` (lines 890-931).
The error of each retried deletion is assigned to `err` and not tested; a
waiter for the instance is appended to `cleaupWaiters` in every iteration. -/
def deleteMemberInstances (r : Remote) : List String → CleanupState → CleanupState
  | [], s => s
  | inst :: rest, s =>
    let res := RetryWhen (r.retryBudget s.calls) (deleteInstanceAttempt r inst)
      (fun st err => (st, deleteInstanceRetryable r err)) s
    deleteMemberInstances r rest
      ⟨res.1.calls, res.1.cleaupWaiters ++ [Call.waitDBInstanceDeleted inst]⟩

/-- The retry predicate of the cluster deletion (lines 943-959).  On the path
that matches neither message it appends the wait for the deployment to be
deleted to `cleaupWaiters`; the closure has no `return` on that path in the
source, so the source does not say whether the call is retried there.  It is
read here as "do not retry": this is a reading of text that is not valid Go,
not an embedding of it. -/
def deleteClusterRetryable (r : Remote) (deploymentId : String) (s : CleanupState)
    (err : Option ApiError) : CleanupState × Bool × Option ApiError :=
  if ErrMessageContains err r.errCodeInvalidParameterValue
      "IAM role ARN value is invalid or does not include the required permissions" then (s, true, err)
  else if ErrMessageContains err r.errCodeInvalidParameterCombination "disable deletion pro" then
    (s, true, err)
  else
    (⟨s.calls, s.cleaupWaiters ++ [Call.waitBlueGreenClusterDeploymentDeleted deploymentId]⟩, false, err)

/-- One attempt of the retried cluster deletion (lines 940-942). -/
def deleteClusterAttempt (r : Remote) (id : String) (s : CleanupState) :
    CleanupState × Option ApiError :=
  (⟨s.calls ++ [Call.deleteDBCluster id], s.cleaupWaiters⟩,
   r.result (s.calls ++ [Call.deleteDBCluster id]))

/-- The statements guarded by the status test of lines 863 and 888, after the
optional `dbClusterModify`: describe the source cluster, delete its member
instances, delete the cluster `cluster_identifier`, delete the deployment
`bluegreen[0]`.

The source text of lines 884-981 is not well-formed Go: `clusters` is used by
the loop of line 890 and assigned by `conn.DescribeDBClusters(descClusters)`
on line 937, and lines 978-980 close a function literal that is never opened.
The statements are taken in their textual order, the describe call is placed
where its result is first needed, and the unmatched tail is dropped.  This is
one reading of text that is not valid Go, and another reading gives another
order of calls: what the deletions do, and in which order, is not settled by
the source. -/
def updateCleanupDeletes (r : Remote) (d : ResourceData) (first : BlueGreenDeployment)
    (id0 : String) (s : CleanupState) : CleanupState × Option Panic :=
  let h1 := s.calls ++ [Call.describeDBClusters first.Source]
  match r.clusters h1 with
  | none => (⟨h1, s.cleaupWaiters⟩, some Panic.nilDereference)
  | some [] => (⟨h1, s.cleaupWaiters⟩, some Panic.indexOutOfRange)
  | some (cluster :: _) =>
    let s1 := deleteMemberInstances r cluster.DBClusterMembers ⟨h1, s.cleaupWaiters⟩
    let res := RetryWhen (r.retryBudget s1.calls) (deleteClusterAttempt r d.cluster_identifier)
      (deleteClusterRetryable r id0) s1
    let h2 := res.1.calls ++ [Call.deleteBlueGreenDeployment id0]
    let _err := r.result h2
    (⟨h2, res.1.cleaupWaiters⟩, none)

/-- Lines 834-982 of `resourceClusterBlueGreenUpdate`, the body of
`if cleanup_resources`.  The guard of line 863 is
`len(bluegreen) > 0 && bluegreenDeployStatus[0] == "SWITCHOVER_COMPLETED"`;
inside it `dbClusterModify` clears the deletion protection when
`deletion_protection` is set, and its error is only logged. -/
def updateCleanup (r : Remote) (d : ResourceData) (s : CleanupState) : CleanupState × Option Panic :=
  let h1 := s.calls ++ [Call.describeBlueGreenDeployments d.cluster_identifier]
  match r.deployments h1 with
  | none => (⟨h1, s.cleaupWaiters⟩, some Panic.nilDereference)
  | some [] => (⟨h1, s.cleaupWaiters⟩, some Panic.indexOutOfRange)
  | some (first :: more) =>
    match deploymentStatuses (first :: more) with
    | none => (⟨h1, s.cleaupWaiters⟩, some Panic.nilDereference)
    | some [] => (⟨h1, s.cleaupWaiters⟩, none)
    | some (status0 :: _) =>
      if status0 = "SWITCHOVER_COMPLETED" then
        let h2 := if d.deletion_protection then (dbClusterModify r d.cluster_identifier false h1).1 else h1
        if first.Status.getD "" = "SWITCHOVER_COMPLETED" then
          updateCleanupDeletes r d first first.BlueGreenDeploymentIdentifier ⟨h2, s.cleaupWaiters⟩
        else (⟨h2, s.cleaupWaiters⟩, none)
      else (⟨h1, s.cleaupWaiters⟩, none)

/-- The two deferred closures of `resourceClusterBlueGreenUpdate`.  The closure
of lines 701-983 (deployment branches, then cleanup) runs first; the closure of
lines 687-699, registered earlier, runs after it, also when the first one
panicked, and performs the waits collected in `cleaupWaiters` in order. -/
def updateDeferred (r : Remote) (d : ResourceData) (h : List Call) : Outcome :=
  let steps := updateDeploymentSteps r d h
  let main : CleanupState × Option Panic :=
    match steps.panic with
    | some p => (⟨steps.calls, []⟩, some p)
    | none =>
      if d.cleanup_resources then updateCleanup r d ⟨steps.calls, []⟩
      else (⟨steps.calls, []⟩, none)
  ⟨main.1.calls ++ main.1.cleaupWaiters, main.2⟩

/-! ## The Read handler and the whole Create handler -/

/-- The resource ID, the computed attributes the handlers write with `d.Set`,
and the tags handed to `setTagsOut`. -/
structure ResourceState where
  id : String
  arn : String
  cluster_members : List String
  cluster_resource_id : String
  tags : List (String × String)
deriving DecidableEq

/-- What a handler leaves behind: the error diagnostics it returns, the
resource data and state, the history of calls, and the panic that ended it, if
any. -/
structure HandlerResult where
  diags : List String
  d : ResourceData
  state : ResourceState
  calls : List Call
  panic : Option Panic
deriving DecidableEq

/-- The statements `d.Set("arn", ...)`, `d.Set("cluster_identifier", ...)`,
`d.Set("cluster_members", ...)`, `d.Set("cluster_resource_id", ...)` and
`setTagsOut(ctx, dbc.TagList)` of lines 232-240 and 605-613. -/
def setFromCluster (dbc : DBCluster) (d : ResourceData) (st : ResourceState) :
    ResourceData × ResourceState :=
  ({ d with cluster_identifier := dbc.DBClusterIdentifier },
   { st with arn := dbc.DBClusterArn, cluster_members := dbc.DBClusterMembers,
             cluster_resource_id := dbc.DbClusterResourceId, tags := dbc.TagList })

/-- The slice `bluegreenTarget` after the loop of lines 570-573, whose second
statement is `bluegreenTarget = append(bluegreen, aws.StringValue(value.Target))`. -/
def readBluegreenTarget (out : List BlueGreenDeployment) : List String :=
  match out.getLast? with
  | none => []
  | some value => deploymentIds out ++ [value.Target]

/-- The body of `if len(bluegreen) < 0` in `resourceClusterBlueGreenRead` (lines
576-600), which only parses and logs: the panic it raises, if any, on
`bluegreenTarget[0]`, `bluegreenDesc[0]` or a nil `Status`. -/
def readGuardedBlock (out : List BlueGreenDeployment) : Option Panic :=
  match readBluegreenTarget out, out with
  | [], _ => some Panic.indexOutOfRange
  | _, [] => some Panic.indexOutOfRange
  | _ :: _, _ :: _ =>
    match deploymentStatuses out with
    | none => some Panic.nilDereference
    | some _ => none

/-- The function `resourceClusterBlueGreenRead` (lines 546-616).  The error of
`FindDBClusterByID` is discarded and the cluster is dereferenced at once by
`d.Set("arn", dbc.DBClusterArn)`.  Nothing is ever appended to `diags`. -/
def resourceClusterBlueGreenRead (r : Remote) (d : ResourceData) (st : ResourceState)
    (h : List Call) : HandlerResult :=
  let h1 := h ++ [Call.describeBlueGreenDeployments d.cluster_identifier]
  match r.deployments h1 with
  | none => ⟨[], d, st, h1, some Panic.nilDereference⟩
  | some out =>
    match (if (deploymentIds out).length < 0 then readGuardedBlock out else none) with
    | some p => ⟨[], d, st, h1, some p⟩
    | none =>
      let h2 := h1 ++ [Call.findDBClusterByID d.cluster_identifier]
      match r.cluster h2 with
      | none => ⟨[], d, st, h2, some Panic.nilDereference⟩
      | some dbc => ⟨[], (setFromCluster dbc d st).1, (setFromCluster dbc d st).2, h2, none⟩

/-- The function `resourceClusterBlueGreenCreate` (lines 225-544).  The cluster
is looked up and dereferenced (line 231) before the closure is deferred; the
result is `append(diags, resourceClusterBlueGreenRead(...)...)` with `diags`
still nil; the deferred closure then runs, also when Read panicked, and never
touches `diags`. -/
def resourceClusterBlueGreenCreate (r : Remote) (d : ResourceData) (st : ResourceState)
    (h : List Call) : HandlerResult :=
  let h1 := h ++ [Call.findDBClusterByID d.cluster_identifier]
  match r.cluster h1 with
  | none => ⟨[], d, st, h1, some Panic.nilDereference⟩
  | some dbc =>
    let read := resourceClusterBlueGreenRead r (setFromCluster dbc d st).1
      (setFromCluster dbc d st).2 h1
    let deferred := createDeferred r read.d read.calls
    ⟨read.diags, read.d, read.state, deferred.calls,
     match deferred.panic with
     | some p => some p
     | none => read.panic⟩

/-! ## Timeouts and the deadline -/

/-- The keys `schema.TimeoutCreate`, `schema.TimeoutUpdate` and
`schema.TimeoutDelete`. -/
inductive TimeoutKey where
  | Create
  | Update
  | Delete
deriving DecidableEq

/-- The duration `time.Minute`, in nanoseconds. -/
def Minute : Nat := 60 * 1000000000

/-- The timeouts a configuration sets in its `timeouts` block, in nanoseconds;
`none` where it sets none. -/
structure ResourceTimeout where
  Create : Option Nat
  Update : Option Nat
  Delete : Option Nat
deriving DecidableEq

/-- The default of each timeout in the `Timeouts` of the schema (lines 49-53):
`schema.DefaultTimeout(120 * time.Minute)` for Create, Update and Delete. -/
def DefaultTimeout (_key : TimeoutKey) : Nat := 120 * Minute

/-- Modelled from the spec: `d.Timeout(key)` of the plugin SDK ("Create/Update/
Delete each have an independently configurable timeout (default 120
minutes)"): the configured timeout of the key, or else its default. -/
def Timeout (configured : ResourceTimeout) (key : TimeoutKey) : Nat :=
  match key with
  | TimeoutKey.Create => configured.Create.getD (DefaultTimeout TimeoutKey.Create)
  | TimeoutKey.Update => configured.Update.getD (DefaultTimeout TimeoutKey.Update)
  | TimeoutKey.Delete => configured.Delete.getD (DefaultTimeout TimeoutKey.Delete)

/-- Modelled from the spec: `tfresource.NewDeadline(duration)`, which is not part
of this file ("a remaining-time budget threaded through sequential blocking
operations, decremented as time elapses"): the instant `duration` after the
present one. -/
def NewDeadline (now duration : Nat) : Nat := now + duration

/-- Modelled from the spec: `deadline.Remaining()`, which is not part of this
file: the time left until the deadline, zero once it has passed. -/
def Remaining (deadline now : Nat) : Nat := deadline - now

/-- The deadline of `resourceClusterBlueGreenCreate` (line 228):
`tfresource.NewDeadline(d.Timeout(schema.TimeoutUpdate))`. -/
def resourceClusterBlueGreenCreateDeadline (configured : ResourceTimeout) (now : Nat) : Nat :=
  NewDeadline now (Timeout configured TimeoutKey.Update)

/-- The deadline of `resourceClusterBlueGreenUpdate` (line 621):
`tfresource.NewDeadline(d.Timeout(schema.TimeoutUpdate))`. -/
def resourceClusterBlueGreenUpdateDeadline (configured : ResourceTimeout) (now : Nat) : Nat :=
  NewDeadline now (Timeout configured TimeoutKey.Update)

/-- The deadline of `resourceClusterBlueGreenDelete` (line 1386):
`tfresource.NewDeadline(d.Timeout(schema.TimeoutUpdate))`. -/
def resourceClusterBlueGreenDeleteDeadline (configured : ResourceTimeout) (now : Nat) : Nat :=
  NewDeadline now (Timeout configured TimeoutKey.Update)

/-! ## The deployment branches with the clock -/

/-- A call together with the reading of the clock when it is issued and the
timeout it is given, for the calls that are given one. -/
structure TimedCall where
  call : Call
  issuedAt : Nat
  timeout : Option Nat
deriving DecidableEq

/-- The result of running a piece of a handler with the clock: the timed
history at its end, and the panic that stopped it, if any. -/
structure TimedOutcome where
  calls : List TimedCall
  panic : Option Panic
deriving DecidableEq

/-- The calls of a timed history. -/
def untimed (h : List TimedCall) : List Call := h.map (fun tc => tc.call)

/-- A call that takes no timeout, issued after the history `h`; `clock` gives
the reading of the clock once the calls of a history have been made. -/
def issue (clock : List Call → Nat) (h : List TimedCall) (c : Call) : List TimedCall :=
  h ++ [⟨c, clock (untimed h), none⟩]

/-- A call whose timeout argument is `deadline.Remaining()`, evaluated when the
call is issued after the history `h`. -/
def issueWithRemaining (clock : List Call → Nat) (deadline : Nat) (h : List TimedCall)
    (c : Call) : List TimedCall :=
  h ++ [⟨c, clock (untimed h), some (Remaining deadline (clock (untimed h)))⟩]

/-- Sequential composition with the clock. -/
def TimedOutcome.andThen (o : TimedOutcome) (f : List TimedCall → TimedOutcome) : TimedOutcome :=
  match o.panic with
  | some _ => o
  | none => f o.calls

/-- A Go `if` without `else`, with the clock. -/
def whenThenTimed (cond : Bool) (body : List TimedCall → TimedOutcome) (h : List TimedCall) :
    TimedOutcome :=
  if cond then body h else ⟨h, none⟩

/-- Lines 263-300 with the clock: `createDeploymentCluster(ctx, createIn)` takes
no timeout, `waitForDeploymentAvailable` is given `deadline.Remaining()`
(line 296). -/
def createBranchCreateOnlyTimed (r : Remote) (clock : List Call → Nat) (deadline : Nat)
    (d : ResourceData) (h : List TimedCall) : TimedOutcome :=
  let h1 := issue clock h Call.createDeploymentCluster
  let h2 := issue clock h1 (Call.describeBlueGreenDeployments d.cluster_identifier)
  match r.deployments (untimed h2) with
  | none => ⟨h2, some Panic.nilDereference⟩
  | some out =>
    match deploymentIds out with
    | [] => ⟨h2, some Panic.indexOutOfRange⟩
    | id0 :: _ =>
      ⟨issueWithRemaining clock deadline h2 (Call.waitForDeploymentAvailable id0), none⟩

/-- Lines 302-339 with the clock: `switchover` (line 332) and the wait for the
switchover (line 337) are each given `deadline.Remaining()`. -/
def createBranchCreateAndSwitchoverTimed (r : Remote) (clock : List Call → Nat) (deadline : Nat)
    (d : ResourceData) (h : List TimedCall) : TimedOutcome :=
  let h1 := issue clock h Call.createDeploymentCluster
  let h2 := issue clock h1 (Call.describeBlueGreenDeployments d.cluster_identifier)
  match r.deployments (untimed h2) with
  | none => ⟨h2, some Panic.nilDereference⟩
  | some out =>
    match deploymentIds out with
    | [] => ⟨h2, some Panic.indexOutOfRange⟩
    | id0 :: _ =>
      let h3 := issueWithRemaining clock deadline h2 (Call.switchover id0)
      ⟨issueWithRemaining clock deadline h3 (Call.waitSwitchoverCompleted id0), none⟩

/-- Lines 341-382 with the clock: `switchover` (line 375) and the wait for the
switchover (line 379) are each given `deadline.Remaining()`. -/
def createBranchSwitchoverOnlyTimed (r : Remote) (clock : List Call → Nat) (deadline : Nat)
    (d : ResourceData) (h : List TimedCall) : TimedOutcome :=
  let h1 := issue clock h (Call.describeBlueGreenDeployments d.cluster_identifier)
  match r.deployments (untimed h1) with
  | none => ⟨h1, some Panic.nilDereference⟩
  | some out =>
    match deploymentStatuses out with
    | none => ⟨h1, some Panic.nilDereference⟩
    | some [] => ⟨h1, none⟩
    | some (status0 :: _) =>
      if status0 ≠ "SWITCHOVER_COMPLETED" then
        match deploymentIds out with
        | [] => ⟨h1, some Panic.indexOutOfRange⟩
        | id0 :: _ =>
          let h2 := issueWithRemaining clock deadline h1 (Call.switchover id0)
          ⟨issueWithRemaining clock deadline h2 (Call.waitSwitchoverCompleted id0), none⟩
      else ⟨h1, none⟩

/-- The three deployment branches of the Create handler's deferred closure
(lines 263-382) with the clock; `deadline` is the variable of line 228. -/
def createDeploymentStepsTimed (r : Remote) (clock : List Call → Nat) (deadline : Nat)
    (d : ResourceData) (h : List TimedCall) : TimedOutcome :=
  ((whenThenTimed (d.create_deployment && !d.switchover_enabled)
      (createBranchCreateOnlyTimed r clock deadline d) h).andThen
    (whenThenTimed (d.create_deployment && d.switchover_enabled)
      (createBranchCreateAndSwitchoverTimed r clock deadline d))).andThen
    (whenThenTimed (!d.create_deployment && d.switchover_enabled)
      (createBranchSwitchoverOnlyTimed r clock deadline d))

/-- Lines 706-743 with the clock: `waitForDeploymentAvailable` is given
`deadline.Remaining()` (line 739). -/
def updateBranchCreateOnlyTimed (r : Remote) (clock : List Call → Nat) (deadline : Nat)
    (d : ResourceData) (h : List TimedCall) : TimedOutcome :=
  let h1 := issue clock h Call.createDeploymentCluster
  let h2 := issue clock h1 (Call.describeBlueGreenDeployments d.cluster_identifier)
  match r.deployments (untimed h2) with
  | none => ⟨h2, some Panic.nilDereference⟩
  | some out =>
    match deploymentIds out with
    | [] => ⟨h2, some Panic.indexOutOfRange⟩
    | id0 :: _ =>
      ⟨issueWithRemaining clock deadline h2 (Call.waitForDeploymentAvailable id0), none⟩

/-- Lines 745-794 with the clock: the wait for available (line 778), the
switchover (line 784) and the wait for the switchover (line 792) are each given
`deadline.Remaining()`. -/
def updateBranchCreateAndSwitchoverTimed (r : Remote) (clock : List Call → Nat) (deadline : Nat)
    (d : ResourceData) (h : List TimedCall) : TimedOutcome :=
  let h1 := issue clock h Call.createDeploymentCluster
  let h2 := issue clock h1 (Call.describeBlueGreenDeployments d.cluster_identifier)
  match r.deployments (untimed h2) with
  | none => ⟨h2, some Panic.nilDereference⟩
  | some out =>
    match deploymentIds out with
    | [] => ⟨h2, some Panic.indexOutOfRange⟩
    | id0 :: _ =>
      let h3 := issueWithRemaining clock deadline h2 (Call.waitForDeploymentAvailable id0)
      let h4 := issueWithRemaining clock deadline h3 (Call.switchover id0)
      ⟨issueWithRemaining clock deadline h4 (Call.waitSwitchoverCompleted id0), none⟩

/-- Lines 796-832 with the clock: the switchover (line 826) and the wait for
the switchover (line 830) are each given `deadline.Remaining()`. -/
def updateBranchSwitchoverOnlyTimed (r : Remote) (clock : List Call → Nat) (deadline : Nat)
    (d : ResourceData) (h : List TimedCall) : TimedOutcome :=
  let h1 := issue clock h (Call.describeBlueGreenDeployments d.cluster_identifier)
  match r.deployments (untimed h1) with
  | none => ⟨h1, some Panic.nilDereference⟩
  | some out =>
    match deploymentStatuses out with
    | none => ⟨h1, some Panic.nilDereference⟩
    | some _ =>
      match deploymentIds out with
      | [] => ⟨h1, some Panic.indexOutOfRange⟩
      | id0 :: _ =>
        let h2 := issueWithRemaining clock deadline h1 (Call.switchover id0)
        ⟨issueWithRemaining clock deadline h2 (Call.waitSwitchoverCompleted id0), none⟩

/-- The three deployment branches of the Update handler's deferred closure
(lines 706-832) with the clock; `deadline` is the variable of line 621. -/
def updateDeploymentStepsTimed (r : Remote) (clock : List Call → Nat) (deadline : Nat)
    (d : ResourceData) (h : List TimedCall) : TimedOutcome :=
  ((whenThenTimed (d.create_deployment && !d.switchover_enabled)
      (updateBranchCreateOnlyTimed r clock deadline d) h).andThen
    (whenThenTimed (d.create_deployment && d.switchover_enabled)
      (updateBranchCreateAndSwitchoverTimed r clock deadline d))).andThen
    (whenThenTimed (!d.create_deployment && d.switchover_enabled)
      (updateBranchSwitchoverOnlyTimed r clock deadline d))

/-- The outcome without the clock: the calls and the panic. -/
def TimedOutcome.erase (o : TimedOutcome) : Outcome := ⟨untimed o.calls, o.panic⟩

/-- The deployment waits and the switchover: the calls of the orchestration
table that take a timeout. -/
def Call.isWaitOrSwitchover : Call → Bool
  | Call.waitForDeploymentAvailable _ => true
  | Call.switchover _ => true
  | Call.waitSwitchoverCompleted _ => true
  | _ => false

/-- The timed call was given the time remaining until `deadline` when it was
issued, if it is a deployment wait or a switchover, and no timeout otherwise. -/
def GivenRemaining (deadline : Nat) (tc : TimedCall) : Prop :=
  tc.timeout = if tc.call.isWaitOrSwitchover then some (Remaining deadline tc.issuedAt) else none

/-- The timed history `h2` is `h1` followed by calls that were each issued at
the reading the clock had once the calls before it were made, and given, if a
deployment wait or a switchover, the time remaining until `deadline` at that
reading, and no timeout otherwise. -/
inductive Issued (clock : List Call → Nat) (deadline : Nat) :
    List TimedCall → List TimedCall → Prop where
  | refl (h : List TimedCall) : Issued clock deadline h h
  | step (h1 h2 : List TimedCall) (c : Call) : Issued clock deadline h1 h2 →
      Issued clock deadline h1
        (h2 ++ [⟨c, clock (untimed h2),
                 if c.isWaitOrSwitchover then some (Remaining deadline (clock (untimed h2)))
                 else none⟩])

/-- The timed history `h2` is `h1` followed by timed calls that all satisfy `P`. -/
def TimedAppends (P : TimedCall → Prop) (h1 h2 : List TimedCall) : Prop :=
  ∃ suffix, h2 = h1 ++ suffix ∧ ∀ tc ∈ suffix, P tc

/-! ## The modify operation with the clock -/

/-- The function `dbClusterModify` (lines 1352-1382) with the clock.
`tfresource.RetryWhen` is given `timeout` (line 1353), and each attempt of
`ModifyDBCluster` is recorded with that window; `waitDBClusterAvailableSDKv2`
is given the same `timeout` (line 1378). -/
def dbClusterModifyTimed (r : Remote) (clock : List Call → Nat) (timeout : Nat)
    (resourceID : String) (deletionProtection : Bool) (h : List TimedCall) :
    List TimedCall × Option ApiError :=
  let res := RetryWhen (r.retryBudget (untimed h))
    (fun hist =>
      (hist ++ [⟨Call.modifyDBCluster resourceID deletionProtection, clock (untimed hist),
                 some timeout⟩],
       r.result (untimed hist ++ [Call.modifyDBCluster resourceID deletionProtection])))
    (fun hist err => (hist, dbClusterModifyRetryable r err)) h
  match res.2 with
  | some e => (res.1, some e)
  | none =>
    let h2 := res.1 ++ [⟨Call.waitDBClusterAvailable resourceID, clock (untimed res.1),
                         some timeout⟩]
    match r.result (untimed h2) with
    | some e => (h2, some ⟨e.code, "waiting for completion: " ++ e.message⟩)
    | none => (h2, none)

/-! ## The Delete handler -/

/-- The text of the diagnostic of lines 1465 and 1470:
`"updating RDS DB Cluster (%s): deleting Blue/Green Deployment: %s"` with
`d.Id()` and the error, of which the message is kept. -/
def deleteDeploymentDiag (id : String) (err : ApiError) : String :=
  "updating RDS DB Cluster (" ++ id ++ "): deleting Blue/Green Deployment: " ++ err.message

/-- The text of the diagnostic of line 1477:
`"updating RDS DB Cluster (%s): deleting Blue/Green Deployment: waiting for completion: %s"`. -/
def deleteDeploymentWaitDiag (id : String) (err : ApiError) : String :=
  "updating RDS DB Cluster (" ++ id
    ++ "): deleting Blue/Green Deployment: waiting for completion: " ++ err.message

/-- The state shared by the deferred closures of the Delete handler: the named
result `diags`, the call history, the slice `cleaupWaiters` and the panic
raised, if any. -/
structure DeleteState where
  diags : List String
  calls : List Call
  cleaupWaiters : List Call
  panic : Option Panic
deriving DecidableEq

/-- The closure deferred second in `resourceClusterBlueGreenDelete` (lines
1417-1480): look the deployment up, wait for the cluster to be available (the
error is only logged), delete the deployment `bluegreen[0]`; on an error append
one diagnostic and return; otherwise append the wait for the deployment to be
deleted to `cleaupWaiters`. -/
def deleteDeferredMain (r : Remote) (d : ResourceData) (id : String) (diags : List String)
    (h : List Call) : DeleteState :=
  let h1 := h ++ [Call.describeBlueGreenDeployments d.cluster_identifier]
  match r.deployments h1 with
  | none => ⟨diags, h1, [], some Panic.nilDereference⟩
  | some out =>
    let h2 := h1 ++ [Call.waitDBClusterAvailable d.cluster_identifier]
    let _err := r.result h2
    match deploymentIds out with
    | [] => ⟨diags, h2, [], some Panic.indexOutOfRange⟩
    | id0 :: _ =>
      let h3 := h2 ++ [Call.deleteBlueGreenDeployment id0]
      match r.result h3 with
      | some err => ⟨diags ++ [deleteDeploymentDiag id err], h3, [], none⟩
      | none => ⟨diags, h3, [Call.waitBlueGreenClusterDeploymentDeleted id0], none⟩

/-- The closure deferred first in `resourceClusterBlueGreenDelete` (lines
1403-1415): nothing when `cleaupWaiters` is empty, otherwise the waiters in
order; a waiter whose wait fails appends one diagnostic. -/
def runCleanupWaiters (r : Remote) (id : String) :
    List Call → List String × List Call → List String × List Call
  | [], s => s
  | w :: ws, (diags, h) =>
    match r.result (h ++ [w]) with
    | some err => runCleanupWaiters r id ws (diags ++ [deleteDeploymentWaitDiag id err], h ++ [w])
    | none => runCleanupWaiters r id ws (diags, h ++ [w])

/-- The diagnostics, the history and the panic after the deferred closures of a
handler have run. -/
structure DeferredResult where
  diags : List String
  calls : List Call
  panic : Option Panic
deriving DecidableEq

/-- The two deferred closures of `resourceClusterBlueGreenDelete` in the order
in which they run: the one deferred last (lines 1417-1480) first, then the one
deferred first (lines 1403-1415), also when the other one panicked. -/
def deleteDeferred (r : Remote) (d : ResourceData) (id : String) (diags : List String)
    (h : List Call) : DeferredResult :=
  let main := deleteDeferredMain r d id diags h
  let waited := runCleanupWaiters r id main.cleaupWaiters (main.diags, main.calls)
  ⟨waited.1, waited.2, main.panic⟩

/-- The function `resourceClusterBlueGreenDelete` (lines 1384-1482).  The
cluster is looked up and dereferenced (line 1390) before anything is deferred;
the named result `diags` receives `append(diags, resourceClusterBlueGreenRead(...)...)`,
then the deferred closures run and may still append to it. -/
def resourceClusterBlueGreenDelete (r : Remote) (d : ResourceData) (st : ResourceState)
    (h : List Call) : HandlerResult :=
  let h1 := h ++ [Call.findDBClusterByID d.cluster_identifier]
  match r.cluster h1 with
  | none => ⟨[], d, st, h1, some Panic.nilDereference⟩
  | some dbc =>
    let read := resourceClusterBlueGreenRead r (setFromCluster dbc d st).1
      (setFromCluster dbc d st).2 h1
    let deferred := deleteDeferred r read.d read.state.id read.diags read.calls
    ⟨deferred.diags, read.d, read.state, deferred.calls,
     match deferred.panic with
     | some p => some p
     | none => read.panic⟩

/-! ## Parsing the ARN of a cluster -/

/-- The fields of `arn.ARN` of the AWS SDK. -/
structure ARN where
  Partition : String
  Service : String
  Region : String
  AccountID : String
  Resource : String
deriving DecidableEq

set_option linter.dupNamespace false in
/-- The type `dbClusterARN` (lines 220-223): the embedded `arn.ARN` and the
identifier of the cluster. -/
structure dbClusterARN where
  ARN : BlueGreen.ARN
  dbClusterARN : String
deriving DecidableEq

/-- The zero value `dbClusterARN{}`. -/
def zeroDBClusterARN : dbClusterARN := ⟨⟨"", "", "", "", ""⟩, ""⟩

/-- The character class `[0-9a-z-]`. -/
def isClusterIdChar (c : Char) : Bool := c.isDigit || c.isLower || c == '-'

/-- The call `re.FindStringSubmatch(resource)` for the regular expression
`^cluster:([0-9a-z-]+)$` of line 164: nil when the text does not match,
otherwise the whole match followed by the text of the group. -/
def findClusterSubmatch (resource : String) : Option (List String) :=
  if "cluster:".data.isPrefixOf resource.data
      && !(resource.data.drop 8).isEmpty && (resource.data.drop 8).all isClusterIdChar then
    some [resource, String.mk (resource.data.drop 8)]
  else none

/-- The function `parseDBClusterARN` (lines 154-172).  `parse` is `arn.Parse` of
the AWS SDK, which is not part of this repository.  The result is the pair the
Go function returns: the value and the error, nil on success. -/
def parseDBClusterARN (parse : String → Except String ARN) (s : String) :
    dbClusterARN × Option String :=
  match parse s with
  | Except.error err => (zeroDBClusterARN, some err)
  | Except.ok arn =>
    match findClusterSubmatch arn.Resource with
    | none => (zeroDBClusterARN, some "DB Cluster ARN: invalid resource section")
    | some submatches =>
      if submatches.length ≠ 2 then
        (zeroDBClusterARN, some "DB Cluster ARN: invalid resource section")
      else (⟨arn, submatches.getD 1 ""⟩, none)

/-- The call `strings.SplitN(s, sep, n)` for a one-character separator: at most
`n` pieces, the last one unsplit. -/
def splitN (sep : Char) : Nat → List Char → List (List Char)
  | 0, _ => []
  | 1, cs => [cs]
  | n + 2, cs =>
    match cs.span (fun c => c != sep) with
    | (piece, []) => [piece]
    | (piece, _ :: rest) => piece :: splitN sep (n + 1) rest

/-- The function `arn.Parse` of the AWS SDK for Go, which is not part of this
repository, as its documentation describes it: the text must begin with `arn:`
and have six sections separated by colons, the sixth being the resource. -/
def arnParse (s : String) : Except String ARN :=
  if "arn:".data.isPrefixOf s.data then
    match splitN ':' 6 s.data with
    | [_, partition, service, region, account, resource] =>
      Except.ok ⟨String.mk partition, String.mk service, String.mk region, String.mk account,
        String.mk resource⟩
    | _ => Except.error "arn: not enough sections"
  else Except.error "arn: invalid prefix"

/-! ## Plan-time check -/

/-- The function `dbClusterValidBlueGreenEngines` (lines 214-218).  The constant
`ClusterEngineAuroraMySQL` is declared outside this file and is a parameter. -/
def dbClusterValidBlueGreenEngines (ClusterEngineAuroraMySQL : String) : List String :=
  [ClusterEngineAuroraMySQL]

/-- The function literal given to `customdiff.Sequence` in `CustomizeDiff`
(lines 139-149): `none` is the nil error, `some msg` the error of
`fmt.Errorf`, of which the quoted engine is kept. -/
def customizeDiffEngineCheck (ClusterEngineAuroraMySQL : String) (d : ResourceData) : Option String :=
  if !d.create_deployment then none
  else if !(dbClusterValidBlueGreenEngines ClusterEngineAuroraMySQL).contains d.engine then
    some ("\"blue_green_update.enabled\" cannot be set when \"engine\" is " ++ d.engine.quote ++ ".")
  else none

/-- The value of `CustomizeDiff` (lines 136-150): `customdiff.Sequence` runs
`verify.SetTagsDiff`, whose result is the parameter `setTagsDiff`, and stops at
the first error; otherwise it runs the engine check. -/
def customizeDiff (ClusterEngineAuroraMySQL : String) (setTagsDiff : Option String)
    (d : ResourceData) : Option String :=
  match setTagsDiff with
  | some e => some e
  | none => customizeDiffEngineCheck ClusterEngineAuroraMySQL d

/-! ## Waiters -/

/-- One answer of a status prober (`Refresh`): the object, its status string
and the error. -/
structure Observation where
  object : Option BlueGreenDeployment
  status : String
  err : Option ApiError
deriving DecidableEq

/-- The errors of a wait. -/
inductive WaitError where
  /-- The prober returned an error, which is passed on. -/
  | refresh (e : ApiError)
  /-- A status outside the pending and target sets was observed. -/
  | unexpectedState (state : String) (lastError : Option String)
  /-- The time ran out while the status was still pending. -/
  | timeout (lastState : String) (lastError : Option String)
deriving DecidableEq

/-- The result of a wait: the object and error it returns, and the number of
times the prober was invoked. -/
structure WaitResult where
  output : Option BlueGreenDeployment
  err : Option WaitError
  polls : Nat
deriving DecidableEq

/-- The fields `Pending` and `Target` of a `retry.StateChangeConf`. -/
structure StateChangeConf where
  Pending : List String
  Target : List String
deriving DecidableEq

/-- Modelled from the spec: the Wait/Poll Engine behind
`stateConf.WaitForStateContext`, which is not part of this file.  The list holds
the answers the prober gives at the successive polls that fit into the timeout.
A prober error is passed on.  A status in the target set succeeds and returns
the object.  A status in neither set fails at once, returning the object that
carries the status detail.  An absent object succeeds when the target set is
empty and is polled again otherwise.  When the answers run out the wait fails
with a timeout error. -/
def WaitForStateContext (conf : StateChangeConf) : List Observation → Nat → String → WaitResult
  | [], polled, last => ⟨none, some (WaitError.timeout last none), polled⟩
  | o :: rest, polled, _ =>
    match o.err with
    | some e => ⟨none, some (WaitError.refresh e), polled + 1⟩
    | none =>
      match o.object with
      | none =>
        if conf.Target.isEmpty then ⟨none, none, polled + 1⟩
        else WaitForStateContext conf rest (polled + 1) o.status
      | some obj =>
        if conf.Target.contains o.status then ⟨some obj, none, polled + 1⟩
        else if conf.Pending.contains o.status then WaitForStateContext conf rest (polled + 1) o.status
        else ⟨some obj, some (WaitError.unexpectedState o.status none), polled + 1⟩

/-- The `retry.StateChangeConf` built by `waitBlueGreenDeploymentClusterAvailable`
(lines 1010-1015). -/
def waitBlueGreenDeploymentClusterAvailableConf : StateChangeConf :=
  { Pending := ["PROVISIONING"], Target := ["AVAILABLE"] }

/-- The function `waitBlueGreenDeploymentClusterAvailable` (lines 1001-1025),
run against the answers of the prober `statusBlueGreenDeployment`: the output
is returned when it is a deployment, and nil otherwise, with the error of the
wait in both cases. -/
def waitBlueGreenDeploymentClusterAvailable (answers : List Observation) : WaitResult :=
  let res := WaitForStateContext waitBlueGreenDeploymentClusterAvailableConf answers 0 ""
  match res.output with
  | some output => ⟨some output, res.err, res.polls⟩
  | none => ⟨none, res.err, res.polls⟩

/-- The last error carried by the error of a wait, if any. -/
def WaitError.lastError : WaitError → Option String
  | WaitError.refresh _ => none
  | WaitError.unexpectedState _ lastError => lastError
  | WaitError.timeout _ lastError => lastError

/-- Modelled from the spec: `tfresource.SetLastError(err, lastErr)`, which is
not part of this file ("an error carrying the remote status-detail message as
context").  An unexpected-state or timeout error that carries no last error yet
receives `lastErr`; a nil error and any other error are left alone. -/
def SetLastError (err : Option WaitError) (lastErr : String) : Option WaitError :=
  match err with
  | some (WaitError.unexpectedState state none) => some (WaitError.unexpectedState state (some lastErr))
  | some (WaitError.timeout lastState none) => some (WaitError.timeout lastState (some lastErr))
  | other => other

/-- The part shared by the four `waitBlueGreenDeploymenClusterSwitchover*`
functions after their `StateChangeConf` is built: wait, and when the output is
a deployment whose status is `INVALID_CONFIGURATION` or `SWITCHOVER_FAILED`,
set the last error of the wait to its `StatusDetails`. -/
def waitSwitchoverWith (conf : StateChangeConf) (answers : List Observation) : WaitResult :=
  let res := WaitForStateContext conf answers 0 ""
  match res.output with
  | some output =>
    if output.Status.getD "" = "INVALID_CONFIGURATION" ∨ output.Status.getD "" = "SWITCHOVER_FAILED" then
      ⟨some output, SetLastError res.err output.StatusDetails, res.polls⟩
    else ⟨some output, res.err, res.polls⟩
  | none => ⟨none, res.err, res.polls⟩

/-- The `retry.StateChangeConf` built by
`waitBlueGreenDeploymenClusterSwitchoverDeleting` (lines 1036-1041). -/
def waitBlueGreenDeploymenClusterSwitchoverDeletingConf : StateChangeConf :=
  { Pending := ["SWITCHOVER_COMPLETED"], Target := ["SWITCHOVER_IN_PROGRESS"] }

/-- The function `waitBlueGreenDeploymenClusterSwitchoverDeleting` (lines 1027-1055). -/
def waitBlueGreenDeploymenClusterSwitchoverDeleting (answers : List Observation) : WaitResult :=
  waitSwitchoverWith waitBlueGreenDeploymenClusterSwitchoverDeletingConf answers

/-- The `retry.StateChangeConf` built by
`waitBlueGreenDeploymenClusterSwitchoverInProgress` (lines 1066-1071). -/
def waitBlueGreenDeploymenClusterSwitchoverInProgressConf : StateChangeConf :=
  { Pending := ["SWITCHOVER_IN_PROGRESS"], Target := ["SWITCHOVER_COMPLETED"] }

/-- The function `waitBlueGreenDeploymenClusterSwitchoverInProgress` (lines 1057-1085). -/
def waitBlueGreenDeploymenClusterSwitchoverInProgress (answers : List Observation) : WaitResult :=
  waitSwitchoverWith waitBlueGreenDeploymenClusterSwitchoverInProgressConf answers

/-- The `retry.StateChangeConf` built by
`waitBlueGreenDeploymenClusterSwitchoverAvailable` (lines 1096-1101). -/
def waitBlueGreenDeploymenClusterSwitchoverAvailableConf : StateChangeConf :=
  { Pending := ["AVAILABLE"], Target := ["SWITCHOVER_IN_PROGRESS"] }

/-- The function `waitBlueGreenDeploymenClusterSwitchoverAvailable` (lines 1087-1115). -/
def waitBlueGreenDeploymenClusterSwitchoverAvailable (answers : List Observation) : WaitResult :=
  waitSwitchoverWith waitBlueGreenDeploymenClusterSwitchoverAvailableConf answers

/-- The `retry.StateChangeConf` built by
`waitBlueGreenDeploymenClusterSwitchoverCompleted` (lines 1126-1131). -/
def waitBlueGreenDeploymenClusterSwitchoverCompletedConf : StateChangeConf :=
  { Pending := ["SWITCHOVER_IN_PROGRESS"], Target := ["SWITCHOVER_COMPLETED"] }

/-- The function `waitBlueGreenDeploymenClusterSwitchoverCompleted` (lines 1117-1145). -/
def waitBlueGreenDeploymenClusterSwitchoverCompleted (answers : List Observation) : WaitResult :=
  waitSwitchoverWith waitBlueGreenDeploymenClusterSwitchoverCompletedConf answers

/-- The `retry.StateChangeConf` built by `waitBlueGreenClusterDeploymentAvailable`
(lines 1156-1161). -/
def waitBlueGreenClusterDeploymentAvailableConf : StateChangeConf :=
  { Pending := ["PROVISIONING", "SWITCHOVER_IN_PROGRESS", "SWITCHOVER_COMPLETED",
                "INVALID_CONFIGURATION", "SWITCHOVER_FAILED", "DELETING"],
    Target := ["AVAILABLE"] }

/-- The function `waitBlueGreenClusterDeploymentAvailable` (lines 1147-1171). -/
def waitBlueGreenClusterDeploymentAvailable (answers : List Observation) : WaitResult :=
  let res := WaitForStateContext waitBlueGreenClusterDeploymentAvailableConf answers 0 ""
  match res.output with
  | some output => ⟨some output, res.err, res.polls⟩
  | none => ⟨none, res.err, res.polls⟩

/-- The `retry.StateChangeConf` built by `waitBlueGreenClusterDeploymentDeleted`
(lines 1182-1187). -/
def waitBlueGreenClusterDeploymentDeletedConf : StateChangeConf :=
  { Pending := ["PROVISIONING", "AVAILABLE", "SWITCHOVER_IN_PROGRESS", "SWITCHOVER_COMPLETED",
                "INVALID_CONFIGURATION", "SWITCHOVER_FAILED", "DELETING"],
    Target := [] }

/-- The function `waitBlueGreenClusterDeploymentDeleted` (lines 1173-1197). -/
def waitBlueGreenClusterDeploymentDeleted (answers : List Observation) : WaitResult :=
  let res := WaitForStateContext waitBlueGreenClusterDeploymentDeletedConf answers 0 ""
  match res.output with
  | some output => ⟨some output, res.err, res.polls⟩
  | none => ⟨none, res.err, res.polls⟩

/-- The three outcomes of `findBlueGreenDeploymentByID`, which is declared
outside this file: the deployment, a not-found error (`tfresource.NotFound`),
or another error. -/
inductive FindResult where
  | found (output : BlueGreenDeployment)
  | notFound
  | failed (err : ApiError)
deriving DecidableEq

/-- The function returned by `statusBlueGreenClusterDeployment` (lines 987-999),
applied to the outcome of the lookup. -/
def statusBlueGreenClusterDeployment (lookup : FindResult) : Observation :=
  match lookup with
  | FindResult.notFound => ⟨none, "", none⟩
  | FindResult.failed err => ⟨none, "", some err⟩
  | FindResult.found output => ⟨some output, output.Status.getD "", none⟩

/-! ## Vocabulary of the properties -/

/-- The four deployment operations of the orchestration table: create, wait for
available, switch over, wait for the switchover to complete. -/
def Call.isDeploymentStep : Call → Bool
  | Call.createDeploymentCluster => true
  | Call.waitForDeploymentAvailable _ => true
  | Call.switchover _ => true
  | Call.waitSwitchoverCompleted _ => true
  | _ => false

/-- The calls that change or delete a remote object during cleanup: cluster
modification, instance deletion, cluster deletion, deployment deletion. -/
def Call.isDestructive : Call → Bool
  | Call.modifyDBCluster _ _ => true
  | Call.deleteDBInstance _ => true
  | Call.deleteDBCluster _ => true
  | Call.deleteBlueGreenDeployment _ => true
  | _ => false

/-- The calls the deferred closure of the Create handler can issue: the four
deployment operations and the lookup by name. -/
def Call.isCreateClosureCall : Call → Bool
  | Call.describeBlueGreenDeployments _ => true
  | c => c.isDeploymentStep

/-- The read-only lookups: `DescribeBlueGreenDeployments` and `FindDBClusterByID`. -/
def Call.isLookup : Call → Bool
  | Call.describeBlueGreenDeployments _ => true
  | Call.findDBClusterByID _ => true
  | _ => false

/-- The call is none of the four deployment operations. -/
def NotDeploymentStep (c : Call) : Prop := c.isDeploymentStep = false

/-- The history `h2` is `h1` followed by calls that all satisfy `P`. -/
def Appends (P : Call → Prop) (h1 h2 : List Call) : Prop :=
  ∃ suffix, h2 = h1 ++ suffix ∧ ∀ c ∈ suffix, P c

/-- Both the history and the collected waiters of `s2` are those of `s1`
followed by calls that all satisfy `P`. -/
def CleanupState.Appends (P : Call → Prop) (s1 s2 : CleanupState) : Prop :=
  BlueGreen.Appends P s1.calls s2.calls ∧ BlueGreen.Appends P s1.cleaupWaiters s2.cleaupWaiters

/-! ## Concrete inputs -/

/-- A deployment record with the given identifier and status, whose source is
the cluster `db-1` and whose target is the cluster `db-1-green`. -/
def deploymentRecord (id status : String) : BlueGreenDeployment :=
  { BlueGreenDeploymentIdentifier := id, Status := some status,
    Source := "arn:aws:rds:eu-west-1:123456789012:cluster:db-1",
    Target := "arn:aws:rds:eu-west-1:123456789012:cluster:db-1-green",
    StatusDetails := "" }

/-- A remote on which every call succeeds, every lookup by name returns the
given deployment records and every cluster description the given clusters;
no retry is ever needed. -/
def remoteOf (deployments : List BlueGreenDeployment) (clusters : List DBCluster) : Remote :=
  { result := fun _ => none
    deployments := fun _ => some deployments
    clusters := fun _ => some clusters
    retryBudget := fun _ => 0
    errCodeInvalidParameterValue := "InvalidParameterValue"
    errCodeInvalidParameterCombination := "InvalidParameterCombination"
    cluster := fun _ => clusters.head? }

/-- A configuration of the cluster `db-1` with the given values of
`create_deployment`, `switchover_enabled`, `cleanup_resources` and
`deletion_protection`. -/
def configOf (create switchover cleanup protection : Bool) : ResourceData :=
  { cluster_identifier := "db-1", engine := "aurora-mysql", create_deployment := create,
    switchover_enabled := switchover, cleanup_resources := cleanup,
    deletion_protection := protection }

/-- A remote like `remoteOf`, except that every call selected by `fails`
returns the error `AccessDenied`. -/
def remoteFailing (fails : Call → Bool) (deployments : List BlueGreenDeployment)
    (clusters : List DBCluster) : Remote :=
  { result := fun h =>
      match h.getLast? with
      | some c => if fails c then some ⟨"AccessDenied", "not authorized"⟩ else none
      | none => none
    deployments := fun _ => some deployments
    clusters := fun _ => some clusters
    retryBudget := fun _ => 0
    errCodeInvalidParameterValue := "InvalidParameterValue"
    errCodeInvalidParameterCombination := "InvalidParameterCombination"
    cluster := fun _ => clusters.head? }

/-- The source cluster `db-1` with its two member instances. -/
def sourceCluster : DBCluster :=
  { DBClusterIdentifier := "db-1", DBClusterMembers := ["db-1-a", "db-1-b"] }

/-- An answer of the prober that shows the deployment `bgd-1` in the given
status. -/
def observed (status : String) : Observation :=
  { object := some (deploymentRecord "bgd-1" status), status := status, err := none }

/-- A remote like `remoteOf`, except that each call returns the error that
`answer` gives for it. -/
def remoteAnswering (answer : Call → Option ApiError) (deployments : List BlueGreenDeployment)
    (clusters : List DBCluster) : Remote :=
  { result := fun h =>
      match h.getLast? with
      | some c => answer c
      | none => none
    deployments := fun _ => some deployments
    clusters := fun _ => some clusters
    retryBudget := fun _ => 0
    errCodeInvalidParameterValue := "InvalidParameterValue"
    errCodeInvalidParameterCombination := "InvalidParameterCombination"
    cluster := fun _ => clusters.head? }

/-- The state of a resource that was created earlier under the ID `db-1`. -/
def stateOf : ResourceState :=
  { id := "db-1", arn := "", cluster_members := [], cluster_resource_id := "", tags := [] }

/-- The answer of a remote on which the deployment of `db-1` already exists:
the create call fails with `BlueGreenDeploymentAlreadyExistsFault`, every other
call succeeds. -/
def alreadyExistsAnswer : Call → Option ApiError
  | Call.createDeploymentCluster =>
    some ⟨"BlueGreenDeploymentAlreadyExistsFault", "deployment db-1 already exists"⟩
  | _ => none

/-- A remote in the state that reflects completion: the deployment `bgd-1` of
`db-1` is in `SWITCHOVER_COMPLETED`, the source has been cleaned up
(`DescribeDBClusters` returns no cluster), `FindDBClusterByID` returns the
cluster that serves under the name `db-1`, and the create call reports that the
deployment already exists. -/
def remoteCompleted : Remote :=
  { result := fun h =>
      match h.getLast? with
      | some c => alreadyExistsAnswer c
      | none => none
    deployments := fun _ => some [deploymentRecord "bgd-1" "SWITCHOVER_COMPLETED"]
    clusters := fun _ => some []
    retryBudget := fun _ => 0
    errCodeInvalidParameterValue := "InvalidParameterValue"
    errCodeInvalidParameterCombination := "InvalidParameterCombination"
    cluster := fun _ => some sourceCluster }

/-! ## Auxiliary lemmas: handlers only append to the history -/

theorem appends_refl (P : Call → Prop) (h : List Call) : Appends P h h :=
  ⟨[], by simp, by simp⟩

theorem appends_trans {P : Call → Prop} {a b c : List Call}
    (hab : Appends P a b) (hbc : Appends P b c) : Appends P a c := by
  obtain ⟨s1, rfl, h1⟩ := hab
  obtain ⟨s2, rfl, h2⟩ := hbc
  refine ⟨s1 ++ s2, by simp, ?_⟩
  intro c hc
  rcases List.mem_append.mp hc with hc | hc
  · exact h1 c hc
  · exact h2 c hc

theorem appends_snoc {P : Call → Prop} (h : List Call) {c : Call} (hc : P c) :
    Appends P h (h ++ [c]) :=
  ⟨[c], rfl, by simpa using hc⟩

theorem appends_mono {P Q : Call → Prop} {a b : List Call} (hPQ : ∀ c, P c → Q c)
    (hab : Appends P a b) : Appends Q a b := by
  obtain ⟨s1, rfl, h1⟩ := hab
  exact ⟨s1, rfl, fun c hc => hPQ c (h1 c hc)⟩

theorem cleanupAppends_refl (P : Call → Prop) (s : CleanupState) :
    CleanupState.Appends P s s :=
  ⟨BlueGreen.appends_refl P _, BlueGreen.appends_refl P _⟩

theorem cleanupAppends_trans {P : Call → Prop} {a b c : CleanupState}
    (hab : CleanupState.Appends P a b) (hbc : CleanupState.Appends P b c) :
    CleanupState.Appends P a c :=
  ⟨BlueGreen.appends_trans hab.1 hbc.1, BlueGreen.appends_trans hab.2 hbc.2⟩

/-- A relation that every attempt and every run of the predicate respects is
respected by the whole retried call. -/
theorem retryWhen_rel {σ : Type} (R : σ → σ → Prop)
    (htrans : ∀ a b c, R a b → R b c → R a c)
    (f : σ → σ × Option ApiError) (retryable : σ → Option ApiError → σ × Bool × Option ApiError)
    (hf : ∀ s, R s (f s).1) (hret : ∀ s e, R s (retryable s e).1) :
    ∀ (n : Nat) (s : σ), R s (RetryWhen n f retryable s).1 := by
  intro n
  induction n with
  | zero =>
    intro s
    simp only [RetryWhen]
    exact htrans _ _ _ (hf s) (hret _ _)
  | succ n ih =>
    intro s
    simp only [RetryWhen]
    split
    · exact htrans _ _ _ (htrans _ _ _ (hf s) (hret _ _)) (ih _)
    · exact htrans _ _ _ (hf s) (hret _ _)

theorem appends_snocCleanup (h : List Call) (c : Call) (hc : c.isDeploymentStep = false) :
    Appends NotDeploymentStep h (h ++ [c]) :=
  appends_snoc h hc

theorem dbClusterModify_appends (r : Remote) (id : String) (dp : Bool) (h : List Call) :
    Appends NotDeploymentStep h (dbClusterModify r id dp h).1 := by
  have hretry : Appends NotDeploymentStep h
      (RetryWhen (r.retryBudget h)
        (fun hist => (hist ++ [Call.modifyDBCluster id dp],
                      r.result (hist ++ [Call.modifyDBCluster id dp])))
        (fun hist err => (hist, dbClusterModifyRetryable r err)) h).1 :=
    retryWhen_rel (Appends NotDeploymentStep) (fun _ _ _ => appends_trans)
      (fun hist => (hist ++ [Call.modifyDBCluster id dp],
                    r.result (hist ++ [Call.modifyDBCluster id dp])))
      (fun hist err => (hist, dbClusterModifyRetryable r err))
      (fun s => appends_snocCleanup s _ rfl) (fun s _ => appends_refl _ s) _ h
  unfold dbClusterModify
  simp only []
  split
  · exact hretry
  · split
    · exact appends_trans hretry (appends_snocCleanup _ (Call.waitDBClusterAvailable id) rfl)
    · exact appends_trans hretry (appends_snocCleanup _ (Call.waitDBClusterAvailable id) rfl)

theorem deleteInstanceAttempt_appends (r : Remote) (inst : String) (s : CleanupState) :
    CleanupState.Appends NotDeploymentStep s (deleteInstanceAttempt r inst s).1 := by
  unfold deleteInstanceAttempt
  simp only []
  split
  · exact ⟨appends_snocCleanup _ (Call.deleteDBInstance inst) rfl, appends_refl _ _⟩
  · exact ⟨appends_trans (appends_snocCleanup _ (Call.deleteDBInstance inst) rfl)
      (appends_snocCleanup _ (Call.waitDBInstanceDeleted inst) rfl), appends_refl _ _⟩

theorem deleteMemberInstances_appends (r : Remote) (members : List String) :
    ∀ s : CleanupState, CleanupState.Appends NotDeploymentStep s (deleteMemberInstances r members s) := by
  induction members with
  | nil => intro s; exact cleanupAppends_refl _ s
  | cons inst rest ih =>
    intro s
    simp only [deleteMemberInstances]
    have hretry : CleanupState.Appends NotDeploymentStep s
        (RetryWhen (r.retryBudget s.calls) (deleteInstanceAttempt r inst)
          (fun st err => (st, deleteInstanceRetryable r err)) s).1 :=
      retryWhen_rel (CleanupState.Appends NotDeploymentStep)
        (fun _ _ _ => cleanupAppends_trans) (deleteInstanceAttempt r inst)
        (fun st err => (st, deleteInstanceRetryable r err))
        (deleteInstanceAttempt_appends r inst) (fun st _ => cleanupAppends_refl _ st) _ s
    refine cleanupAppends_trans (cleanupAppends_trans hretry ?_) (ih _)
    exact ⟨appends_refl _ _, appends_snocCleanup _ (Call.waitDBInstanceDeleted inst) rfl⟩

theorem deleteClusterRetryable_appends (r : Remote) (deploymentId : String) (s : CleanupState)
    (err : Option ApiError) :
    CleanupState.Appends NotDeploymentStep s (deleteClusterRetryable r deploymentId s err).1 := by
  unfold deleteClusterRetryable
  split
  · exact cleanupAppends_refl _ s
  · split
    · exact cleanupAppends_refl _ s
    · exact ⟨appends_refl _ _,
        appends_snocCleanup _ (Call.waitBlueGreenClusterDeploymentDeleted deploymentId) rfl⟩

theorem updateCleanupDeletes_appends (r : Remote) (d : ResourceData) (first : BlueGreenDeployment)
    (id0 : String) (s : CleanupState) :
    CleanupState.Appends NotDeploymentStep s (updateCleanupDeletes r d first id0 s).1 := by
  unfold updateCleanupDeletes
  simp only []
  split
  · exact ⟨appends_snocCleanup _ (Call.describeDBClusters first.Source) rfl, appends_refl _ _⟩
  · exact ⟨appends_snocCleanup _ (Call.describeDBClusters first.Source) rfl, appends_refl _ _⟩
  · rename_i cluster _ _
    have h1 : CleanupState.Appends NotDeploymentStep s
        ⟨s.calls ++ [Call.describeDBClusters first.Source], s.cleaupWaiters⟩ :=
      ⟨appends_snocCleanup _ (Call.describeDBClusters first.Source) rfl, appends_refl _ _⟩
    have h2 := deleteMemberInstances_appends r cluster.DBClusterMembers
      ⟨s.calls ++ [Call.describeDBClusters first.Source], s.cleaupWaiters⟩
    have h3 := retryWhen_rel (CleanupState.Appends NotDeploymentStep)
        (fun _ _ _ => cleanupAppends_trans) (deleteClusterAttempt r d.cluster_identifier)
        (deleteClusterRetryable r id0)
        (fun st => ⟨appends_snocCleanup _ (Call.deleteDBCluster d.cluster_identifier) rfl,
          appends_refl _ _⟩)
        (fun st e => deleteClusterRetryable_appends r id0 st e)
        (r.retryBudget (deleteMemberInstances r cluster.DBClusterMembers
          ⟨s.calls ++ [Call.describeDBClusters first.Source], s.cleaupWaiters⟩).calls)
        (deleteMemberInstances r cluster.DBClusterMembers
          ⟨s.calls ++ [Call.describeDBClusters first.Source], s.cleaupWaiters⟩)
    have h123 := cleanupAppends_trans (cleanupAppends_trans h1 h2) h3
    exact ⟨appends_trans h123.1 (appends_snocCleanup _ (Call.deleteBlueGreenDeployment id0) rfl),
      h123.2⟩

theorem updateCleanup_appends (r : Remote) (d : ResourceData) (s : CleanupState) :
    CleanupState.Appends NotDeploymentStep s (updateCleanup r d s).1 := by
  have hd : CleanupState.Appends NotDeploymentStep s
      ⟨s.calls ++ [Call.describeBlueGreenDeployments d.cluster_identifier], s.cleaupWaiters⟩ :=
    ⟨appends_snocCleanup _ (Call.describeBlueGreenDeployments d.cluster_identifier) rfl,
      appends_refl _ _⟩
  unfold updateCleanup
  simp only []
  split
  · exact hd
  · exact hd
  · split
    · exact hd
    · exact hd
    · split
      · have hm : CleanupState.Appends NotDeploymentStep s
            ⟨if d.deletion_protection then
                (dbClusterModify r d.cluster_identifier false
                  (s.calls ++ [Call.describeBlueGreenDeployments d.cluster_identifier])).1
              else s.calls ++ [Call.describeBlueGreenDeployments d.cluster_identifier],
             s.cleaupWaiters⟩ := by
          refine cleanupAppends_trans hd ⟨?_, appends_refl _ _⟩
          split
          · exact dbClusterModify_appends _ _ _ _
          · exact appends_refl _ _
        split
        · exact cleanupAppends_trans hm (updateCleanupDeletes_appends _ _ _ _ _)
        · exact hm
      · exact hd

theorem createCleanup_calls (r : Remote) (d : ResourceData) (h : List Call) :
    (createCleanup r d h).calls = h ++ [Call.describeBlueGreenDeployments d.cluster_identifier] := by
  unfold createCleanup
  simp only []
  split
  · rfl
  · split <;> rfl

/-! ## The orchestration table -/

/-- C1 (the code departs from the claim).  Create handler, `create_deployment`
and `switchover_enabled` both true, one deployment record in state
`PROVISIONING`: the deferred closure issues create, lookup, switchover and the
wait for the switchover to complete, and never waits for the deployment to be
available.  The Update handler on the same input does wait before switching
over. -/
theorem create_switches_over_without_waiting_for_available :
    createDeferred (remoteOf [deploymentRecord "bgd-1" "PROVISIONING"] []) (configOf true true false false) []
      = ⟨[Call.createDeploymentCluster, Call.describeBlueGreenDeployments "db-1",
          Call.switchover "bgd-1", Call.waitSwitchoverCompleted "bgd-1"], none⟩
    ∧ updateDeferred (remoteOf [deploymentRecord "bgd-1" "PROVISIONING"] []) (configOf true true false false) []
      = ⟨[Call.createDeploymentCluster, Call.describeBlueGreenDeployments "db-1",
          Call.waitForDeploymentAvailable "bgd-1",
          Call.switchover "bgd-1", Call.waitSwitchoverCompleted "bgd-1"], none⟩ := by
  decide

/-- C2, as stated, fails: when the lookup by name returns no deployment record
the Create handler with `create_deployment` true and `switchover_enabled` false
stops on an index out of range after the create call and the lookup, and no
wait for available is issued; the Update handler does the same. -/
theorem create_only_without_deployment_record :
    createDeferred (remoteOf [] []) (configOf true false false false) []
      = ⟨[Call.createDeploymentCluster, Call.describeBlueGreenDeployments "db-1"],
         some Panic.indexOutOfRange⟩
    ∧ updateDeferred (remoteOf [] []) (configOf true false false false) []
      = ⟨[Call.createDeploymentCluster, Call.describeBlueGreenDeployments "db-1"],
         some Panic.indexOutOfRange⟩ := by
  decide

/-- C2, amended.  In the Create and Update handlers, when `create_deployment`
is true, `switchover_enabled` is false and the lookup by name returns at least
one deployment record, the calls issued are: one create call, the lookup, one
wait for available on the first record returned, and after these no further
deployment operation (no create, no wait for available, no switchover, no wait
for the switchover to complete). -/
theorem create_only_issues_create_then_wait (r : Remote) (d : ResourceData) (h : List Call)
    (dep : BlueGreenDeployment) (more : List BlueGreenDeployment)
    (hcreate : d.create_deployment = true) (hswitch : d.switchover_enabled = false)
    (hlookup : r.deployments (h ++ [Call.createDeploymentCluster]
        ++ [Call.describeBlueGreenDeployments d.cluster_identifier]) = some (dep :: more)) :
    (∃ post, (createDeferred r d h).calls
        = h ++ [Call.createDeploymentCluster, Call.describeBlueGreenDeployments d.cluster_identifier,
                Call.waitForDeploymentAvailable dep.BlueGreenDeploymentIdentifier] ++ post
        ∧ ∀ c ∈ post, c.isDeploymentStep = false)
    ∧ (∃ post, (updateDeferred r d h).calls
        = h ++ [Call.createDeploymentCluster, Call.describeBlueGreenDeployments d.cluster_identifier,
                Call.waitForDeploymentAvailable dep.BlueGreenDeploymentIdentifier] ++ post
        ∧ ∀ c ∈ post, c.isDeploymentStep = false) := by
  constructor
  · have hsteps : createDeploymentSteps r d h
        = ⟨h ++ [Call.createDeploymentCluster]
            ++ [Call.describeBlueGreenDeployments d.cluster_identifier]
            ++ [Call.waitForDeploymentAvailable dep.BlueGreenDeploymentIdentifier], none⟩ := by
      have hb : createBranchCreateOnly r d h
          = ⟨h ++ [Call.createDeploymentCluster]
              ++ [Call.describeBlueGreenDeployments d.cluster_identifier]
              ++ [Call.waitForDeploymentAvailable dep.BlueGreenDeploymentIdentifier], none⟩ := by
        unfold createBranchCreateOnly
        simp only [hlookup, deploymentIds, List.map]
      simp only [createDeploymentSteps, whenThen, Outcome.andThen, hcreate, hswitch, hb,
        Bool.not_false, Bool.and_self, Bool.and_false, Bool.not_true, Bool.false_and, if_true,
        Bool.false_eq_true, if_false]
    unfold createDeferred
    rw [hsteps]
    by_cases hclean : d.cleanup_resources = true
    · refine ⟨[Call.describeBlueGreenDeployments d.cluster_identifier], ?_, ?_⟩
      · simp [Outcome.andThen, whenThen, hclean, createCleanup_calls]
      · intro c hc
        simp at hc
        subst hc
        rfl
    · refine ⟨[], ?_, ?_⟩
      · simp [Outcome.andThen, whenThen, hclean]
      · simp
  · have hsteps : updateDeploymentSteps r d h
        = ⟨h ++ [Call.createDeploymentCluster]
            ++ [Call.describeBlueGreenDeployments d.cluster_identifier]
            ++ [Call.waitForDeploymentAvailable dep.BlueGreenDeploymentIdentifier], none⟩ := by
      have hb : updateBranchCreateOnly r d h
          = ⟨h ++ [Call.createDeploymentCluster]
              ++ [Call.describeBlueGreenDeployments d.cluster_identifier]
              ++ [Call.waitForDeploymentAvailable dep.BlueGreenDeploymentIdentifier], none⟩ := by
        unfold updateBranchCreateOnly
        simp only [hlookup, deploymentIds, List.map]
      simp only [updateDeploymentSteps, whenThen, Outcome.andThen, hcreate, hswitch, hb,
        Bool.not_false, Bool.and_self, Bool.and_false, Bool.not_true, Bool.false_and, if_true,
        Bool.false_eq_true, if_false]
    unfold updateDeferred
    rw [hsteps]
    by_cases hclean : d.cleanup_resources = true
    · obtain ⟨⟨s1, hs1, hp1⟩, ⟨s2, hs2, hp2⟩⟩ := updateCleanup_appends r d
        ⟨h ++ [Call.createDeploymentCluster]
            ++ [Call.describeBlueGreenDeployments d.cluster_identifier]
            ++ [Call.waitForDeploymentAvailable dep.BlueGreenDeploymentIdentifier], []⟩
      refine ⟨s1 ++ s2, ?_, ?_⟩
      · simp only [hclean, if_true]
        rw [hs1, hs2]
        simp
      · intro c hc
        rcases List.mem_append.mp hc with hc | hc
        · exact hp1 c hc
        · exact hp2 c hc
    · refine ⟨[], ?_, ?_⟩
      · simp [hclean]
      · simp

/-- C2, amended, at a concrete input: the cluster `db-1` with one deployment
record `bgd-1` in state `PROVISIONING`. -/
theorem create_only_issues_create_then_wait_witness :
    (∃ post, (createDeferred (remoteOf [deploymentRecord "bgd-1" "PROVISIONING"] [])
          (configOf true false false false) []).calls
        = [] ++ [Call.createDeploymentCluster, Call.describeBlueGreenDeployments "db-1",
                Call.waitForDeploymentAvailable "bgd-1"] ++ post
        ∧ ∀ c ∈ post, c.isDeploymentStep = false)
    ∧ (∃ post, (updateDeferred (remoteOf [deploymentRecord "bgd-1" "PROVISIONING"] [])
          (configOf true false false false) []).calls
        = [] ++ [Call.createDeploymentCluster, Call.describeBlueGreenDeployments "db-1",
                Call.waitForDeploymentAvailable "bgd-1"] ++ post
        ∧ ∀ c ∈ post, c.isDeploymentStep = false) :=
  create_only_issues_create_then_wait (remoteOf [deploymentRecord "bgd-1" "PROVISIONING"] [])
    (configOf true false false false) [] (deploymentRecord "bgd-1" "PROVISIONING") [] rfl rfl rfl

/-- C3 (the code departs from the claim).  Update handler, `create_deployment`
false and `switchover_enabled` true, one deployment record already in state
`SWITCHOVER_COMPLETED`: the switchover call is issued all the same.  The Create
handler on the same input tests the status and issues no switchover. -/
theorem update_switches_over_completed_deployment :
    updateDeferred (remoteOf [deploymentRecord "bgd-1" "SWITCHOVER_COMPLETED"] [])
        (configOf false true false false) []
      = ⟨[Call.describeBlueGreenDeployments "db-1", Call.switchover "bgd-1",
          Call.waitSwitchoverCompleted "bgd-1"], none⟩
    ∧ createDeferred (remoteOf [deploymentRecord "bgd-1" "SWITCHOVER_COMPLETED"] [])
        (configOf false true false false) []
      = ⟨[Call.describeBlueGreenDeployments "db-1"], none⟩ := by
  decide

theorem deploymentStatuses_head (first : BlueGreenDeployment) (more : List BlueGreenDeployment)
    (status0 : String) (rest : List String)
    (h : deploymentStatuses (first :: more) = some (status0 :: rest)) :
    first.Status = some status0 := by
  unfold deploymentStatuses at h
  split at h
  · rename_i s ss hs _
    simp only [Option.some.injEq, List.cons.injEq] at h
    rw [hs, h.1]
  · exact absurd h (by simp)

/-- C4.  In the Create and Update handlers, when `create_deployment` and
`switchover_enabled` are both false, the three flag-guarded branches are all
skipped: they issue no call at all and raise no panic, for every remote and
every earlier history; and whatever the deferred closure issues afterwards
(the cleanup step, guarded by its own flag) is none of the four deployment
operations (create, wait for available, switchover, wait for the switchover to
complete); with `cleanup_resources` false as well, the closures issue nothing. -/
theorem no_deployment_action_when_both_flags_false (r : Remote) (d : ResourceData)
    (h : List Call) (hcreate : d.create_deployment = false)
    (hswitch : d.switchover_enabled = false) :
    createDeploymentSteps r d h = ⟨h, none⟩
    ∧ updateDeploymentSteps r d h = ⟨h, none⟩
    ∧ (∃ post, (createDeferred r d h).calls = h ++ post ∧ ∀ c ∈ post, c.isDeploymentStep = false)
    ∧ (∃ post, (updateDeferred r d h).calls = h ++ post ∧ ∀ c ∈ post, c.isDeploymentStep = false)
    ∧ createDeferred r { d with cleanup_resources := false } h = ⟨h, none⟩
    ∧ updateDeferred r { d with cleanup_resources := false } h = ⟨h, none⟩ := by
  have hc : createDeploymentSteps r d h = ⟨h, none⟩ := by
    simp [createDeploymentSteps, whenThen, Outcome.andThen, hcreate, hswitch]
  have hu : updateDeploymentSteps r d h = ⟨h, none⟩ := by
    simp [updateDeploymentSteps, whenThen, Outcome.andThen, hcreate, hswitch]
  refine ⟨hc, hu, ?_, ?_, ?_, ?_⟩
  rotate_left 2
  · simp [createDeferred, createDeploymentSteps, whenThen, Outcome.andThen, hcreate, hswitch]
  · simp [updateDeferred, updateDeploymentSteps, whenThen, Outcome.andThen, hcreate, hswitch]
  · unfold createDeferred
    rw [hc]
    by_cases hclean : d.cleanup_resources = true
    · refine ⟨[Call.describeBlueGreenDeployments d.cluster_identifier], ?_, ?_⟩
      · simp [Outcome.andThen, whenThen, hclean, createCleanup_calls]
      · intro c hc'
        simp at hc'
        subst hc'
        rfl
    · refine ⟨[], ?_, ?_⟩
      · simp [Outcome.andThen, whenThen, hclean]
      · simp
  · unfold updateDeferred
    rw [hu]
    by_cases hclean : d.cleanup_resources = true
    · obtain ⟨⟨s1, hs1, hp1⟩, ⟨s2, hs2, hp2⟩⟩ := updateCleanup_appends r d ⟨h, []⟩
      refine ⟨s1 ++ s2, ?_, ?_⟩
      · simp only [hclean, if_true]
        rw [hs1, hs2]
        simp
      · intro c hc'
        rcases List.mem_append.mp hc' with hc' | hc'
        · exact hp1 c hc'
        · exact hp2 c hc'
    · refine ⟨[], ?_, ?_⟩
      · simp [hclean]
      · simp

/-- C4 at a concrete input: the cluster `db-1` with a deployment record in
state `AVAILABLE`, both flags false and cleanup requested. -/
theorem no_deployment_action_when_both_flags_false_witness :
    createDeploymentSteps (remoteOf [deploymentRecord "bgd-1" "AVAILABLE"] [sourceCluster])
        (configOf false false true false) [] = ⟨[], none⟩
    ∧ updateDeploymentSteps (remoteOf [deploymentRecord "bgd-1" "AVAILABLE"] [sourceCluster])
        (configOf false false true false) [] = ⟨[], none⟩
    ∧ (∃ post, (createDeferred (remoteOf [deploymentRecord "bgd-1" "AVAILABLE"] [sourceCluster])
        (configOf false false true false) []).calls = [] ++ post
        ∧ ∀ c ∈ post, c.isDeploymentStep = false)
    ∧ (∃ post, (updateDeferred (remoteOf [deploymentRecord "bgd-1" "AVAILABLE"] [sourceCluster])
        (configOf false false true false) []).calls = [] ++ post
        ∧ ∀ c ∈ post, c.isDeploymentStep = false)
    ∧ createDeferred (remoteOf [deploymentRecord "bgd-1" "AVAILABLE"] [sourceCluster])
        { configOf false false true false with cleanup_resources := false } [] = ⟨[], none⟩
    ∧ updateDeferred (remoteOf [deploymentRecord "bgd-1" "AVAILABLE"] [sourceCluster])
        { configOf false false true false with cleanup_resources := false } [] = ⟨[], none⟩ :=
  no_deployment_action_when_both_flags_false
    (remoteOf [deploymentRecord "bgd-1" "AVAILABLE"] [sourceCluster])
    (configOf false false true false) [] rfl rfl

/-! ## Cleanup -/

/-- C5.  The cleanup step is a no-op whenever the status of the deployment is
not `SWITCHOVER_COMPLETED`.  In the Update handler, if the first record of the
lookup (when there is one) has a status other than `SWITCHOVER_COMPLETED`, the
cleanup issues the lookup and nothing else, and registers no waiter: no modify
call, no instance deletion, no cluster deletion, no deployment deletion.  In
the Create handler the cleanup issues the lookup and nothing else for every
remote. -/
theorem cleanup_is_noop_unless_switchover_completed (r : Remote) (d : ResourceData)
    (s : CleanupState) (h : List Call)
    (hstatus : ∀ first more,
      r.deployments (s.calls ++ [Call.describeBlueGreenDeployments d.cluster_identifier])
        = some (first :: more) → first.Status ≠ some "SWITCHOVER_COMPLETED") :
    (updateCleanup r d s).1
      = ⟨s.calls ++ [Call.describeBlueGreenDeployments d.cluster_identifier], s.cleaupWaiters⟩
    ∧ (createCleanup r d h).calls = h ++ [Call.describeBlueGreenDeployments d.cluster_identifier]
    ∧ (Call.describeBlueGreenDeployments d.cluster_identifier).isDestructive = false := by
  refine ⟨?_, createCleanup_calls r d h, rfl⟩
  unfold updateCleanup
  simp only []
  split
  · rfl
  · rfl
  · rename_i first more hlookup
    split
    · rfl
    · rfl
    · rename_i status0 rest hst
      have hfirst := deploymentStatuses_head first more status0 rest hst
      have hne : status0 ≠ "SWITCHOVER_COMPLETED" := by
        intro heq
        exact hstatus first more hlookup (by rw [hfirst, heq])
      rw [if_neg hne]

/-- C5 at concrete inputs: a deployment record in state `AVAILABLE`, with
cleanup requested on a protected cluster. -/
theorem cleanup_is_noop_unless_switchover_completed_witness :
    (updateCleanup (remoteOf [deploymentRecord "bgd-1" "AVAILABLE"] [sourceCluster])
        (configOf true true true true) ⟨[], []⟩).1
      = ⟨[] ++ [Call.describeBlueGreenDeployments "db-1"], []⟩
    ∧ (createCleanup (remoteOf [deploymentRecord "bgd-1" "AVAILABLE"] [sourceCluster])
        (configOf true true true true) []).calls = [] ++ [Call.describeBlueGreenDeployments "db-1"]
    ∧ (Call.describeBlueGreenDeployments "db-1").isDestructive = false :=
  cleanup_is_noop_unless_switchover_completed
    (remoteOf [deploymentRecord "bgd-1" "AVAILABLE"] [sourceCluster])
    (configOf true true true true) ⟨[], []⟩ []
    (by
      intro first more hl
      have hfirst : first = deploymentRecord "bgd-1" "AVAILABLE" := by
        simp only [remoteOf, Option.some.injEq, List.cons.injEq] at hl
        exact hl.1.symm
      rw [hfirst]
      decide)

/-- C6 (the code departs from the claim).  Create handler with
`create_deployment`, `switchover_enabled` and `cleanup_resources` all true and
a deployment in state `SWITCHOVER_COMPLETED`.  With one deployment record the
cleanup reads index 1 of a one-element list and panics; with two records it
passes the guard and only logs.  In both runs no instance, cluster or
deployment is deleted and no wait for the deployment to be absent is made.  The
Update handler on the first input does delete the two member instances, the
cluster and the deployment, and waits for the deployment to be deleted. -/
theorem create_cleanup_deletes_nothing :
    createDeferred (remoteOf [deploymentRecord "bgd-1" "SWITCHOVER_COMPLETED"] [sourceCluster])
        (configOf true true true false) []
      = ⟨[Call.createDeploymentCluster, Call.describeBlueGreenDeployments "db-1",
          Call.switchover "bgd-1", Call.waitSwitchoverCompleted "bgd-1",
          Call.describeBlueGreenDeployments "db-1"], some Panic.indexOutOfRange⟩
    ∧ createDeferred (remoteOf [deploymentRecord "bgd-1" "SWITCHOVER_COMPLETED",
          deploymentRecord "bgd-2" "SWITCHOVER_COMPLETED"] [sourceCluster])
        (configOf true true true false) []
      = ⟨[Call.createDeploymentCluster, Call.describeBlueGreenDeployments "db-1",
          Call.switchover "bgd-1", Call.waitSwitchoverCompleted "bgd-1",
          Call.describeBlueGreenDeployments "db-1"], none⟩
    ∧ updateDeferred (remoteOf [deploymentRecord "bgd-1" "SWITCHOVER_COMPLETED"] [sourceCluster])
        (configOf true true true false) []
      = ⟨[Call.createDeploymentCluster, Call.describeBlueGreenDeployments "db-1",
          Call.waitForDeploymentAvailable "bgd-1",
          Call.switchover "bgd-1", Call.waitSwitchoverCompleted "bgd-1",
          Call.describeBlueGreenDeployments "db-1",
          Call.describeDBClusters "arn:aws:rds:eu-west-1:123456789012:cluster:db-1",
          Call.deleteDBInstance "db-1-a", Call.waitDBInstanceDeleted "db-1-a",
          Call.deleteDBInstance "db-1-b", Call.waitDBInstanceDeleted "db-1-b",
          Call.deleteDBCluster "db-1", Call.deleteBlueGreenDeployment "bgd-1",
          Call.waitDBInstanceDeleted "db-1-a", Call.waitDBInstanceDeleted "db-1-b",
          Call.waitBlueGreenClusterDeploymentDeleted "bgd-1"], none⟩ := by
  decide

/-! ## Plan-time check -/

/-- C9.  The plan-time check returns an error if and only if
`create_deployment` is true and `engine` is not a member of
`dbClusterValidBlueGreenEngines()`; when `create_deployment` is false it
accepts every engine value.  The whole `CustomizeDiff`, once the tag diff that
runs first has passed, returns what the check returns. -/
theorem engine_check_rejects_iff_create_and_unsupported (aurora : String) (d : ResourceData) :
    ((customizeDiffEngineCheck aurora d).isSome = true
        ↔ (d.create_deployment = true ∧ d.engine ∉ dbClusterValidBlueGreenEngines aurora))
    ∧ (∀ engine : String,
        customizeDiffEngineCheck aurora { d with create_deployment := false, engine := engine } = none)
    ∧ customizeDiff aurora none d = customizeDiffEngineCheck aurora d := by
  refine ⟨?_, ?_, rfl⟩
  · unfold customizeDiffEngineCheck
    cases hc : d.create_deployment
    · simp
    · by_cases he : d.engine ∈ dbClusterValidBlueGreenEngines aurora
      · simp [he]
      · simp [he]
  · intro engine
    simp [customizeDiffEngineCheck]

/-! ## Waiting for the deployment to be available -/

/-- A successful wait ends on an answer whose status is in the target set, when
that set is not empty: the answer at position `polls - polled - 1`. -/
theorem waitForStateContext_success (conf : StateChangeConf) (hT : conf.Target.isEmpty = false) :
    ∀ (answers : List Observation) (polled : Nat) (last : String),
      (WaitForStateContext conf answers polled last).err = none →
      ∃ k o, (WaitForStateContext conf answers polled last).polls = polled + k + 1
        ∧ answers[k]? = some o ∧ o.status ∈ conf.Target
        ∧ (WaitForStateContext conf answers polled last).output = o.object := by
  intro answers
  induction answers with
  | nil =>
    intro polled last h
    simp [WaitForStateContext] at h
  | cons o rest ih =>
    intro polled last h
    cases herr : o.err with
    | some e => simp [WaitForStateContext, herr] at h
    | none =>
      cases hobj : o.object with
      | none =>
        have hstep : WaitForStateContext conf (o :: rest) polled last
            = WaitForStateContext conf rest (polled + 1) o.status := by
          simp [WaitForStateContext, herr, hobj, hT]
        rw [hstep] at h ⊢
        obtain ⟨k, o', hk, hget, ht, hout⟩ := ih (polled + 1) o.status h
        exact ⟨k + 1, o', by omega, by simpa using hget, ht, hout⟩
      | some obj =>
        by_cases ht : o.status ∈ conf.Target
        · have hstep : WaitForStateContext conf (o :: rest) polled last = ⟨some obj, none, polled + 1⟩ := by
            simp [WaitForStateContext, herr, hobj, ht]
          rw [hstep]
          exact ⟨0, o, by simp, by simp, ht, by simp [hobj]⟩
        · by_cases hp : o.status ∈ conf.Pending
          · have hstep : WaitForStateContext conf (o :: rest) polled last
                = WaitForStateContext conf rest (polled + 1) o.status := by
              simp [WaitForStateContext, herr, hobj, ht, hp]
            rw [hstep] at h ⊢
            obtain ⟨k, o', hk, hget, ht', hout⟩ := ih (polled + 1) o.status h
            exact ⟨k + 1, o', by omega, by simpa using hget, ht', hout⟩
          · simp [WaitForStateContext, herr, hobj, ht, hp] at h

/-- After any run of pending answers, an answer whose status is in neither set
ends the wait at that very poll with the unexpected-state error. -/
theorem waitForStateContext_unexpected (conf : StateChangeConf) (o : Observation)
    (obj : BlueGreenDeployment) (rest : List Observation)
    (hobj : o.object = some obj) (herr : o.err = none)
    (hT : o.status ∉ conf.Target) (hP : o.status ∉ conf.Pending) :
    ∀ (pre : List Observation) (polled : Nat) (last : String),
      (∀ p ∈ pre, p.err = none ∧ p.object.isSome = true ∧ p.status ∈ conf.Pending
          ∧ p.status ∉ conf.Target) →
      WaitForStateContext conf (pre ++ o :: rest) polled last
        = ⟨some obj, some (WaitError.unexpectedState o.status none), polled + pre.length + 1⟩ := by
  intro pre
  induction pre with
  | nil =>
    intro polled last _
    simp [WaitForStateContext, hobj, herr, hT, hP]
  | cons p pre ih =>
    intro polled last hpre
    obtain ⟨hperr, hpobj, hpP, hpT⟩ := hpre p (by simp)
    obtain ⟨pobj, hpobj'⟩ := Option.isSome_iff_exists.mp hpobj
    have hrest := ih (polled + 1) p.status (fun q hq => hpre q (by simp [hq]))
    have hstep : WaitForStateContext conf (p :: pre ++ o :: rest) polled last
        = WaitForStateContext conf (pre ++ o :: rest) (polled + 1) p.status := by
      simp [WaitForStateContext, hperr, hpobj', hpT, hpP]
    rw [hstep, hrest]
    simp only [List.length_cons, WaitResult.mk.injEq, true_and]
    omega

/-- C10.  `waitBlueGreenDeploymentClusterAvailable` is configured with pending
`PROVISIONING` and target `AVAILABLE`.  For every sequence `answers` of answers
of the prober on which the wait returns success, the answer at which it
returned has status `AVAILABLE` (and is the object returned).  If, after any number of
`PROVISIONING` answers, the status `INVALID_CONFIGURATION` is observed, the
wait fails at that very poll with an unexpected-state error, whatever answers
would have followed. -/
theorem wait_available_succeeds_only_on_available (answers pre rest : List Observation)
    (o : Observation) (obj : BlueGreenDeployment)
    (hsucc : (waitBlueGreenDeploymentClusterAvailable answers).err = none)
    (hpre : ∀ p ∈ pre, p.err = none ∧ p.object.isSome = true ∧ p.status = "PROVISIONING")
    (hobj : o.object = some obj) (herr : o.err = none)
    (hstatus : o.status = "INVALID_CONFIGURATION") :
    waitBlueGreenDeploymentClusterAvailableConf = ⟨["PROVISIONING"], ["AVAILABLE"]⟩
    ∧ (∃ k a, (waitBlueGreenDeploymentClusterAvailable answers).polls = k + 1
          ∧ answers[k]? = some a ∧ a.status = "AVAILABLE"
          ∧ (waitBlueGreenDeploymentClusterAvailable answers).output = a.object)
    ∧ waitBlueGreenDeploymentClusterAvailable (pre ++ o :: rest)
        = ⟨some obj, some (WaitError.unexpectedState "INVALID_CONFIGURATION" none), pre.length + 1⟩ := by
  refine ⟨rfl, ?_, ?_⟩
  · have hres : (WaitForStateContext waitBlueGreenDeploymentClusterAvailableConf answers 0 "").err = none := by
      unfold waitBlueGreenDeploymentClusterAvailable at hsucc
      simp only [] at hsucc
      split at hsucc <;> exact hsucc
    obtain ⟨k, a, hk, hget, ht, hout⟩ :=
      waitForStateContext_success waitBlueGreenDeploymentClusterAvailableConf rfl answers 0 "" hres
    refine ⟨k, a, ?_, hget, ?_, ?_⟩
    · unfold waitBlueGreenDeploymentClusterAvailable
      simp only []
      split <;> simpa using hk
    · simpa [waitBlueGreenDeploymentClusterAvailableConf] using ht
    · unfold waitBlueGreenDeploymentClusterAvailable
      simp only []
      split
      · rename_i out hout'
        rw [← hout, hout']
      · rename_i hout'
        rw [← hout, hout']
  · have h := waitForStateContext_unexpected waitBlueGreenDeploymentClusterAvailableConf o obj rest hobj herr
      (by rw [hstatus]; decide) (by rw [hstatus]; decide) pre 0 ""
      (fun p hp => by
        obtain ⟨h1, h2, h3⟩ := hpre p hp
        refine ⟨h1, h2, ?_, ?_⟩ <;> rw [h3] <;> decide)
    unfold waitBlueGreenDeploymentClusterAvailable
    rw [h, hstatus]
    simp

/-- C10 at concrete inputs: a wait that succeeds on `PROVISIONING`, `AVAILABLE`;
and two `PROVISIONING` answers, then `INVALID_CONFIGURATION`, then an
`AVAILABLE` answer that is never polled. -/
theorem wait_available_succeeds_only_on_available_witness :
    waitBlueGreenDeploymentClusterAvailableConf = ⟨["PROVISIONING"], ["AVAILABLE"]⟩
    ∧ (∃ k a, (waitBlueGreenDeploymentClusterAvailable
            [observed "PROVISIONING", observed "AVAILABLE"]).polls = k + 1
          ∧ [observed "PROVISIONING", observed "AVAILABLE"][k]? = some a ∧ a.status = "AVAILABLE"
          ∧ (waitBlueGreenDeploymentClusterAvailable
              [observed "PROVISIONING", observed "AVAILABLE"]).output = a.object)
    ∧ waitBlueGreenDeploymentClusterAvailable
        ([observed "PROVISIONING", observed "PROVISIONING"]
          ++ observed "INVALID_CONFIGURATION" :: [observed "AVAILABLE"])
        = ⟨some (deploymentRecord "bgd-1" "INVALID_CONFIGURATION"),
           some (WaitError.unexpectedState "INVALID_CONFIGURATION" none), 2 + 1⟩ :=
  wait_available_succeeds_only_on_available [observed "PROVISIONING", observed "AVAILABLE"]
    [observed "PROVISIONING", observed "PROVISIONING"] [observed "AVAILABLE"]
    (observed "INVALID_CONFIGURATION") (deploymentRecord "bgd-1" "INVALID_CONFIGURATION")
    (by decide) (by decide) rfl rfl rfl

/-! ## The other waiters -/

/-- A run of answers that show an object in a pending status is polled through:
the wait goes on with the answers that follow. -/
theorem waitForStateContext_skip_pending (conf : StateChangeConf) (rest : List Observation) :
    ∀ (pre : List Observation) (polled : Nat) (last : String),
      (∀ p ∈ pre, p.err = none ∧ p.object.isSome = true ∧ p.status ∈ conf.Pending
          ∧ p.status ∉ conf.Target) →
      WaitForStateContext conf (pre ++ rest) polled last
        = WaitForStateContext conf rest (polled + pre.length)
            ((pre.getLast?.map (fun p => p.status)).getD last) := by
  intro pre
  induction pre with
  | nil =>
    intro polled last _
    simp
  | cons p pre ih =>
    intro polled last hpre
    obtain ⟨hperr, hpobj, hpP, hpT⟩ := hpre p (by simp)
    obtain ⟨pobj, hpobj'⟩ := Option.isSome_iff_exists.mp hpobj
    have hrest := ih (polled + 1) p.status (fun q hq => hpre q (by simp [hq]))
    have hstep : WaitForStateContext conf (p :: pre ++ rest) polled last
        = WaitForStateContext conf (pre ++ rest) (polled + 1) p.status := by
      simp [WaitForStateContext, hperr, hpobj', hpT, hpP]
    rw [hstep, hrest]
    have hlen : polled + 1 + pre.length = polled + (p :: pre).length := by
      simp only [List.length_cons]; omega
    rw [hlen]
    congr 1
    cases pre with
    | nil => simp
    | cons q pre' =>
      rw [List.getLast?_cons_cons]
      cases hl : (q :: pre').getLast? with
      | none => simp at hl
      | some x => simp

/-- C11.  `waitBlueGreenDeploymenClusterSwitchoverCompleted` is configured with
pending `SWITCHOVER_IN_PROGRESS` and target `SWITCHOVER_COMPLETED`, and behaves
so: answers in `SWITCHOVER_IN_PROGRESS` are polled through (a run of them alone
ends on the timeout after every one was polled), and an answer in
`SWITCHOVER_COMPLETED` after them ends the wait with success at that poll.
When, after any number of `SWITCHOVER_IN_PROGRESS` answers, the prober shows a
deployment whose status is `INVALID_CONFIGURATION` or `SWITCHOVER_FAILED`, the
wait fails at that very poll, whatever answers would have followed, it returns
that deployment, and the last error of the returned error is the
`StatusDetails` message of that deployment. -/
theorem switchover_completed_wait_carries_status_details (pre rest : List Observation)
    (failed done : BlueGreenDeployment)
    (hpre : ∀ p ∈ pre, p.err = none ∧ p.object.isSome = true
      ∧ p.status = "SWITCHOVER_IN_PROGRESS")
    (hfailed : failed.Status = some "INVALID_CONFIGURATION"
      ∨ failed.Status = some "SWITCHOVER_FAILED") :
    waitBlueGreenDeploymenClusterSwitchoverCompletedConf
      = ⟨["SWITCHOVER_IN_PROGRESS"], ["SWITCHOVER_COMPLETED"]⟩
    ∧ waitBlueGreenDeploymenClusterSwitchoverCompleted pre
      = ⟨none, some (WaitError.timeout ((pre.getLast?.map (fun p => p.status)).getD "") none),
         pre.length⟩
    ∧ waitBlueGreenDeploymenClusterSwitchoverCompleted
        (pre ++ ⟨some done, "SWITCHOVER_COMPLETED", none⟩ :: rest)
      = ⟨some done, none, pre.length + 1⟩
    ∧ waitBlueGreenDeploymenClusterSwitchoverCompleted
        (pre ++ ⟨some failed, failed.Status.getD "", none⟩ :: rest)
      = ⟨some failed,
         some (WaitError.unexpectedState (failed.Status.getD "") (some failed.StatusDetails)),
         pre.length + 1⟩
    ∧ (waitBlueGreenDeploymenClusterSwitchoverCompleted
        (pre ++ ⟨some failed, failed.Status.getD "", none⟩ :: rest)).err.bind WaitError.lastError
      = some failed.StatusDetails := by
  have hpending : ∀ p ∈ pre, p.err = none ∧ p.object.isSome = true
      ∧ p.status ∈ waitBlueGreenDeploymenClusterSwitchoverCompletedConf.Pending
      ∧ p.status ∉ waitBlueGreenDeploymenClusterSwitchoverCompletedConf.Target := by
    intro p hp
    obtain ⟨h1, h2, h3⟩ := hpre p hp
    refine ⟨h1, h2, ?_, ?_⟩ <;> rw [h3] <;> decide
  have htimeout : waitBlueGreenDeploymenClusterSwitchoverCompleted pre
      = ⟨none, some (WaitError.timeout ((pre.getLast?.map (fun p => p.status)).getD "") none),
         pre.length⟩ := by
    have h := waitForStateContext_skip_pending waitBlueGreenDeploymenClusterSwitchoverCompletedConf
      [] pre 0 "" hpending
    rw [List.append_nil] at h
    unfold waitBlueGreenDeploymenClusterSwitchoverCompleted waitSwitchoverWith
    rw [h]
    simp [WaitForStateContext]
  have hdone : waitBlueGreenDeploymenClusterSwitchoverCompleted
        (pre ++ ⟨some done, "SWITCHOVER_COMPLETED", none⟩ :: rest)
      = ⟨some done, none, pre.length + 1⟩ := by
    have h := waitForStateContext_skip_pending waitBlueGreenDeploymenClusterSwitchoverCompletedConf
      (⟨some done, "SWITCHOVER_COMPLETED", none⟩ :: rest) pre 0 "" hpending
    unfold waitBlueGreenDeploymenClusterSwitchoverCompleted waitSwitchoverWith
    rw [h]
    simp [WaitForStateContext, waitBlueGreenDeploymenClusterSwitchoverCompletedConf, SetLastError]
  have hfail : waitBlueGreenDeploymenClusterSwitchoverCompleted
        (pre ++ ⟨some failed, failed.Status.getD "", none⟩ :: rest)
      = ⟨some failed,
         some (WaitError.unexpectedState (failed.Status.getD "") (some failed.StatusDetails)),
         pre.length + 1⟩ := by
    have hT : (failed.Status.getD "")
        ∉ waitBlueGreenDeploymenClusterSwitchoverCompletedConf.Target := by
      rcases hfailed with h1 | h1 <;> rw [h1] <;> decide
    have hP : (failed.Status.getD "")
        ∉ waitBlueGreenDeploymenClusterSwitchoverCompletedConf.Pending := by
      rcases hfailed with h1 | h1 <;> rw [h1] <;> decide
    have h := waitForStateContext_unexpected
      waitBlueGreenDeploymenClusterSwitchoverCompletedConf
      ⟨some failed, failed.Status.getD "", none⟩ failed rest rfl rfl hT hP pre 0 "" hpending
    have hcond : failed.Status.getD "" = "INVALID_CONFIGURATION"
        ∨ failed.Status.getD "" = "SWITCHOVER_FAILED" := by
      rcases hfailed with h1 | h1
      · left; rw [h1]; rfl
      · right; rw [h1]; rfl
    unfold waitBlueGreenDeploymenClusterSwitchoverCompleted waitSwitchoverWith
    rw [h]
    simp only [hcond, if_true, SetLastError, Nat.zero_add]
  refine ⟨rfl, htimeout, hdone, hfail, ?_⟩
  rw [hfail]
  rfl

/-- C11 at a concrete input: two `SWITCHOVER_IN_PROGRESS` answers, then a
deployment in `SWITCHOVER_FAILED` whose status detail is `replication lag`, then
an answer that is never polled. -/
theorem switchover_completed_wait_carries_status_details_witness :
    waitBlueGreenDeploymenClusterSwitchoverCompletedConf
      = ⟨["SWITCHOVER_IN_PROGRESS"], ["SWITCHOVER_COMPLETED"]⟩
    ∧ waitBlueGreenDeploymenClusterSwitchoverCompleted
        [observed "SWITCHOVER_IN_PROGRESS", observed "SWITCHOVER_IN_PROGRESS"]
      = ⟨none, some (WaitError.timeout
          (([observed "SWITCHOVER_IN_PROGRESS", observed "SWITCHOVER_IN_PROGRESS"].getLast?.map
            (fun p => p.status)).getD "") none),
         [observed "SWITCHOVER_IN_PROGRESS", observed "SWITCHOVER_IN_PROGRESS"].length⟩
    ∧ waitBlueGreenDeploymenClusterSwitchoverCompleted
        ([observed "SWITCHOVER_IN_PROGRESS", observed "SWITCHOVER_IN_PROGRESS"]
          ++ ⟨some (deploymentRecord "bgd-1" "SWITCHOVER_COMPLETED"), "SWITCHOVER_COMPLETED", none⟩
            :: [observed "SWITCHOVER_IN_PROGRESS"])
      = ⟨some (deploymentRecord "bgd-1" "SWITCHOVER_COMPLETED"), none,
         [observed "SWITCHOVER_IN_PROGRESS", observed "SWITCHOVER_IN_PROGRESS"].length + 1⟩
    ∧ waitBlueGreenDeploymenClusterSwitchoverCompleted
        ([observed "SWITCHOVER_IN_PROGRESS", observed "SWITCHOVER_IN_PROGRESS"]
          ++ ⟨some { deploymentRecord "bgd-1" "SWITCHOVER_FAILED" with
                      StatusDetails := "replication lag" },
              ({ deploymentRecord "bgd-1" "SWITCHOVER_FAILED" with
                  StatusDetails := "replication lag" } : BlueGreenDeployment).Status.getD "",
              none⟩ :: [observed "SWITCHOVER_IN_PROGRESS"])
      = ⟨some { deploymentRecord "bgd-1" "SWITCHOVER_FAILED" with
                 StatusDetails := "replication lag" },
         some (WaitError.unexpectedState
           (({ deploymentRecord "bgd-1" "SWITCHOVER_FAILED" with
                StatusDetails := "replication lag" } : BlueGreenDeployment).Status.getD "")
           (some ({ deploymentRecord "bgd-1" "SWITCHOVER_FAILED" with
                StatusDetails := "replication lag" } : BlueGreenDeployment).StatusDetails)),
         [observed "SWITCHOVER_IN_PROGRESS", observed "SWITCHOVER_IN_PROGRESS"].length + 1⟩
    ∧ (waitBlueGreenDeploymenClusterSwitchoverCompleted
        ([observed "SWITCHOVER_IN_PROGRESS", observed "SWITCHOVER_IN_PROGRESS"]
          ++ ⟨some { deploymentRecord "bgd-1" "SWITCHOVER_FAILED" with
                      StatusDetails := "replication lag" },
              ({ deploymentRecord "bgd-1" "SWITCHOVER_FAILED" with
                  StatusDetails := "replication lag" } : BlueGreenDeployment).Status.getD "",
              none⟩ :: [observed "SWITCHOVER_IN_PROGRESS"])).err.bind WaitError.lastError
      = some ({ deploymentRecord "bgd-1" "SWITCHOVER_FAILED" with
                StatusDetails := "replication lag" } : BlueGreenDeployment).StatusDetails :=
  switchover_completed_wait_carries_status_details
    [observed "SWITCHOVER_IN_PROGRESS", observed "SWITCHOVER_IN_PROGRESS"]
    [observed "SWITCHOVER_IN_PROGRESS"]
    { deploymentRecord "bgd-1" "SWITCHOVER_FAILED" with StatusDetails := "replication lag" }
    (deploymentRecord "bgd-1" "SWITCHOVER_COMPLETED") (by decide) (Or.inr rfl)

/-- C12 (the code departs from the claim).  `waitBlueGreenClusterDeploymentAvailable`
lists `INVALID_CONFIGURATION` and `SWITCHOVER_FAILED` in its pending set: on the
answers `INVALID_CONFIGURATION`, `INVALID_CONFIGURATION`, `SWITCHOVER_FAILED` it
polls all three and ends on the timeout.  The other five waiters for a status
have neither status in their pending set, and
`waitBlueGreenDeploymentClusterAvailable` stops at the first of these answers. -/
theorem cluster_deployment_available_wait_polls_failed_states :
    "INVALID_CONFIGURATION" ∈ waitBlueGreenClusterDeploymentAvailableConf.Pending
    ∧ "SWITCHOVER_FAILED" ∈ waitBlueGreenClusterDeploymentAvailableConf.Pending
    ∧ waitBlueGreenClusterDeploymentAvailable
        [observed "INVALID_CONFIGURATION", observed "INVALID_CONFIGURATION",
         observed "SWITCHOVER_FAILED"]
      = ⟨none, some (WaitError.timeout "SWITCHOVER_FAILED" none), 3⟩
    ∧ waitBlueGreenDeploymentClusterAvailable
        [observed "INVALID_CONFIGURATION", observed "INVALID_CONFIGURATION",
         observed "SWITCHOVER_FAILED"]
      = ⟨some (deploymentRecord "bgd-1" "INVALID_CONFIGURATION"),
         some (WaitError.unexpectedState "INVALID_CONFIGURATION" none), 1⟩
    ∧ (∀ conf ∈ [waitBlueGreenDeploymentClusterAvailableConf,
          waitBlueGreenDeploymenClusterSwitchoverDeletingConf,
          waitBlueGreenDeploymenClusterSwitchoverInProgressConf,
          waitBlueGreenDeploymenClusterSwitchoverAvailableConf,
          waitBlueGreenDeploymenClusterSwitchoverCompletedConf],
        "INVALID_CONFIGURATION" ∉ conf.Pending ∧ "SWITCHOVER_FAILED" ∉ conf.Pending) := by
  decide

/-- C13.  `waitBlueGreenClusterDeploymentDeleted` has an empty target set and
the seven deployment statuses as its pending set.  The prober reports a
not-found deployment as (nil object, empty status, nil error).  After any run
of answers that show the deployment in one of the seven statuses, the wait
succeeds at the very poll at which absence is observed, whatever answers would
have followed; and on a run of such answers alone it polls every one of them,
neither succeeding nor failing on a status, and ends only on the timeout. -/
theorem deleted_wait_succeeds_on_absence (pre rest : List Observation)
    (hpre : ∀ p ∈ pre, p.err = none ∧ p.object.isSome = true
      ∧ p.status ∈ ["PROVISIONING", "AVAILABLE", "SWITCHOVER_IN_PROGRESS", "SWITCHOVER_COMPLETED",
                    "INVALID_CONFIGURATION", "SWITCHOVER_FAILED", "DELETING"]) :
    waitBlueGreenClusterDeploymentDeletedConf
      = ⟨["PROVISIONING", "AVAILABLE", "SWITCHOVER_IN_PROGRESS", "SWITCHOVER_COMPLETED",
          "INVALID_CONFIGURATION", "SWITCHOVER_FAILED", "DELETING"], []⟩
    ∧ statusBlueGreenClusterDeployment FindResult.notFound = ⟨none, "", none⟩
    ∧ waitBlueGreenClusterDeploymentDeleted
        (pre ++ statusBlueGreenClusterDeployment FindResult.notFound :: rest)
      = ⟨none, none, pre.length + 1⟩
    ∧ waitBlueGreenClusterDeploymentDeleted pre
      = ⟨none, some (WaitError.timeout ((pre.getLast?.map (fun p => p.status)).getD "") none),
         pre.length⟩ := by
  have hpending : ∀ p ∈ pre, p.err = none ∧ p.object.isSome = true
      ∧ p.status ∈ waitBlueGreenClusterDeploymentDeletedConf.Pending
      ∧ p.status ∉ waitBlueGreenClusterDeploymentDeletedConf.Target := by
    intro p hp
    obtain ⟨h1, h2, h3⟩ := hpre p hp
    exact ⟨h1, h2, h3, by simp [waitBlueGreenClusterDeploymentDeletedConf]⟩
  refine ⟨rfl, rfl, ?_, ?_⟩
  · have h := waitForStateContext_skip_pending waitBlueGreenClusterDeploymentDeletedConf
      (statusBlueGreenClusterDeployment FindResult.notFound :: rest) pre 0 "" hpending
    unfold waitBlueGreenClusterDeploymentDeleted
    rw [h]
    simp [WaitForStateContext, statusBlueGreenClusterDeployment,
      waitBlueGreenClusterDeploymentDeletedConf]
  · have h := waitForStateContext_skip_pending waitBlueGreenClusterDeploymentDeletedConf
      [] pre 0 "" hpending
    unfold waitBlueGreenClusterDeploymentDeleted
    rw [List.append_nil] at h
    rw [h]
    simp [WaitForStateContext]

/-- C13 at a concrete input: the deployment is seen in `SWITCHOVER_COMPLETED`,
then in `DELETING`, then it is absent. -/
theorem deleted_wait_succeeds_on_absence_witness :
    waitBlueGreenClusterDeploymentDeletedConf
      = ⟨["PROVISIONING", "AVAILABLE", "SWITCHOVER_IN_PROGRESS", "SWITCHOVER_COMPLETED",
          "INVALID_CONFIGURATION", "SWITCHOVER_FAILED", "DELETING"], []⟩
    ∧ statusBlueGreenClusterDeployment FindResult.notFound = ⟨none, "", none⟩
    ∧ waitBlueGreenClusterDeploymentDeleted
        ([observed "SWITCHOVER_COMPLETED", observed "DELETING"]
          ++ statusBlueGreenClusterDeployment FindResult.notFound :: [observed "AVAILABLE"])
      = ⟨none, none, [observed "SWITCHOVER_COMPLETED", observed "DELETING"].length + 1⟩
    ∧ waitBlueGreenClusterDeploymentDeleted [observed "SWITCHOVER_COMPLETED", observed "DELETING"]
      = ⟨none, some (WaitError.timeout
          (([observed "SWITCHOVER_COMPLETED", observed "DELETING"].getLast?.map
            (fun p => p.status)).getD "") none),
         [observed "SWITCHOVER_COMPLETED", observed "DELETING"].length⟩ :=
  deleted_wait_succeeds_on_absence [observed "SWITCHOVER_COMPLETED", observed "DELETING"]
    [observed "AVAILABLE"] (by decide)

/-! ## Failure handling in the handlers -/

theorem resourceClusterBlueGreenRead_diags (r : Remote) (d : ResourceData) (st : ResourceState)
    (h : List Call) : (resourceClusterBlueGreenRead r d st h).diags = [] := by
  unfold resourceClusterBlueGreenRead
  simp only []
  split
  · rfl
  · split
    · rfl
    · split <;> rfl

theorem create_returns_no_diagnostic_aux (r : Remote) (d : ResourceData) (st : ResourceState)
    (h : List Call) : (resourceClusterBlueGreenCreate r d st h).diags = [] := by
  unfold resourceClusterBlueGreenCreate
  simp only []
  split
  · rfl
  · exact resourceClusterBlueGreenRead_diags _ _ _ _

/-- C14 (the code departs from the claim).  In the Create handler the create
call returns the error `AccessDenied`, which is not the already-exists case:
the handler returns no diagnostic and goes on to the wait.  When every
deployment step fails with that error (create and wait for available without
`switchover_enabled`; create, switchover and wait for the switchover with it),
the handler still returns no diagnostic; indeed it returns none on any input.
The deferred closure of the Delete handler, in the same file, does surface the
error of its failed call as a diagnostic of the named result. -/
theorem create_failure_is_not_surfaced (r : Remote) (d : ResourceData) (st : ResourceState)
    (h : List Call) :
    (remoteFailing (fun c => c == Call.createDeploymentCluster)
        [deploymentRecord "bgd-1" "PROVISIONING"] [sourceCluster]).result
      [Call.findDBClusterByID "db-1", Call.describeBlueGreenDeployments "db-1",
       Call.findDBClusterByID "db-1", Call.createDeploymentCluster]
      = some ⟨"AccessDenied", "not authorized"⟩
    ∧ (resourceClusterBlueGreenCreate (remoteFailing (fun c => c == Call.createDeploymentCluster)
        [deploymentRecord "bgd-1" "PROVISIONING"] [sourceCluster])
        (configOf true false false false) stateOf []).diags = []
    ∧ (resourceClusterBlueGreenCreate (remoteFailing (fun c => c == Call.createDeploymentCluster)
        [deploymentRecord "bgd-1" "PROVISIONING"] [sourceCluster])
        (configOf true false false false) stateOf []).calls
      = [Call.findDBClusterByID "db-1", Call.describeBlueGreenDeployments "db-1",
         Call.findDBClusterByID "db-1", Call.createDeploymentCluster,
         Call.describeBlueGreenDeployments "db-1", Call.waitForDeploymentAvailable "bgd-1"]
    ∧ (resourceClusterBlueGreenCreate (remoteFailing (fun c => c == Call.createDeploymentCluster)
        [deploymentRecord "bgd-1" "PROVISIONING"] [sourceCluster])
        (configOf true false false false) stateOf []).panic = none
    ∧ resourceClusterBlueGreenCreate (remoteFailing (fun c => c.isDeploymentStep)
        [deploymentRecord "bgd-1" "PROVISIONING"] [sourceCluster])
        (configOf true false false false) stateOf []
      = ⟨[], configOf true false false false,
         { stateOf with cluster_members := ["db-1-a", "db-1-b"] },
         [Call.findDBClusterByID "db-1", Call.describeBlueGreenDeployments "db-1",
          Call.findDBClusterByID "db-1", Call.createDeploymentCluster,
          Call.describeBlueGreenDeployments "db-1", Call.waitForDeploymentAvailable "bgd-1"],
         none⟩
    ∧ resourceClusterBlueGreenCreate (remoteFailing (fun c => c.isDeploymentStep)
        [deploymentRecord "bgd-1" "PROVISIONING"] [sourceCluster])
        (configOf true true false false) stateOf []
      = ⟨[], configOf true true false false,
         { stateOf with cluster_members := ["db-1-a", "db-1-b"] },
         [Call.findDBClusterByID "db-1", Call.describeBlueGreenDeployments "db-1",
          Call.findDBClusterByID "db-1", Call.createDeploymentCluster,
          Call.describeBlueGreenDeployments "db-1", Call.switchover "bgd-1",
          Call.waitSwitchoverCompleted "bgd-1"],
         none⟩
    ∧ (resourceClusterBlueGreenCreate r d st h).diags = []
    ∧ (resourceClusterBlueGreenDelete
        (remoteFailing (fun c => c == Call.deleteBlueGreenDeployment "bgd-1")
          [deploymentRecord "bgd-1" "AVAILABLE"] [sourceCluster])
        (configOf false false false false) stateOf []).diags
      = ["updating RDS DB Cluster (db-1): deleting Blue/Green Deployment: not authorized"] :=
  ⟨by decide, by decide, by decide, by decide, by decide, by decide,
   create_returns_no_diagnostic_aux r d st h, by decide⟩

/-- C15 (the code departs from the claim).  Every deployment step returns the
error `AccessDenied`, and every later step is issued all the same.  In the
Update handler the failed create is followed by the wait for available, the
failed wait by the switchover, the failed switchover by the wait for the
switchover.  In the Create handler the failed create is followed by the wait for
available (without `switchover_enabled`) or by the switchover, and the failed
switchover by its wait.  The deferred closure of the Delete handler, in the
same file, does halt: after the failed `DeleteBlueGreenDeployment` it returns
and the wait for the deletion is not issued. -/
theorem failed_steps_do_not_halt_the_run :
    updateDeferred (remoteFailing (fun c => c.isDeploymentStep)
        [deploymentRecord "bgd-1" "PROVISIONING"] []) (configOf true true false false) []
      = ⟨[Call.createDeploymentCluster, Call.describeBlueGreenDeployments "db-1",
          Call.waitForDeploymentAvailable "bgd-1",
          Call.switchover "bgd-1", Call.waitSwitchoverCompleted "bgd-1"], none⟩
    ∧ updateDeferred (remoteFailing (fun c => c.isDeploymentStep)
        [deploymentRecord "bgd-1" "PROVISIONING"] []) (configOf true false false false) []
      = ⟨[Call.createDeploymentCluster, Call.describeBlueGreenDeployments "db-1",
          Call.waitForDeploymentAvailable "bgd-1"], none⟩
    ∧ createDeferred (remoteFailing (fun c => c.isDeploymentStep)
        [deploymentRecord "bgd-1" "PROVISIONING"] []) (configOf true true false false) []
      = ⟨[Call.createDeploymentCluster, Call.describeBlueGreenDeployments "db-1",
          Call.switchover "bgd-1", Call.waitSwitchoverCompleted "bgd-1"], none⟩
    ∧ createDeferred (remoteFailing (fun c => c.isDeploymentStep)
        [deploymentRecord "bgd-1" "PROVISIONING"] []) (configOf true false false false) []
      = ⟨[Call.createDeploymentCluster, Call.describeBlueGreenDeployments "db-1",
          Call.waitForDeploymentAvailable "bgd-1"], none⟩
    ∧ (remoteFailing (fun c => c.isDeploymentStep)
        [deploymentRecord "bgd-1" "PROVISIONING"] []).result [Call.createDeploymentCluster]
      = some ⟨"AccessDenied", "not authorized"⟩
    ∧ (remoteFailing (fun c => c.isDeploymentStep)
        [deploymentRecord "bgd-1" "PROVISIONING"] []).result
        [Call.createDeploymentCluster, Call.describeBlueGreenDeployments "db-1",
         Call.waitForDeploymentAvailable "bgd-1"]
      = some ⟨"AccessDenied", "not authorized"⟩
    ∧ (remoteFailing (fun c => c.isDeploymentStep)
        [deploymentRecord "bgd-1" "PROVISIONING"] []).result
        [Call.createDeploymentCluster, Call.describeBlueGreenDeployments "db-1",
         Call.waitForDeploymentAvailable "bgd-1", Call.switchover "bgd-1"]
      = some ⟨"AccessDenied", "not authorized"⟩
    ∧ (resourceClusterBlueGreenDelete
        (remoteFailing (fun c => c == Call.deleteBlueGreenDeployment "bgd-1")
          [deploymentRecord "bgd-1" "AVAILABLE"] [sourceCluster])
        (configOf false false false false) stateOf []).calls
      = [Call.findDBClusterByID "db-1", Call.describeBlueGreenDeployments "db-1",
         Call.findDBClusterByID "db-1", Call.describeBlueGreenDeployments "db-1",
         Call.waitDBClusterAvailable "db-1", Call.deleteBlueGreenDeployment "bgd-1"]
    ∧ (resourceClusterBlueGreenDelete (remoteOf [deploymentRecord "bgd-1" "AVAILABLE"]
          [sourceCluster]) (configOf false false false false) stateOf []).calls
      = [Call.findDBClusterByID "db-1", Call.describeBlueGreenDeployments "db-1",
         Call.findDBClusterByID "db-1", Call.describeBlueGreenDeployments "db-1",
         Call.waitDBClusterAvailable "db-1", Call.deleteBlueGreenDeployment "bgd-1",
         Call.waitBlueGreenClusterDeploymentDeleted "bgd-1"] := by
  decide

theorem andThen_appends {P : Call → Prop} {h : List Call} {o : Outcome}
    {f : List Call → Outcome} (ho : Appends P h o.calls)
    (hf : ∀ h', Appends P h' (f h').calls) : Appends P h (o.andThen f).calls := by
  unfold Outcome.andThen
  split
  · exact ho
  · exact appends_trans ho (hf _)

theorem whenThen_appends {P : Call → Prop} (cond : Bool) {body : List Call → Outcome}
    (hbody : ∀ h, Appends P h (body h).calls) (h : List Call) :
    Appends P h (whenThen cond body h).calls := by
  unfold whenThen
  split
  · exact hbody h
  · exact appends_refl _ _

theorem createBranchCreateOnly_appends {P : Call → Prop}
    (hP : ∀ c : Call, c.isCreateClosureCall = true → P c) (r : Remote) (d : ResourceData)
    (h : List Call) : Appends P h (createBranchCreateOnly r d h).calls := by
  have h2 : Appends P h (h ++ [Call.createDeploymentCluster]
      ++ [Call.describeBlueGreenDeployments d.cluster_identifier]) :=
    appends_trans (appends_snoc _ (hP Call.createDeploymentCluster rfl))
      (appends_snoc _ (hP (Call.describeBlueGreenDeployments d.cluster_identifier) rfl))
  unfold createBranchCreateOnly
  simp only []
  split
  · exact h2
  · split
    · exact h2
    · rename_i id0 _ _
      exact appends_trans h2 (appends_snoc _ (hP (Call.waitForDeploymentAvailable id0) rfl))

theorem createBranchCreateAndSwitchover_appends {P : Call → Prop}
    (hP : ∀ c : Call, c.isCreateClosureCall = true → P c) (r : Remote) (d : ResourceData)
    (h : List Call) : Appends P h (createBranchCreateAndSwitchover r d h).calls := by
  have h2 : Appends P h (h ++ [Call.createDeploymentCluster]
      ++ [Call.describeBlueGreenDeployments d.cluster_identifier]) :=
    appends_trans (appends_snoc _ (hP Call.createDeploymentCluster rfl))
      (appends_snoc _ (hP (Call.describeBlueGreenDeployments d.cluster_identifier) rfl))
  unfold createBranchCreateAndSwitchover
  simp only []
  split
  · exact h2
  · split
    · exact h2
    · rename_i id0 _ _
      exact appends_trans (appends_trans h2 (appends_snoc _ (hP (Call.switchover id0) rfl)))
        (appends_snoc _ (hP (Call.waitSwitchoverCompleted id0) rfl))

theorem createBranchSwitchoverOnly_appends {P : Call → Prop}
    (hP : ∀ c : Call, c.isCreateClosureCall = true → P c) (r : Remote) (d : ResourceData)
    (h : List Call) : Appends P h (createBranchSwitchoverOnly r d h).calls := by
  have h1 : Appends P h (h ++ [Call.describeBlueGreenDeployments d.cluster_identifier]) :=
    appends_snoc _ (hP (Call.describeBlueGreenDeployments d.cluster_identifier) rfl)
  unfold createBranchSwitchoverOnly
  simp only []
  split
  · exact h1
  · split
    · exact h1
    · exact h1
    · split
      · split
        · exact h1
        · rename_i id0 _ _
          exact appends_trans (appends_trans h1 (appends_snoc _ (hP (Call.switchover id0) rfl)))
            (appends_snoc _ (hP (Call.waitSwitchoverCompleted id0) rfl))
      · exact h1

theorem createCleanup_appends {P : Call → Prop}
    (hP : ∀ c : Call, c.isCreateClosureCall = true → P c) (r : Remote) (d : ResourceData)
    (h : List Call) : Appends P h (createCleanup r d h).calls := by
  rw [createCleanup_calls]
  exact appends_snoc _ (hP (Call.describeBlueGreenDeployments d.cluster_identifier) rfl)

/-- The deferred closure of the Create handler issues only deployment
operations and lookups by name. -/
theorem createDeferred_appends {P : Call → Prop}
    (hP : ∀ c : Call, c.isCreateClosureCall = true → P c) (r : Remote) (d : ResourceData)
    (h : List Call) : Appends P h (createDeferred r d h).calls := by
  unfold createDeferred createDeploymentSteps
  refine andThen_appends (andThen_appends (andThen_appends ?_ ?_) ?_) ?_
  · exact whenThen_appends _ (createBranchCreateOnly_appends hP r d) h
  · exact whenThen_appends _ (createBranchCreateAndSwitchover_appends hP r d)
  · exact whenThen_appends _ (createBranchSwitchoverOnly_appends hP r d)
  · exact whenThen_appends _ (createCleanup_appends hP r d)

/-- The Read handler issues only lookups. -/
theorem resourceClusterBlueGreenRead_appends {P : Call → Prop}
    (hP : ∀ c : Call, c.isLookup = true → P c) (r : Remote) (d : ResourceData)
    (st : ResourceState) (h : List Call) :
    Appends P h (resourceClusterBlueGreenRead r d st h).calls := by
  have h1 : Appends P h (h ++ [Call.describeBlueGreenDeployments d.cluster_identifier]) :=
    appends_snoc _ (hP (Call.describeBlueGreenDeployments d.cluster_identifier) rfl)
  have h2 : Appends P h (h ++ [Call.describeBlueGreenDeployments d.cluster_identifier]
      ++ [Call.findDBClusterByID d.cluster_identifier]) :=
    appends_trans h1 (appends_snoc _ (hP (Call.findDBClusterByID d.cluster_identifier) rfl))
  unfold resourceClusterBlueGreenRead
  simp only []
  split
  · exact h1
  · split
    · exact h1
    · split
      · exact h2
      · exact h2

/-- The Read handler changes no attribute of the resource data but
`cluster_identifier`. -/
theorem resourceClusterBlueGreenRead_d (r : Remote) (d : ResourceData) (st : ResourceState)
    (h : List Call) :
    ∃ ci, (resourceClusterBlueGreenRead r d st h).d = { d with cluster_identifier := ci } := by
  unfold resourceClusterBlueGreenRead
  simp only []
  split
  · exact ⟨d.cluster_identifier, rfl⟩
  · split
    · exact ⟨d.cluster_identifier, rfl⟩
    · split
      · exact ⟨d.cluster_identifier, rfl⟩
      · rename_i dbc _
        exact ⟨dbc.DBClusterIdentifier, rfl⟩

/-- C16 (the code departs from the claim).  The create call of the Create
handler fails with a `BlueGreenDeploymentAlreadyExistsFault` and the lookup
filtered on `blue-green-deployment-name = cluster_identifier` returns the
existing deployment `bgd-1`.  Without `cleanup_resources` the handler adopts
the deployment: the wait that follows is given `bgd-1`, and the handler returns
no diagnostic and does not panic.  With `cleanup_resources`, in the same run,
the handler goes on from the same wait into the cleanup step, which reads
element 1 of the one-element status list: the handler ends on an index out of
range, an error raised to the caller. -/
theorem create_adoption_ends_in_cleanup_panic :
    (remoteAnswering alreadyExistsAnswer [deploymentRecord "bgd-1" "AVAILABLE"]
        [sourceCluster]).result
      [Call.findDBClusterByID "db-1", Call.describeBlueGreenDeployments "db-1",
       Call.findDBClusterByID "db-1", Call.createDeploymentCluster]
      = some ⟨"BlueGreenDeploymentAlreadyExistsFault", "deployment db-1 already exists"⟩
    ∧ resourceClusterBlueGreenCreate (remoteAnswering alreadyExistsAnswer
        [deploymentRecord "bgd-1" "AVAILABLE"] [sourceCluster])
        (configOf true false false false) stateOf []
      = ⟨[], configOf true false false false,
         { stateOf with cluster_members := ["db-1-a", "db-1-b"] },
         [Call.findDBClusterByID "db-1", Call.describeBlueGreenDeployments "db-1",
          Call.findDBClusterByID "db-1", Call.createDeploymentCluster,
          Call.describeBlueGreenDeployments "db-1", Call.waitForDeploymentAvailable "bgd-1"],
         none⟩
    ∧ resourceClusterBlueGreenCreate (remoteAnswering alreadyExistsAnswer
        [deploymentRecord "bgd-1" "AVAILABLE"] [sourceCluster])
        (configOf true false true false) stateOf []
      = ⟨[], configOf true false true false,
         { stateOf with cluster_members := ["db-1-a", "db-1-b"] },
         [Call.findDBClusterByID "db-1", Call.describeBlueGreenDeployments "db-1",
          Call.findDBClusterByID "db-1", Call.createDeploymentCluster,
          Call.describeBlueGreenDeployments "db-1", Call.waitForDeploymentAvailable "bgd-1",
          Call.describeBlueGreenDeployments "db-1"],
         some Panic.indexOutOfRange⟩ := by
  decide

/-- Under `create_deployment = false`, on a remote whose lookups show a
completed switchover, the deferred closure of the Create handler issues
nothing but lookups by name. -/
theorem createDeferred_completed_appends {P : Call → Prop}
    (hP : ∀ name, P (Call.describeBlueGreenDeployments name))
    (r : Remote) (d : ResourceData) (h : List Call)
    (hcreate : d.create_deployment = false)
    (hcompleted : ∀ h' first more, r.deployments h' = some (first :: more) →
      first.Status = some "SWITCHOVER_COMPLETED") :
    Appends P h (createDeferred r d h).calls := by
  have hbranch : ∀ h', Appends P h' (createBranchSwitchoverOnly r d h').calls := by
    intro h'
    have h1 : Appends P h'
        (h' ++ [Call.describeBlueGreenDeployments d.cluster_identifier]) :=
      appends_snoc _ (hP _)
    unfold createBranchSwitchoverOnly
    simp only []
    split
    · exact h1
    · rename_i out hout
      split
      · exact h1
      · exact h1
      · rename_i status0 rest hst
        have hs0 : status0 = "SWITCHOVER_COMPLETED" := by
          cases out with
          | nil => simp [deploymentStatuses] at hst
          | cons first more =>
            have hf := deploymentStatuses_head first more status0 rest hst
            have hc := hcompleted _ first more hout
            rw [hf] at hc
            exact Option.some.inj hc
        simp only [hs0, ne_eq, not_true_eq_false, if_false]
        exact h1
  have hclean : ∀ h', Appends P h' (createCleanup r d h').calls := by
    intro h'
    rw [createCleanup_calls]
    exact appends_snoc _ (hP _)
  unfold createDeferred createDeploymentSteps
  simp only [hcreate, Bool.false_and, Bool.not_false, Bool.true_and]
  refine andThen_appends (andThen_appends (andThen_appends ?_ ?_) ?_) ?_
  · simp only [whenThen, Bool.false_eq_true, if_false]
    exact appends_refl _ _
  · intro h'
    simp only [whenThen, Bool.false_eq_true, if_false]
    exact appends_refl _ _
  · exact whenThen_appends _ hbranch
  · exact whenThen_appends _ hclean

/-- Under `create_deployment = true` and `switchover_enabled = false` the
deferred closure of the Create handler issues only the create call, lookups by
name and the wait for the deployment to be available. -/
theorem createDeferred_createOnly_appends {P : Call → Prop}
    (hP1 : P Call.createDeploymentCluster)
    (hP2 : ∀ name, P (Call.describeBlueGreenDeployments name))
    (hP3 : ∀ id, P (Call.waitForDeploymentAvailable id))
    (r : Remote) (d : ResourceData) (h : List Call)
    (hcreate : d.create_deployment = true) (hswitch : d.switchover_enabled = false) :
    Appends P h (createDeferred r d h).calls := by
  have hbranch : ∀ h', Appends P h' (createBranchCreateOnly r d h').calls := by
    intro h'
    have h2 : Appends P h' (h' ++ [Call.createDeploymentCluster]
        ++ [Call.describeBlueGreenDeployments d.cluster_identifier]) :=
      appends_trans (appends_snoc _ hP1) (appends_snoc _ (hP2 _))
    unfold createBranchCreateOnly
    simp only []
    split
    · exact h2
    · split
      · exact h2
      · rename_i id0 _ _
        exact appends_trans h2 (appends_snoc _ (hP3 id0))
  have hclean : ∀ h', Appends P h' (createCleanup r d h').calls := by
    intro h'
    rw [createCleanup_calls]
    exact appends_snoc _ (hP2 _)
  unfold createDeferred createDeploymentSteps
  simp only [hcreate, hswitch, Bool.and_false, Bool.not_false, Bool.and_true, Bool.not_true,
    Bool.false_and]
  refine andThen_appends (andThen_appends (andThen_appends ?_ ?_) ?_) ?_
  · exact whenThen_appends _ hbranch h
  · intro h'
    simp only [whenThen, Bool.false_eq_true, if_false]
    exact appends_refl _ _
  · intro h'
    simp only [whenThen, Bool.false_eq_true, if_false]
    exact appends_refl _ _
  · exact whenThen_appends _ hclean

/-- Under `create_deployment = true` the first call of the deferred closure of
the Create handler is the create call. -/
theorem createDeferred_starts_with_create (r : Remote) (d : ResourceData) (h : List Call)
    (hcreate : d.create_deployment = true) :
    ∃ post, (createDeferred r d h).calls = h ++ Call.createDeploymentCluster :: post := by
  have hext : ∀ (o : Outcome) (f : List Call → Outcome),
      (∃ post, o.calls = h ++ Call.createDeploymentCluster :: post) →
      (∀ h', Appends (fun _ => True) h' (f h').calls) →
      ∃ post, (o.andThen f).calls = h ++ Call.createDeploymentCluster :: post := by
    intro o f ⟨post, hpost⟩ hf
    unfold Outcome.andThen
    split
    · exact ⟨post, hpost⟩
    · obtain ⟨suffix, hs, -⟩ := hf o.calls
      exact ⟨post ++ suffix, by rw [hs, hpost]; simp⟩
  have hall : ∀ c : Call, c.isCreateClosureCall = true → (fun _ : Call => True) c :=
    fun _ _ => trivial
  have hfirst1 : ∃ post, (createBranchCreateOnly r d h).calls
      = h ++ Call.createDeploymentCluster :: post := by
    unfold createBranchCreateOnly
    simp only []
    split
    · exact ⟨[Call.describeBlueGreenDeployments d.cluster_identifier], by simp⟩
    · split
      · exact ⟨[Call.describeBlueGreenDeployments d.cluster_identifier], by simp⟩
      · rename_i id0 _ _
        exact ⟨[Call.describeBlueGreenDeployments d.cluster_identifier,
          Call.waitForDeploymentAvailable id0], by simp⟩
  have hfirst2 : ∃ post, (createBranchCreateAndSwitchover r d h).calls
      = h ++ Call.createDeploymentCluster :: post := by
    unfold createBranchCreateAndSwitchover
    simp only []
    split
    · exact ⟨[Call.describeBlueGreenDeployments d.cluster_identifier], by simp⟩
    · split
      · exact ⟨[Call.describeBlueGreenDeployments d.cluster_identifier], by simp⟩
      · rename_i id0 _ _
        exact ⟨[Call.describeBlueGreenDeployments d.cluster_identifier,
          Call.switchover id0, Call.waitSwitchoverCompleted id0], by simp⟩
  unfold createDeferred createDeploymentSteps
  refine hext _ _ (hext _ _ ?_ ?_) ?_
  · cases hswitch : d.switchover_enabled
    · refine hext _ _ ?_ ?_
      · simpa [whenThen, hcreate, hswitch] using hfirst1
      · intro h'
        exact whenThen_appends _ (createBranchCreateAndSwitchover_appends hall r d) h'
    · have h0 : whenThen (d.create_deployment && !true) (createBranchCreateOnly r d) h
          = ⟨h, none⟩ := by
        simp [whenThen]
      rw [h0]
      simpa [Outcome.andThen, whenThen, hcreate] using hfirst2
  · intro h'
    exact whenThen_appends _ (createBranchSwitchoverOnly_appends hall r d) h'
  · intro h'
    exact whenThen_appends _ (createCleanup_appends hall r d) h'

/-- C17, as stated, fails: the Create flow is run a second time on the remote
state that reflects completion (deployment `bgd-1` in `SWITCHOVER_COMPLETED`,
source cleaned up).  With `create_deployment` true the create call is issued
again (it fails with the already-exists fault, which is ignored); with
`switchover_enabled` true as well, the switchover call is issued again too. -/
theorem create_rerun_issues_create_and_switchover :
    remoteCompleted.clusters [] = some []
    ∧ resourceClusterBlueGreenCreate remoteCompleted (configOf true false false false) stateOf []
      = ⟨[], configOf true false false false,
         { stateOf with cluster_members := ["db-1-a", "db-1-b"] },
         [Call.findDBClusterByID "db-1", Call.describeBlueGreenDeployments "db-1",
          Call.findDBClusterByID "db-1", Call.createDeploymentCluster,
          Call.describeBlueGreenDeployments "db-1", Call.waitForDeploymentAvailable "bgd-1"],
         none⟩
    ∧ resourceClusterBlueGreenCreate remoteCompleted (configOf true true false false) stateOf []
      = ⟨[], configOf true true false false,
         { stateOf with cluster_members := ["db-1-a", "db-1-b"] },
         [Call.findDBClusterByID "db-1", Call.describeBlueGreenDeployments "db-1",
          Call.findDBClusterByID "db-1", Call.createDeploymentCluster,
          Call.describeBlueGreenDeployments "db-1", Call.switchover "bgd-1",
          Call.waitSwitchoverCompleted "bgd-1"],
         none⟩ := by
  decide

/-- C17, amended.  The Create flow is run against a remote state that already
reflects completion: every lookup by name shows a first deployment in state
`SWITCHOVER_COMPLETED`, and the answers of `DescribeDBClusters` are arbitrary,
so the source may have been cleaned up.  With `create_deployment` false the
run issues nothing but lookups: no create call, no switchover call, no delete
call.  With `create_deployment` true and `switchover_enabled` false it issues
no switchover call and no delete call.  With `create_deployment` true the
create call is issued again, after lookups only.  With both flags true no
delete call is issued (nothing is stated about the switchover call there). -/
theorem create_rerun_on_completed_deployment (r : Remote) (d : ResourceData)
    (st : ResourceState) (h : List Call) (dbc : DBCluster)
    (hcompleted : ∀ h' first more, r.deployments h' = some (first :: more) →
      first.Status = some "SWITCHOVER_COMPLETED")
    (hfound : r.cluster (h ++ [Call.findDBClusterByID d.cluster_identifier]) = some dbc) :
    Appends (fun c => c.isLookup = true) h
        (resourceClusterBlueGreenCreate r { d with create_deployment := false } st h).calls
    ∧ Appends (fun c => c.isDestructive = false ∧ ∀ id, c ≠ Call.switchover id) h
        (resourceClusterBlueGreenCreate r
          { d with create_deployment := true, switchover_enabled := false } st h).calls
    ∧ (∃ pre post,
        (resourceClusterBlueGreenCreate r { d with create_deployment := true } st h).calls
          = h ++ pre ++ Call.createDeploymentCluster :: post
        ∧ ∀ c ∈ pre, c.isLookup = true)
    ∧ Appends (fun c => c.isDestructive = false) h
        (resourceClusterBlueGreenCreate r
          { d with create_deployment := true, switchover_enabled := true } st h).calls := by
  have hP1 : ∀ c : Call, c.isCreateClosureCall = true → c.isDestructive = false := by
    intro c hc
    cases c <;> first | rfl | exact absurd hc (by simp [Call.isCreateClosureCall, Call.isDeploymentStep, Call.isLookup])
  have hP2 : ∀ c : Call, c.isLookup = true → c.isDestructive = false := by
    intro c hc
    cases c <;> first | rfl | exact absurd hc (by simp [Call.isCreateClosureCall, Call.isDeploymentStep, Call.isLookup])
  have hQ : ∀ c : Call, c.isLookup = true →
      (c.isDestructive = false ∧ ∀ id, c ≠ Call.switchover id) := by
    intro c hc
    refine ⟨hP2 c hc, ?_⟩
    intro id hid
    rw [hid] at hc
    exact absurd hc (by simp [Call.isLookup])
  refine ⟨?_, ?_, ?_, ?_⟩
  · unfold resourceClusterBlueGreenCreate
    simp only [hfound]
    obtain ⟨ci, hci⟩ := resourceClusterBlueGreenRead_d r
      (setFromCluster dbc { d with create_deployment := false } st).1
      (setFromCluster dbc { d with create_deployment := false } st).2
      (h ++ [Call.findDBClusterByID d.cluster_identifier])
    have hflag : (resourceClusterBlueGreenRead r
        (setFromCluster dbc { d with create_deployment := false } st).1
        (setFromCluster dbc { d with create_deployment := false } st).2
        (h ++ [Call.findDBClusterByID d.cluster_identifier])).d.create_deployment = false := by
      rw [hci]; rfl
    have hread := resourceClusterBlueGreenRead_appends
      (P := fun c : Call => c.isLookup = true) (fun _ hc => hc) r
      (setFromCluster dbc { d with create_deployment := false } st).1
      (setFromCluster dbc { d with create_deployment := false } st).2
      (h ++ [Call.findDBClusterByID d.cluster_identifier])
    have hdeferred := createDeferred_completed_appends
      (P := fun c : Call => c.isLookup = true) (fun _ => rfl) r _
      (resourceClusterBlueGreenRead r
        (setFromCluster dbc { d with create_deployment := false } st).1
        (setFromCluster dbc { d with create_deployment := false } st).2
        (h ++ [Call.findDBClusterByID d.cluster_identifier])).calls hflag hcompleted
    have hfind : Appends (fun c : Call => c.isLookup = true) h
        (h ++ [Call.findDBClusterByID d.cluster_identifier]) := appends_snoc h rfl
    exact appends_trans (appends_trans hfind hread) hdeferred
  · unfold resourceClusterBlueGreenCreate
    simp only [hfound]
    obtain ⟨ci, hci⟩ := resourceClusterBlueGreenRead_d r
      (setFromCluster dbc { d with create_deployment := true, switchover_enabled := false } st).1
      (setFromCluster dbc { d with create_deployment := true, switchover_enabled := false } st).2
      (h ++ [Call.findDBClusterByID d.cluster_identifier])
    have hflag1 : (resourceClusterBlueGreenRead r
        (setFromCluster dbc { d with create_deployment := true, switchover_enabled := false } st).1
        (setFromCluster dbc { d with create_deployment := true, switchover_enabled := false } st).2
        (h ++ [Call.findDBClusterByID d.cluster_identifier])).d.create_deployment = true := by
      rw [hci]; rfl
    have hflag2 : (resourceClusterBlueGreenRead r
        (setFromCluster dbc { d with create_deployment := true, switchover_enabled := false } st).1
        (setFromCluster dbc { d with create_deployment := true, switchover_enabled := false } st).2
        (h ++ [Call.findDBClusterByID d.cluster_identifier])).d.switchover_enabled = false := by
      rw [hci]; rfl
    have hread := resourceClusterBlueGreenRead_appends
      (P := fun c : Call => c.isDestructive = false ∧ ∀ id, c ≠ Call.switchover id) hQ r
      (setFromCluster dbc { d with create_deployment := true, switchover_enabled := false } st).1
      (setFromCluster dbc { d with create_deployment := true, switchover_enabled := false } st).2
      (h ++ [Call.findDBClusterByID d.cluster_identifier])
    have hdeferred := createDeferred_createOnly_appends
      (P := fun c : Call => c.isDestructive = false ∧ ∀ id, c ≠ Call.switchover id)
      ⟨rfl, fun id hid => by cases hid⟩
      (fun name => ⟨rfl, fun id hid => by cases hid⟩)
      (fun id0 => ⟨rfl, fun id hid => by cases hid⟩) r _
      (resourceClusterBlueGreenRead r
        (setFromCluster dbc { d with create_deployment := true, switchover_enabled := false } st).1
        (setFromCluster dbc { d with create_deployment := true, switchover_enabled := false } st).2
        (h ++ [Call.findDBClusterByID d.cluster_identifier])).calls hflag1 hflag2
    have hfind : Appends
        (fun c : Call => c.isDestructive = false ∧ ∀ id, c ≠ Call.switchover id) h
        (h ++ [Call.findDBClusterByID d.cluster_identifier]) := appends_snoc h (hQ _ rfl)
    exact appends_trans (appends_trans hfind hread) hdeferred
  · unfold resourceClusterBlueGreenCreate
    simp only [hfound]
    obtain ⟨ci, hci⟩ := resourceClusterBlueGreenRead_d r
      (setFromCluster dbc { d with create_deployment := true } st).1
      (setFromCluster dbc { d with create_deployment := true } st).2
      (h ++ [Call.findDBClusterByID d.cluster_identifier])
    have hflag : (resourceClusterBlueGreenRead r
        (setFromCluster dbc { d with create_deployment := true } st).1
        (setFromCluster dbc { d with create_deployment := true } st).2
        (h ++ [Call.findDBClusterByID d.cluster_identifier])).d.create_deployment = true := by
      rw [hci]; rfl
    obtain ⟨post, hpost⟩ := createDeferred_starts_with_create r _
      (resourceClusterBlueGreenRead r
        (setFromCluster dbc { d with create_deployment := true } st).1
        (setFromCluster dbc { d with create_deployment := true } st).2
        (h ++ [Call.findDBClusterByID d.cluster_identifier])).calls hflag
    obtain ⟨suffix, hsuffix, hlook⟩ := resourceClusterBlueGreenRead_appends
      (P := fun c => c.isLookup = true) (fun _ hc => hc) r
      (setFromCluster dbc { d with create_deployment := true } st).1
      (setFromCluster dbc { d with create_deployment := true } st).2
      (h ++ [Call.findDBClusterByID d.cluster_identifier])
    refine ⟨Call.findDBClusterByID d.cluster_identifier :: suffix, post, ?_, ?_⟩
    · rw [hpost, hsuffix]
      simp
    · intro c hc
      rcases List.mem_cons.mp hc with hc | hc
      · rw [hc]; rfl
      · exact hlook c hc
  · unfold resourceClusterBlueGreenCreate
    simp only [hfound]
    exact appends_trans (appends_trans
      (appends_snoc h (c := Call.findDBClusterByID d.cluster_identifier) rfl)
      (resourceClusterBlueGreenRead_appends hP2 _ _ _ _)) (createDeferred_appends hP1 _ _ _)

/-- C17, amended, at a concrete input: the remote state that reflects
completion, with the source cleaned up. -/
theorem create_rerun_on_completed_deployment_witness :
    Appends (fun c => c.isLookup = true) []
        (resourceClusterBlueGreenCreate remoteCompleted
          { configOf true true true false with create_deployment := false } stateOf []).calls
    ∧ Appends (fun c => c.isDestructive = false ∧ ∀ id, c ≠ Call.switchover id) []
        (resourceClusterBlueGreenCreate remoteCompleted
          { configOf true true true false with
            create_deployment := true, switchover_enabled := false } stateOf []).calls
    ∧ (∃ pre post,
        (resourceClusterBlueGreenCreate remoteCompleted
          { configOf true true true false with create_deployment := true } stateOf []).calls
          = [] ++ pre ++ Call.createDeploymentCluster :: post
        ∧ ∀ c ∈ pre, c.isLookup = true)
    ∧ Appends (fun c => c.isDestructive = false) []
        (resourceClusterBlueGreenCreate remoteCompleted
          { configOf true true true false with
            create_deployment := true, switchover_enabled := true } stateOf []).calls :=
  create_rerun_on_completed_deployment remoteCompleted
    (configOf true true true false) stateOf [] sourceCluster
    (by
      intro h' first more hl
      have hfirst : first = deploymentRecord "bgd-1" "SWITCHOVER_COMPLETED" := by
        simp only [remoteCompleted, Option.some.injEq, List.cons.injEq] at hl
        exact hl.1.symm
      rw [hfirst]
      rfl)
    rfl

/-- C20 (the code departs from the claim).  Read on a resource whose cluster no
longer exists: `FindDBClusterByID` returns the not-found error, which Read
discards, and the nil cluster is dereferenced at once.  Read stops on a nil
dereference; the resource ID is not cleared and nothing is returned. -/
theorem read_dereferences_missing_cluster :
    (remoteAnswering
        (fun c => if c = Call.findDBClusterByID "db-1" then
          some ⟨"NotFound", "couldn't find resource"⟩ else none) [] []).cluster
      [Call.describeBlueGreenDeployments "db-1", Call.findDBClusterByID "db-1"] = none
    ∧ resourceClusterBlueGreenRead
        (remoteAnswering
          (fun c => if c = Call.findDBClusterByID "db-1" then
            some ⟨"NotFound", "couldn't find resource"⟩ else none) [] [])
        (configOf false false false false) stateOf []
      = ⟨[], configOf false false false false, stateOf,
         [Call.describeBlueGreenDeployments "db-1", Call.findDBClusterByID "db-1"],
         some Panic.nilDereference⟩
    ∧ stateOf.id = "db-1" := by
  decide

/-! ## Timeouts -/

/-- C18 (the code departs from the claim).  With a Create timeout of 30 minutes,
an Update timeout of 10 minutes and a Delete timeout of 45 minutes, the
deadlines of the Create and Delete handlers are both 10 minutes away: all three
handlers read `schema.TimeoutUpdate`.  Changing only the Update timeout, from 10
to 20 minutes, moves the deadline of a Create run and of a Delete run. -/
theorem create_and_delete_deadlines_use_update_timeout :
    Timeout ⟨some (30 * Minute), some (10 * Minute), some (45 * Minute)⟩ TimeoutKey.Create
      = 30 * Minute
    ∧ Timeout ⟨some (30 * Minute), some (10 * Minute), some (45 * Minute)⟩ TimeoutKey.Delete
      = 45 * Minute
    ∧ resourceClusterBlueGreenCreateDeadline
        ⟨some (30 * Minute), some (10 * Minute), some (45 * Minute)⟩ 0 = 10 * Minute
    ∧ resourceClusterBlueGreenUpdateDeadline
        ⟨some (30 * Minute), some (10 * Minute), some (45 * Minute)⟩ 0 = 10 * Minute
    ∧ resourceClusterBlueGreenDeleteDeadline
        ⟨some (30 * Minute), some (10 * Minute), some (45 * Minute)⟩ 0 = 10 * Minute
    ∧ resourceClusterBlueGreenCreateDeadline
        ⟨some (30 * Minute), some (20 * Minute), some (45 * Minute)⟩ 0 = 20 * Minute
    ∧ resourceClusterBlueGreenDeleteDeadline
        ⟨some (30 * Minute), some (20 * Minute), some (45 * Minute)⟩ 0 = 20 * Minute
    ∧ Timeout ⟨none, none, none⟩ TimeoutKey.Create = 120 * Minute := by
  decide

/-! ## Deadline accounting -/

theorem issued_trans {clock : List Call → Nat} {deadline : Nat} {a b c : List TimedCall}
    (hab : Issued clock deadline a b) (hbc : Issued clock deadline b c) :
    Issued clock deadline a c := by
  induction hbc with
  | refl => exact hab
  | step h2 call _ ih => exact Issued.step _ h2 call ih

theorem issued_issue {clock : List Call → Nat} {deadline : Nat} {h0 h : List TimedCall}
    (c : Call) (hc : c.isWaitOrSwitchover = false) (hi : Issued clock deadline h0 h) :
    Issued clock deadline h0 (issue clock h c) := by
  have hstep := Issued.step h0 h c hi
  simp only [hc, Bool.false_eq_true, if_false] at hstep
  exact hstep

theorem issued_issueWithRemaining {clock : List Call → Nat} {deadline : Nat}
    {h0 h : List TimedCall} (c : Call) (hc : c.isWaitOrSwitchover = true)
    (hi : Issued clock deadline h0 h) :
    Issued clock deadline h0 (issueWithRemaining clock deadline h c) := by
  have hstep := Issued.step h0 h c hi
  simp only [hc, if_true] at hstep
  exact hstep

theorem issued_timedAppends {clock : List Call → Nat} {deadline : Nat} {a b : List TimedCall}
    (hab : Issued clock deadline a b) : TimedAppends (GivenRemaining deadline) a b := by
  induction hab with
  | refl => exact ⟨[], by simp, by simp⟩
  | step h2 c _ ih =>
    obtain ⟨suffix, hs, hp⟩ := ih
    refine ⟨suffix ++ [⟨c, clock (untimed h2),
      if c.isWaitOrSwitchover then some (Remaining deadline (clock (untimed h2))) else none⟩],
      by rw [hs]; simp, ?_⟩
    intro tc htc
    rcases List.mem_append.mp htc with htc | htc
    · exact hp tc htc
    · simp only [List.mem_singleton] at htc
      rw [htc]
      rfl

theorem timedAndThen_issued {clock : List Call → Nat} {deadline : Nat} {h : List TimedCall}
    {o : TimedOutcome} {f : List TimedCall → TimedOutcome}
    (ho : Issued clock deadline h o.calls)
    (hf : ∀ h', Issued clock deadline h' (f h').calls) :
    Issued clock deadline h (o.andThen f).calls := by
  unfold TimedOutcome.andThen
  split
  · exact ho
  · exact issued_trans ho (hf _)

theorem whenThenTimed_issued {clock : List Call → Nat} {deadline : Nat} (cond : Bool)
    {body : List TimedCall → TimedOutcome}
    (hbody : ∀ h, Issued clock deadline h (body h).calls) (h : List TimedCall) :
    Issued clock deadline h (whenThenTimed cond body h).calls := by
  unfold whenThenTimed
  split
  · exact hbody h
  · exact Issued.refl _

theorem createDeploymentStepsTimed_issued (r : Remote) (clock : List Call → Nat)
    (deadline : Nat) (d : ResourceData) (h : List TimedCall) :
    Issued clock deadline h (createDeploymentStepsTimed r clock deadline d h).calls := by
  have hb1 : ∀ h, Issued clock deadline h (createBranchCreateOnlyTimed r clock deadline d h).calls := by
    intro h
    have h2 := issued_issue (Call.describeBlueGreenDeployments d.cluster_identifier) rfl
      (issued_issue Call.createDeploymentCluster rfl (Issued.refl h : Issued clock deadline h h))
    unfold createBranchCreateOnlyTimed
    simp only []
    split
    · exact h2
    · split
      · exact h2
      · rename_i id0 _ _
        exact issued_issueWithRemaining (Call.waitForDeploymentAvailable id0) rfl h2
  have hb2 : ∀ h, Issued clock deadline h
      (createBranchCreateAndSwitchoverTimed r clock deadline d h).calls := by
    intro h
    have h2 := issued_issue (Call.describeBlueGreenDeployments d.cluster_identifier) rfl
      (issued_issue Call.createDeploymentCluster rfl (Issued.refl h : Issued clock deadline h h))
    unfold createBranchCreateAndSwitchoverTimed
    simp only []
    split
    · exact h2
    · split
      · exact h2
      · rename_i id0 _ _
        exact issued_issueWithRemaining (Call.waitSwitchoverCompleted id0) rfl
          (issued_issueWithRemaining (Call.switchover id0) rfl h2)
  have hb3 : ∀ h, Issued clock deadline h
      (createBranchSwitchoverOnlyTimed r clock deadline d h).calls := by
    intro h
    have h1 := issued_issue (Call.describeBlueGreenDeployments d.cluster_identifier) rfl
      (Issued.refl h : Issued clock deadline h h)
    unfold createBranchSwitchoverOnlyTimed
    simp only []
    split
    · exact h1
    · split
      · exact h1
      · exact h1
      · split
        · split
          · exact h1
          · rename_i id0 _ _
            exact issued_issueWithRemaining (Call.waitSwitchoverCompleted id0) rfl
              (issued_issueWithRemaining (Call.switchover id0) rfl h1)
        · exact h1
  unfold createDeploymentStepsTimed
  exact timedAndThen_issued (timedAndThen_issued (whenThenTimed_issued _ hb1 h)
    (whenThenTimed_issued _ hb2)) (whenThenTimed_issued _ hb3)

theorem updateDeploymentStepsTimed_issued (r : Remote) (clock : List Call → Nat)
    (deadline : Nat) (d : ResourceData) (h : List TimedCall) :
    Issued clock deadline h (updateDeploymentStepsTimed r clock deadline d h).calls := by
  have hb1 : ∀ h, Issued clock deadline h (updateBranchCreateOnlyTimed r clock deadline d h).calls := by
    intro h
    have h2 := issued_issue (Call.describeBlueGreenDeployments d.cluster_identifier) rfl
      (issued_issue Call.createDeploymentCluster rfl (Issued.refl h : Issued clock deadline h h))
    unfold updateBranchCreateOnlyTimed
    simp only []
    split
    · exact h2
    · split
      · exact h2
      · rename_i id0 _ _
        exact issued_issueWithRemaining (Call.waitForDeploymentAvailable id0) rfl h2
  have hb2 : ∀ h, Issued clock deadline h
      (updateBranchCreateAndSwitchoverTimed r clock deadline d h).calls := by
    intro h
    have h2 := issued_issue (Call.describeBlueGreenDeployments d.cluster_identifier) rfl
      (issued_issue Call.createDeploymentCluster rfl (Issued.refl h : Issued clock deadline h h))
    unfold updateBranchCreateAndSwitchoverTimed
    simp only []
    split
    · exact h2
    · split
      · exact h2
      · rename_i id0 _ _
        exact issued_issueWithRemaining (Call.waitSwitchoverCompleted id0) rfl
          (issued_issueWithRemaining (Call.switchover id0) rfl
            (issued_issueWithRemaining (Call.waitForDeploymentAvailable id0) rfl h2))
  have hb3 : ∀ h, Issued clock deadline h
      (updateBranchSwitchoverOnlyTimed r clock deadline d h).calls := by
    intro h
    have h1 := issued_issue (Call.describeBlueGreenDeployments d.cluster_identifier) rfl
      (Issued.refl h : Issued clock deadline h h)
    unfold updateBranchSwitchoverOnlyTimed
    simp only []
    split
    · exact h1
    · split
      · exact h1
      · split
        · exact h1
        · rename_i id0 _ _
          exact issued_issueWithRemaining (Call.waitSwitchoverCompleted id0) rfl
            (issued_issueWithRemaining (Call.switchover id0) rfl h1)
  unfold updateDeploymentStepsTimed
  exact timedAndThen_issued (timedAndThen_issued (whenThenTimed_issued _ hb1 h)
    (whenThenTimed_issued _ hb2)) (whenThenTimed_issued _ hb3)

theorem untimed_issue (clock : List Call → Nat) (h : List TimedCall) (c : Call) :
    untimed (issue clock h c) = untimed h ++ [c] := by
  simp [untimed, issue]

theorem untimed_issueWithRemaining (clock : List Call → Nat) (deadline : Nat)
    (h : List TimedCall) (c : Call) :
    untimed (issueWithRemaining clock deadline h c) = untimed h ++ [c] := by
  simp [untimed, issueWithRemaining]

theorem erase_andThen (o : TimedOutcome) (f : List TimedCall → TimedOutcome)
    (g : List Call → Outcome) (hfg : ∀ h, (f h).erase = g (untimed h)) :
    (o.andThen f).erase = o.erase.andThen g := by
  unfold TimedOutcome.andThen Outcome.andThen
  cases hp : o.panic with
  | some p => simp [TimedOutcome.erase, hp]
  | none => simp [TimedOutcome.erase, hp, ← hfg]

theorem erase_whenThenTimed (cond : Bool) (body : List TimedCall → TimedOutcome)
    (g : List Call → Outcome) (hfg : ∀ h, (body h).erase = g (untimed h)) (h : List TimedCall) :
    (whenThenTimed cond body h).erase = whenThen cond g (untimed h) := by
  unfold whenThenTimed whenThen
  split
  · exact hfg h
  · rfl

/-- Without the clock, the timed deployment branches of the Create handler are
the deployment branches of `createDeploymentSteps`. -/
theorem createDeploymentStepsTimed_erase (r : Remote) (clock : List Call → Nat)
    (deadline : Nat) (d : ResourceData) (h : List TimedCall) :
    (createDeploymentStepsTimed r clock deadline d h).erase
      = createDeploymentSteps r d (untimed h) := by
  have hb1 : ∀ h, (createBranchCreateOnlyTimed r clock deadline d h).erase
      = createBranchCreateOnly r d (untimed h) := by
    intro h
    unfold createBranchCreateOnlyTimed createBranchCreateOnly TimedOutcome.erase
    simp only [untimed_issue]
    split
    · simp [untimed_issue]
    · split
      · simp [untimed_issue]
      · simp [untimed_issue, untimed_issueWithRemaining]
  have hb2 : ∀ h, (createBranchCreateAndSwitchoverTimed r clock deadline d h).erase
      = createBranchCreateAndSwitchover r d (untimed h) := by
    intro h
    unfold createBranchCreateAndSwitchoverTimed createBranchCreateAndSwitchover TimedOutcome.erase
    simp only [untimed_issue]
    split
    · simp [untimed_issue]
    · split
      · simp [untimed_issue]
      · simp [untimed_issue, untimed_issueWithRemaining]
  have hb3 : ∀ h, (createBranchSwitchoverOnlyTimed r clock deadline d h).erase
      = createBranchSwitchoverOnly r d (untimed h) := by
    intro h
    unfold createBranchSwitchoverOnlyTimed createBranchSwitchoverOnly TimedOutcome.erase
    simp only [untimed_issue]
    split
    · simp [untimed_issue]
    · split
      · simp [untimed_issue]
      · simp [untimed_issue]
      · split
        · split
          · simp [untimed_issue]
          · simp [untimed_issue, untimed_issueWithRemaining]
        · simp [untimed_issue]
  unfold createDeploymentStepsTimed createDeploymentSteps
  rw [erase_andThen _ _ _ (erase_whenThenTimed _ _ _ hb3),
    erase_andThen _ _ _ (erase_whenThenTimed _ _ _ hb2), erase_whenThenTimed _ _ _ hb1]

/-- Without the clock, the timed deployment branches of the Update handler are
the deployment branches of `updateDeploymentSteps`. -/
theorem updateDeploymentStepsTimed_erase (r : Remote) (clock : List Call → Nat)
    (deadline : Nat) (d : ResourceData) (h : List TimedCall) :
    (updateDeploymentStepsTimed r clock deadline d h).erase
      = updateDeploymentSteps r d (untimed h) := by
  have hb1 : ∀ h, (updateBranchCreateOnlyTimed r clock deadline d h).erase
      = updateBranchCreateOnly r d (untimed h) := by
    intro h
    unfold updateBranchCreateOnlyTimed updateBranchCreateOnly TimedOutcome.erase
    simp only [untimed_issue]
    split
    · simp [untimed_issue]
    · split
      · simp [untimed_issue]
      · simp [untimed_issue, untimed_issueWithRemaining]
  have hb2 : ∀ h, (updateBranchCreateAndSwitchoverTimed r clock deadline d h).erase
      = updateBranchCreateAndSwitchover r d (untimed h) := by
    intro h
    unfold updateBranchCreateAndSwitchoverTimed updateBranchCreateAndSwitchover TimedOutcome.erase
    simp only [untimed_issue]
    split
    · simp [untimed_issue]
    · split
      · simp [untimed_issue]
      · simp [untimed_issue, untimed_issueWithRemaining]
  have hb3 : ∀ h, (updateBranchSwitchoverOnlyTimed r clock deadline d h).erase
      = updateBranchSwitchoverOnly r d (untimed h) := by
    intro h
    unfold updateBranchSwitchoverOnlyTimed updateBranchSwitchoverOnly TimedOutcome.erase
    simp only [untimed_issue]
    split
    · simp [untimed_issue]
    · split
      · simp [untimed_issue]
      · split
        · simp [untimed_issue]
        · simp [untimed_issue, untimed_issueWithRemaining]
  unfold updateDeploymentStepsTimed updateDeploymentSteps
  rw [erase_andThen _ _ _ (erase_whenThenTimed _ _ _ hb3),
    erase_andThen _ _ _ (erase_whenThenTimed _ _ _ hb2), erase_whenThenTimed _ _ _ hb1]

/-- C19.  Deadline accounting in the Create and Update handlers.  Let the
deadline be the one created at handler entry, at clock reading `entry`.  In the
deployment branches of both handlers every call is issued at the reading the
clock has once the calls before it have returned, and every deployment wait
and every switchover is given the time remaining until that one deadline at
that reading (the other calls take no timeout).  So a wait issued when `d1` of
the overall timeout `T` has been consumed is given `T - d1`, and `T` itself
only when nothing has been consumed.  Without the clock the timed branches are
the deployment branches of the handlers. -/
theorem waits_are_given_the_remaining_time (r : Remote) (clock : List Call → Nat)
    (configured : ResourceTimeout) (entry d1 : Nat) (d : ResourceData) (h : List TimedCall) :
    Issued clock (resourceClusterBlueGreenCreateDeadline configured entry) h
      (createDeploymentStepsTimed r clock
        (resourceClusterBlueGreenCreateDeadline configured entry) d h).calls
    ∧ Issued clock (resourceClusterBlueGreenUpdateDeadline configured entry) h
      (updateDeploymentStepsTimed r clock
        (resourceClusterBlueGreenUpdateDeadline configured entry) d h).calls
    ∧ TimedAppends (GivenRemaining (resourceClusterBlueGreenCreateDeadline configured entry)) h
      (createDeploymentStepsTimed r clock
        (resourceClusterBlueGreenCreateDeadline configured entry) d h).calls
    ∧ TimedAppends (GivenRemaining (resourceClusterBlueGreenUpdateDeadline configured entry)) h
      (updateDeploymentStepsTimed r clock
        (resourceClusterBlueGreenUpdateDeadline configured entry) d h).calls
    ∧ Remaining (resourceClusterBlueGreenCreateDeadline configured entry) (entry + d1)
      = Timeout configured TimeoutKey.Update - d1
    ∧ Remaining (resourceClusterBlueGreenUpdateDeadline configured entry) (entry + d1)
      = Timeout configured TimeoutKey.Update - d1
    ∧ (createDeploymentStepsTimed r clock
        (resourceClusterBlueGreenCreateDeadline configured entry) d h).erase
      = createDeploymentSteps r d (untimed h)
    ∧ (updateDeploymentStepsTimed r clock
        (resourceClusterBlueGreenUpdateDeadline configured entry) d h).erase
      = updateDeploymentSteps r d (untimed h) := by
  refine ⟨createDeploymentStepsTimed_issued r clock _ d h,
    updateDeploymentStepsTimed_issued r clock _ d h,
    issued_timedAppends (createDeploymentStepsTimed_issued r clock _ d h),
    issued_timedAppends (updateDeploymentStepsTimed_issued r clock _ d h), ?_, ?_,
    createDeploymentStepsTimed_erase r clock _ d h,
    updateDeploymentStepsTimed_erase r clock _ d h⟩
  · simp only [Remaining, resourceClusterBlueGreenCreateDeadline, NewDeadline]
    omega
  · simp only [Remaining, resourceClusterBlueGreenUpdateDeadline, NewDeadline]
    omega

/-- An Update run with the clock, on the cluster `db-1` with one deployment
record: each call takes 7 units of time, the timeout is 100 and the handler is
entered at reading 0.  The wait for available is given 86, the switchover 79,
the wait for the switchover 72. -/
theorem update_timed_run_example :
    updateDeploymentStepsTimed (remoteOf [deploymentRecord "bgd-1" "PROVISIONING"] [])
        (fun calls => 7 * calls.length) (NewDeadline 0 100) (configOf true true false false) []
      = ⟨[⟨Call.createDeploymentCluster, 0, none⟩,
          ⟨Call.describeBlueGreenDeployments "db-1", 7, none⟩,
          ⟨Call.waitForDeploymentAvailable "bgd-1", 14, some 86⟩,
          ⟨Call.switchover "bgd-1", 21, some 79⟩,
          ⟨Call.waitSwitchoverCompleted "bgd-1", 28, some 72⟩], none⟩ := by
  decide

/-! ## The status prober and the retry predicate -/

/-- C21.  The status prober `statusBlueGreenClusterDeployment` returns (nil
object, empty status, nil error) when the lookup reports not-found; for every
other lookup error it returns that error unchanged, with a nil object and an
empty status; and otherwise it returns the deployment together with its
`Status` string (the empty string for a nil `Status`) and a nil error. -/
theorem status_prober_classifies_lookup (err : ApiError) (output : BlueGreenDeployment) :
    statusBlueGreenClusterDeployment FindResult.notFound = ⟨none, "", none⟩
    ∧ statusBlueGreenClusterDeployment (FindResult.failed err) = ⟨none, "", some err⟩
    ∧ statusBlueGreenClusterDeployment (FindResult.found output)
      = ⟨some output, output.Status.getD "", none⟩ :=
  ⟨rfl, rfl, rfl⟩

/-- C22, as stated, fails: the retry predicate of `dbClusterModify` also asks
for a retry on an `InvalidDBClusterStateFault`, which is neither of the two
kinds of error the claim names. -/
theorem modify_predicate_retries_invalid_state :
    dbClusterModifyRetryable (remoteOf [] [])
        (some ⟨"InvalidDBClusterStateFault", "cluster is not in the available state"⟩)
      = (true, some ⟨"InvalidDBClusterStateFault", "cluster is not in the available state"⟩)
    ∧ ErrMessageContains
        (some ⟨"InvalidDBClusterStateFault", "cluster is not in the available state"⟩)
        (remoteOf [] []).errCodeInvalidParameterValue
        "IAM role ARN value is invalid or does not include the required permissions" = false
    ∧ ErrMessageContains
        (some ⟨"InvalidDBClusterStateFault", "cluster is not in the available state"⟩)
        (remoteOf [] []).errCodeInvalidParameterCombination
        "previous storage change is being optimized" = false := by
  decide

/-- C22, amended.  The retry predicate of `dbClusterModify` asks for a retry
exactly for three kinds of error: `InvalidParameterValue` with the IAM role
message, `InvalidParameterCombination` with the storage optimization message,
and `InvalidDBClusterStateFault`.  In every case, retry or not, it returns the
very error it was given. -/
theorem modify_predicate_retries_exactly (r : Remote) (err : Option ApiError) :
    ((dbClusterModifyRetryable r err).1 = true
      ↔ (ErrMessageContains err r.errCodeInvalidParameterValue
            "IAM role ARN value is invalid or does not include the required permissions" = true
          ∨ ErrMessageContains err r.errCodeInvalidParameterCombination
            "previous storage change is being optimized" = true
          ∨ isInvalidDBClusterStateFault err = true))
    ∧ (dbClusterModifyRetryable r err).2 = err
    ∧ (dbClusterModifyRetryable r none).1 = false := by
  refine ⟨?_, ?_, by simp [dbClusterModifyRetryable, ErrMessageContains, isInvalidDBClusterStateFault]⟩
  · unfold dbClusterModifyRetryable
    split
    · rename_i h1
      simp [h1]
    · rename_i h1
      split
      · rename_i h2
        simp [h2]
      · rename_i h2
        split
        · rename_i h3
          simp [h3]
        · rename_i h3
          simp [h1, h2, h3]
  · unfold dbClusterModifyRetryable
    split
    · rfl
    · split
      · rfl
      · split <;> rfl

/-! ## Index reads on the lookup result -/

/-- C24.  In the cleanup step of the Create handler, whenever the filtered
deployment list is not empty (and every record has a status) the guard reads
element 1 of the status list without a check of its length: the read is out of
range, and the step panics, exactly when the list has fewer than two records;
in particular for a lookup result with exactly one record. -/
theorem create_cleanup_reads_index_one (r : Remote) (d : ResourceData) (h : List Call)
    (out : List BlueGreenDeployment) (statuses : List String)
    (hlookup : r.deployments (h ++ [Call.describeBlueGreenDeployments d.cluster_identifier])
      = some out)
    (hstatuses : deploymentStatuses out = some statuses) (hne : out ≠ []) :
    createCleanup r d h
      = ⟨h ++ [Call.describeBlueGreenDeployments d.cluster_identifier],
         if out.length < 2 then some Panic.indexOutOfRange else none⟩ := by
  have hlen : ∀ (o : List BlueGreenDeployment) (ss : List String),
      deploymentStatuses o = some ss → ss.length = o.length := by
    intro o
    induction o with
    | nil =>
      intro ss hs
      simp [deploymentStatuses] at hs
      simp [← hs]
    | cons x xs ih =>
      intro ss hs
      unfold deploymentStatuses at hs
      split at hs
      · rename_i s ss' _ hss'
        simp only [Option.some.injEq] at hs
        rw [← hs]
        simp [ih ss' hss']
      · exact absurd hs (by simp)
  have hl := hlen out statuses hstatuses
  unfold createCleanup
  simp only [hlookup, hstatuses]
  cases statuses with
  | nil =>
    cases out with
    | nil => exact absurd rfl hne
    | cons x xs => simp at hl
  | cons s0 rest =>
    cases rest with
    | nil =>
      have h1 : out.length < 2 := by rw [← hl]; simp
      simp [h1]
    | cons s1 rest' =>
      have h2 : ¬ out.length < 2 := by rw [← hl]; simp
      simp [h2]

/-- C24 at a concrete input: the lookup returns the one record `bgd-1`. -/
theorem create_cleanup_reads_index_one_witness :
    createCleanup (remoteOf [deploymentRecord "bgd-1" "SWITCHOVER_COMPLETED"] [sourceCluster])
        (configOf true true true false) []
      = ⟨[] ++ [Call.describeBlueGreenDeployments "db-1"],
         if [deploymentRecord "bgd-1" "SWITCHOVER_COMPLETED"].length < 2 then
           some Panic.indexOutOfRange else none⟩ :=
  create_cleanup_reads_index_one
    (remoteOf [deploymentRecord "bgd-1" "SWITCHOVER_COMPLETED"] [sourceCluster])
    (configOf true true true false) [] [deploymentRecord "bgd-1" "SWITCHOVER_COMPLETED"]
    ["SWITCHOVER_COMPLETED"] rfl rfl (by decide)

/-- C26 (the code departs from the claim).  The lookup returns zero deployment
records.  The Create handler with `create_deployment` true, with
`switchover_enabled` false or true, and the Update handler with
`switchover_enabled` true or with `cleanup_resources` true, each read element 0
of an empty list and stop on an index out of range. -/
theorem element_zero_read_on_empty_lookup :
    createDeferred (remoteOf [] []) (configOf true false false false) []
      = ⟨[Call.createDeploymentCluster, Call.describeBlueGreenDeployments "db-1"],
         some Panic.indexOutOfRange⟩
    ∧ createDeferred (remoteOf [] []) (configOf true true false false) []
      = ⟨[Call.createDeploymentCluster, Call.describeBlueGreenDeployments "db-1"],
         some Panic.indexOutOfRange⟩
    ∧ updateDeferred (remoteOf [] []) (configOf true true false false) []
      = ⟨[Call.createDeploymentCluster, Call.describeBlueGreenDeployments "db-1"],
         some Panic.indexOutOfRange⟩
    ∧ updateDeferred (remoteOf [] []) (configOf false true false false) []
      = ⟨[Call.describeBlueGreenDeployments "db-1"], some Panic.indexOutOfRange⟩
    ∧ updateDeferred (remoteOf [] []) (configOf false false true false) []
      = ⟨[Call.describeBlueGreenDeployments "db-1"], some Panic.indexOutOfRange⟩
    ∧ createDeferred (remoteOf [] []) (configOf false true false false) []
      = ⟨[Call.describeBlueGreenDeployments "db-1"], none⟩ := by
  decide

/-! ## The two copies of the orchestration -/

/-- C25 (the code departs from the claim).  The deployment operations issued by
the Create and Update handlers differ in two of the four flag combinations.
With `create_deployment` and `switchover_enabled` both true, Create issues
create, switchover, wait for the switchover, and Update issues create, wait for
available, switchover, wait for the switchover.  With `create_deployment` false
and `switchover_enabled` true on a deployment already `SWITCHOVER_COMPLETED`,
Create issues nothing and Update issues switchover and wait.  With
`switchover_enabled` false the two handlers issue the same deployment calls,
for every remote. -/
theorem create_and_update_orchestration_differ (r : Remote) (d : ResourceData) (h : List Call) :
    (createDeploymentSteps (remoteOf [deploymentRecord "bgd-1" "PROVISIONING"] [])
        (configOf true true false false) []).calls.filter (fun c => c.isDeploymentStep)
      = [Call.createDeploymentCluster, Call.switchover "bgd-1",
         Call.waitSwitchoverCompleted "bgd-1"]
    ∧ (updateDeploymentSteps (remoteOf [deploymentRecord "bgd-1" "PROVISIONING"] [])
        (configOf true true false false) []).calls.filter (fun c => c.isDeploymentStep)
      = [Call.createDeploymentCluster, Call.waitForDeploymentAvailable "bgd-1",
         Call.switchover "bgd-1", Call.waitSwitchoverCompleted "bgd-1"]
    ∧ (createDeploymentSteps (remoteOf [deploymentRecord "bgd-1" "SWITCHOVER_COMPLETED"] [])
        (configOf false true false false) []).calls.filter (fun c => c.isDeploymentStep) = []
    ∧ (updateDeploymentSteps (remoteOf [deploymentRecord "bgd-1" "SWITCHOVER_COMPLETED"] [])
        (configOf false true false false) []).calls.filter (fun c => c.isDeploymentStep)
      = [Call.switchover "bgd-1", Call.waitSwitchoverCompleted "bgd-1"]
    ∧ createDeploymentSteps r { d with switchover_enabled := false } h
      = updateDeploymentSteps r { d with switchover_enabled := false } h := by
  refine ⟨by decide, by decide, by decide, by decide, ?_⟩
  have hfalse : ∀ body : List Call → Outcome, whenThen false body = fun h' => ⟨h', none⟩ := by
    intro body
    funext h'
    rfl
  have hsame : createBranchCreateOnly r { d with switchover_enabled := false }
      = updateBranchCreateOnly r { d with switchover_enabled := false } := rfl
  simp only [createDeploymentSteps, updateDeploymentSteps, Bool.and_false, Bool.not_false,
    Bool.and_true, hfalse, hsame]

/-! ## The budget of the modify operation -/

theorem timedAppends_refl (P : TimedCall → Prop) (h : List TimedCall) : TimedAppends P h h :=
  ⟨[], by simp, by simp⟩

theorem timedAppends_trans {P : TimedCall → Prop} {a b c : List TimedCall}
    (hab : TimedAppends P a b) (hbc : TimedAppends P b c) : TimedAppends P a c := by
  obtain ⟨s1, rfl, h1⟩ := hab
  obtain ⟨s2, rfl, h2⟩ := hbc
  refine ⟨s1 ++ s2, by simp, ?_⟩
  intro tc htc
  rcases List.mem_append.mp htc with htc | htc
  · exact h1 tc htc
  · exact h2 tc htc

theorem timedAppends_snoc {P : TimedCall → Prop} (h : List TimedCall) {tc : TimedCall}
    (htc : P tc) : TimedAppends P h (h ++ [tc]) :=
  ⟨[tc], rfl, by simpa using htc⟩

/-- Two retried calls that correspond step by step under a map of their states
end in corresponding states with the same error. -/
theorem retryWhen_sim {σ τ : Type} (φ : σ → τ)
    (f : σ → σ × Option ApiError) (g : τ → τ × Option ApiError)
    (retryable : σ → Option ApiError → σ × Bool × Option ApiError)
    (retryable2 : τ → Option ApiError → τ × Bool × Option ApiError)
    (hf : ∀ s, φ (f s).1 = (g (φ s)).1 ∧ (f s).2 = (g (φ s)).2)
    (hret : ∀ s e, φ (retryable s e).1 = (retryable2 (φ s) e).1
      ∧ (retryable s e).2 = (retryable2 (φ s) e).2) :
    ∀ (n : Nat) (s : σ), φ (RetryWhen n f retryable s).1 = (RetryWhen n g retryable2 (φ s)).1
      ∧ (RetryWhen n f retryable s).2 = (RetryWhen n g retryable2 (φ s)).2 := by
  intro n
  induction n with
  | zero =>
    intro s
    have hg : g (φ s) = (φ (f s).1, (f s).2) := Prod.ext (hf s).1.symm (hf s).2.symm
    have hr : retryable2 (φ (f s).1) (f s).2
        = (φ (retryable (f s).1 (f s).2).1, (retryable (f s).1 (f s).2).2) :=
      Prod.ext (hret _ _).1.symm (hret _ _).2.symm
    simp only [RetryWhen, hg, hr, and_self]
  | succ n ih =>
    intro s
    have hg : g (φ s) = (φ (f s).1, (f s).2) := Prod.ext (hf s).1.symm (hf s).2.symm
    have hr : retryable2 (φ (f s).1) (f s).2
        = (φ (retryable (f s).1 (f s).2).1, (retryable (f s).1 (f s).2).2) :=
      Prod.ext (hret _ _).1.symm (hret _ _).2.symm
    simp only [RetryWhen, hg, hr]
    split
    · exact ih _
    · exact ⟨rfl, rfl⟩

/-- Without the clock, `dbClusterModifyTimed` is `dbClusterModify`. -/
theorem dbClusterModifyTimed_erase (r : Remote) (clock : List Call → Nat) (timeout : Nat)
    (id : String) (dp : Bool) (h : List TimedCall) :
    untimed (dbClusterModifyTimed r clock timeout id dp h).1 = (dbClusterModify r id dp (untimed h)).1
    ∧ (dbClusterModifyTimed r clock timeout id dp h).2 = (dbClusterModify r id dp (untimed h)).2 := by
  have hsim := retryWhen_sim untimed
    (fun hist : List TimedCall =>
      (hist ++ [⟨Call.modifyDBCluster id dp, clock (untimed hist), some timeout⟩],
       r.result (untimed hist ++ [Call.modifyDBCluster id dp])))
    (fun hist : List Call => (hist ++ [Call.modifyDBCluster id dp],
                  r.result (hist ++ [Call.modifyDBCluster id dp])))
    (fun hist err => (hist, dbClusterModifyRetryable r err))
    (fun hist err => (hist, dbClusterModifyRetryable r err))
    (fun s => ⟨by simp [untimed], rfl⟩) (fun s e => ⟨rfl, rfl⟩) (r.retryBudget (untimed h)) h
  obtain ⟨h1, h2⟩ := hsim
  unfold dbClusterModifyTimed dbClusterModify
  simp only []
  rw [← h2]
  split
  · exact ⟨h1, rfl⟩
  · have hw : untimed ((RetryWhen (r.retryBudget (untimed h))
        (fun hist : List TimedCall =>
          (hist ++ [⟨Call.modifyDBCluster id dp, clock (untimed hist), some timeout⟩],
           r.result (untimed hist ++ [Call.modifyDBCluster id dp])))
        (fun hist err => (hist, dbClusterModifyRetryable r err)) h).1
        ++ [⟨Call.waitDBClusterAvailable id, clock (untimed (RetryWhen (r.retryBudget (untimed h))
        (fun hist : List TimedCall =>
          (hist ++ [⟨Call.modifyDBCluster id dp, clock (untimed hist), some timeout⟩],
           r.result (untimed hist ++ [Call.modifyDBCluster id dp])))
        (fun hist err => (hist, dbClusterModifyRetryable r err)) h).1), some timeout⟩])
        = (RetryWhen (r.retryBudget (untimed h))
            (fun hist : List Call => (hist ++ [Call.modifyDBCluster id dp],
                  r.result (hist ++ [Call.modifyDBCluster id dp])))
            (fun hist err => (hist, dbClusterModifyRetryable r err)) (untimed h)).1
          ++ [Call.waitDBClusterAvailable id] := by
      rw [← h1]
      simp [untimed]
    rw [hw]
    split
    · exact ⟨hw, rfl⟩
    · exact ⟨hw, rfl⟩

/-- C23, as stated, fails: `dbClusterModify` is given a timeout of 100, the
retried modify call returns when 60 have passed, and the wait for the cluster
to be available is invoked with 100 again, not with the 40 that remain. -/
theorem modify_wait_gets_full_timeout :
    (dbClusterModifyTimed (remoteOf [] []) (fun calls => 60 * calls.length) 100 "db-1" false []).1
      = [⟨Call.modifyDBCluster "db-1" false, 0, some 100⟩,
         ⟨Call.waitDBClusterAvailable "db-1", 60, some 100⟩]
    ∧ Remaining (NewDeadline 0 100) 60 = 40 := by
  decide

/-- C23, amended.  `dbClusterModify` hands the timeout it was given, unchanged,
to each of its two sequential blocking steps: the retried modify call runs in a
window of `timeout`, and the wait for the cluster to become available that
follows is invoked with the full `timeout` again, whatever time the retry phase
has consumed.  Without the clock the operation is `dbClusterModify`. -/
theorem modify_steps_get_the_same_timeout (r : Remote) (clock : List Call → Nat)
    (timeout : Nat) (id : String) (dp : Bool) (h : List TimedCall) :
    TimedAppends (fun tc => tc.timeout = some timeout) h
      (dbClusterModifyTimed r clock timeout id dp h).1
    ∧ untimed (dbClusterModifyTimed r clock timeout id dp h).1
      = (dbClusterModify r id dp (untimed h)).1
    ∧ (dbClusterModifyTimed r clock timeout id dp h).2 = (dbClusterModify r id dp (untimed h)).2 := by
  refine ⟨?_, (dbClusterModifyTimed_erase r clock timeout id dp h).1,
    (dbClusterModifyTimed_erase r clock timeout id dp h).2⟩
  have hretry : TimedAppends (fun tc => tc.timeout = some timeout) h
      (RetryWhen (r.retryBudget (untimed h))
        (fun hist : List TimedCall =>
          (hist ++ [⟨Call.modifyDBCluster id dp, clock (untimed hist), some timeout⟩],
           r.result (untimed hist ++ [Call.modifyDBCluster id dp])))
        (fun hist err => (hist, dbClusterModifyRetryable r err)) h).1 :=
    retryWhen_rel (TimedAppends (fun tc => tc.timeout = some timeout))
      (fun _ _ _ => timedAppends_trans)
      (fun hist : List TimedCall =>
        (hist ++ [⟨Call.modifyDBCluster id dp, clock (untimed hist), some timeout⟩],
         r.result (untimed hist ++ [Call.modifyDBCluster id dp])))
      (fun hist err => (hist, dbClusterModifyRetryable r err))
      (fun s => timedAppends_snoc s rfl) (fun s _ => timedAppends_refl _ s) _ h
  unfold dbClusterModifyTimed
  simp only []
  split
  · exact hretry
  · split
    · exact timedAppends_trans hretry (timedAppends_snoc _ rfl)
    · exact timedAppends_trans hretry (timedAppends_snoc _ rfl)

/-! ## The Delete handler: the order of the deferred closures -/

/-- The deferred closures of the Delete handler on a lookup that returns at
least one deployment record. -/
theorem deleteDeferred_found (r : Remote) (d : ResourceData) (id : String) (diags : List String)
    (h : List Call) (dep : BlueGreenDeployment) (more : List BlueGreenDeployment)
    (hlookup : r.deployments (h ++ [Call.describeBlueGreenDeployments d.cluster_identifier])
      = some (dep :: more)) :
    deleteDeferred r d id diags h
      = match r.result (h ++ [Call.describeBlueGreenDeployments d.cluster_identifier]
            ++ [Call.waitDBClusterAvailable d.cluster_identifier]
            ++ [Call.deleteBlueGreenDeployment dep.BlueGreenDeploymentIdentifier]) with
        | some err =>
          ⟨diags ++ [deleteDeploymentDiag id err],
           h ++ [Call.describeBlueGreenDeployments d.cluster_identifier]
            ++ [Call.waitDBClusterAvailable d.cluster_identifier]
            ++ [Call.deleteBlueGreenDeployment dep.BlueGreenDeploymentIdentifier], none⟩
        | none =>
          match r.result (h ++ [Call.describeBlueGreenDeployments d.cluster_identifier]
            ++ [Call.waitDBClusterAvailable d.cluster_identifier]
            ++ [Call.deleteBlueGreenDeployment dep.BlueGreenDeploymentIdentifier]
            ++ [Call.waitBlueGreenClusterDeploymentDeleted dep.BlueGreenDeploymentIdentifier]) with
          | some err =>
            ⟨diags ++ [deleteDeploymentWaitDiag id err],
             h ++ [Call.describeBlueGreenDeployments d.cluster_identifier]
              ++ [Call.waitDBClusterAvailable d.cluster_identifier]
              ++ [Call.deleteBlueGreenDeployment dep.BlueGreenDeploymentIdentifier]
              ++ [Call.waitBlueGreenClusterDeploymentDeleted dep.BlueGreenDeploymentIdentifier],
             none⟩
          | none =>
            ⟨diags,
             h ++ [Call.describeBlueGreenDeployments d.cluster_identifier]
              ++ [Call.waitDBClusterAvailable d.cluster_identifier]
              ++ [Call.deleteBlueGreenDeployment dep.BlueGreenDeploymentIdentifier]
              ++ [Call.waitBlueGreenClusterDeploymentDeleted dep.BlueGreenDeploymentIdentifier],
             none⟩ := by
  unfold deleteDeferred deleteDeferredMain
  simp only [hlookup, deploymentIds, List.map]
  cases hdel : r.result (h ++ [Call.describeBlueGreenDeployments d.cluster_identifier]
      ++ [Call.waitDBClusterAvailable d.cluster_identifier]
      ++ [Call.deleteBlueGreenDeployment dep.BlueGreenDeploymentIdentifier]) with
  | some err => simp only [runCleanupWaiters]
  | none =>
    simp only [runCleanupWaiters]
    cases hwait : r.result (h ++ [Call.describeBlueGreenDeployments d.cluster_identifier]
      ++ [Call.waitDBClusterAvailable d.cluster_identifier]
      ++ [Call.deleteBlueGreenDeployment dep.BlueGreenDeploymentIdentifier]
      ++ [Call.waitBlueGreenClusterDeploymentDeleted dep.BlueGreenDeploymentIdentifier]) with
    | some err => simp only [runCleanupWaiters]
    | none => simp only [runCleanupWaiters]

/-- C27.  In the Delete handler the closure deferred last runs first.  Let
`read` be the result of Read inside the handler.  When the cluster lookup
returns the cluster and the deployment lookup of the deferred closure returns a
record, the history of the handler continues with that lookup, the wait for the
cluster, and `DeleteBlueGreenDeployment` on the first record.  If that call
fails, the handler returns the diagnostics of Read followed by exactly one error
diagnostic and no wait for the deletion is performed; if it succeeds, the wait
for the deployment to be deleted is the one call made after it, and the only
diagnostic that can be added is the one of a failed wait. -/
theorem delete_waits_only_after_successful_delete (r : Remote) (d : ResourceData)
    (st : ResourceState) (h : List Call) (dbc : DBCluster) (read : HandlerResult)
    (dep : BlueGreenDeployment) (more : List BlueGreenDeployment)
    (hcluster : r.cluster (h ++ [Call.findDBClusterByID d.cluster_identifier]) = some dbc)
    (hread : resourceClusterBlueGreenRead r (setFromCluster dbc d st).1 (setFromCluster dbc d st).2
      (h ++ [Call.findDBClusterByID d.cluster_identifier]) = read)
    (hlookup : r.deployments
      (read.calls ++ [Call.describeBlueGreenDeployments read.d.cluster_identifier])
      = some (dep :: more)) :
    match r.result (read.calls ++ [Call.describeBlueGreenDeployments read.d.cluster_identifier]
          ++ [Call.waitDBClusterAvailable read.d.cluster_identifier]
          ++ [Call.deleteBlueGreenDeployment dep.BlueGreenDeploymentIdentifier]) with
    | some err =>
      (resourceClusterBlueGreenDelete r d st h).diags
        = read.diags ++ [deleteDeploymentDiag read.state.id err]
      ∧ (resourceClusterBlueGreenDelete r d st h).calls
        = read.calls ++ [Call.describeBlueGreenDeployments read.d.cluster_identifier]
          ++ [Call.waitDBClusterAvailable read.d.cluster_identifier]
          ++ [Call.deleteBlueGreenDeployment dep.BlueGreenDeploymentIdentifier]
      ∧ (∀ id, Call.waitBlueGreenClusterDeploymentDeleted id
          ∉ (resourceClusterBlueGreenDelete r d st h).calls.drop read.calls.length)
    | none =>
      (resourceClusterBlueGreenDelete r d st h).calls
        = read.calls ++ [Call.describeBlueGreenDeployments read.d.cluster_identifier]
          ++ [Call.waitDBClusterAvailable read.d.cluster_identifier]
          ++ [Call.deleteBlueGreenDeployment dep.BlueGreenDeploymentIdentifier]
          ++ [Call.waitBlueGreenClusterDeploymentDeleted dep.BlueGreenDeploymentIdentifier]
      ∧ ((resourceClusterBlueGreenDelete r d st h).diags = read.diags
        ∨ ∃ err, (resourceClusterBlueGreenDelete r d st h).diags
          = read.diags ++ [deleteDeploymentWaitDiag read.state.id err]) := by
  have hdef := deleteDeferred_found r read.d read.state.id read.diags read.calls dep more hlookup
  have hdiags : (resourceClusterBlueGreenDelete r d st h).diags
      = (deleteDeferred r read.d read.state.id read.diags read.calls).diags := by
    unfold resourceClusterBlueGreenDelete
    simp only [hcluster, hread]
  have hcalls : (resourceClusterBlueGreenDelete r d st h).calls
      = (deleteDeferred r read.d read.state.id read.diags read.calls).calls := by
    unfold resourceClusterBlueGreenDelete
    simp only [hcluster, hread]
  rw [hdiags, hcalls, hdef]
  split
  · next err herr =>
    simp only [herr]
    refine ⟨trivial, trivial, ?_⟩
    intro id
    simp
  · next herr =>
    simp only [herr]
    split
    · next err2 _ => exact ⟨rfl, Or.inr ⟨err2, rfl⟩⟩
    · exact ⟨rfl, Or.inl rfl⟩

/-- A run of the Delete handler on which `DeleteBlueGreenDeployment` fails: the
result ends with the delete call and carries one diagnostic. -/
theorem delete_waits_only_after_successful_delete_witness :
    (resourceClusterBlueGreenDelete
        (remoteFailing (fun c => c == Call.deleteBlueGreenDeployment "bgd-1")
          [deploymentRecord "bgd-1" "AVAILABLE"] [sourceCluster])
        (configOf false false false false) stateOf []).diags
      = [] ++ [deleteDeploymentDiag "db-1" ⟨"AccessDenied", "not authorized"⟩]
    ∧ (resourceClusterBlueGreenDelete
        (remoteFailing (fun c => c == Call.deleteBlueGreenDeployment "bgd-1")
          [deploymentRecord "bgd-1" "AVAILABLE"] [sourceCluster])
        (configOf false false false false) stateOf []).calls
      = [Call.findDBClusterByID "db-1", Call.describeBlueGreenDeployments "db-1",
         Call.findDBClusterByID "db-1"] ++ [Call.describeBlueGreenDeployments "db-1"]
         ++ [Call.waitDBClusterAvailable "db-1"] ++ [Call.deleteBlueGreenDeployment "bgd-1"]
    ∧ (∀ id, Call.waitBlueGreenClusterDeploymentDeleted id
        ∉ (resourceClusterBlueGreenDelete
            (remoteFailing (fun c => c == Call.deleteBlueGreenDeployment "bgd-1")
              [deploymentRecord "bgd-1" "AVAILABLE"] [sourceCluster])
            (configOf false false false false) stateOf []).calls.drop 3) :=
  delete_waits_only_after_successful_delete
    (remoteFailing (fun c => c == Call.deleteBlueGreenDeployment "bgd-1")
      [deploymentRecord "bgd-1" "AVAILABLE"] [sourceCluster])
    (configOf false false false false) stateOf [] sourceCluster
    (resourceClusterBlueGreenRead
      (remoteFailing (fun c => c == Call.deleteBlueGreenDeployment "bgd-1")
        [deploymentRecord "bgd-1" "AVAILABLE"] [sourceCluster])
      (setFromCluster sourceCluster (configOf false false false false) stateOf).1
      (setFromCluster sourceCluster (configOf false false false false) stateOf).2
      [Call.findDBClusterByID "db-1"])
    (deploymentRecord "bgd-1" "AVAILABLE") [] (by decide) (by decide) (by decide)

/-! ## What the handlers write to the state -/

/-- The state and the data after Read: either untouched, or set from the
cluster that the lookup of Read returned. -/
theorem resourceClusterBlueGreenRead_state (r : Remote) (d : ResourceData) (st : ResourceState)
    (h : List Call) :
    ((resourceClusterBlueGreenRead r d st h).d = d
      ∧ (resourceClusterBlueGreenRead r d st h).state = st)
    ∨ ∃ dbc, r.cluster (h ++ [Call.describeBlueGreenDeployments d.cluster_identifier]
          ++ [Call.findDBClusterByID d.cluster_identifier]) = some dbc
        ∧ (resourceClusterBlueGreenRead r d st h).d = (setFromCluster dbc d st).1
        ∧ (resourceClusterBlueGreenRead r d st h).state = (setFromCluster dbc d st).2 := by
  unfold resourceClusterBlueGreenRead
  simp only []
  split
  · exact Or.inl ⟨rfl, rfl⟩
  · split
    · exact Or.inl ⟨rfl, rfl⟩
    · split
      · exact Or.inl ⟨rfl, rfl⟩
      · next dbc hdbc => exact Or.inr ⟨dbc, hdbc, rfl, rfl⟩

/-- C28.  The Create handler never assigns the resource ID: for every
configuration, every state, every history and every remote, the ID after Create
is the ID before Create.  When the cluster lookup of line 229 returns nothing
the handler leaves data and state untouched (and panics); when it returns a
cluster, `arn`, `cluster_identifier`, `cluster_members` and
`cluster_resource_id` are those of a looked-up cluster: the one of line 229, or
the one that the lookup inside Read returned. -/
theorem create_never_assigns_the_id (r : Remote) (d : ResourceData) (st : ResourceState)
    (h : List Call) :
    (resourceClusterBlueGreenCreate r d st h).state.id = st.id
    ∧ match r.cluster (h ++ [Call.findDBClusterByID d.cluster_identifier]) with
      | none =>
        (resourceClusterBlueGreenCreate r d st h).state = st
        ∧ (resourceClusterBlueGreenCreate r d st h).d = d
      | some dbc =>
        ∃ found : DBCluster,
          (found = dbc
            ∨ r.cluster (h ++ [Call.findDBClusterByID d.cluster_identifier]
                ++ [Call.describeBlueGreenDeployments dbc.DBClusterIdentifier]
                ++ [Call.findDBClusterByID dbc.DBClusterIdentifier]) = some found)
          ∧ (resourceClusterBlueGreenCreate r d st h).state.arn = found.DBClusterArn
          ∧ (resourceClusterBlueGreenCreate r d st h).d.cluster_identifier
              = found.DBClusterIdentifier
          ∧ (resourceClusterBlueGreenCreate r d st h).state.cluster_members
              = found.DBClusterMembers
          ∧ (resourceClusterBlueGreenCreate r d st h).state.cluster_resource_id
              = found.DbClusterResourceId := by
  cases hcluster : r.cluster (h ++ [Call.findDBClusterByID d.cluster_identifier]) with
  | none =>
    simp only [resourceClusterBlueGreenCreate, hcluster, and_self]
  | some dbc =>
    simp only [resourceClusterBlueGreenCreate, hcluster]
    rcases resourceClusterBlueGreenRead_state r (setFromCluster dbc d st).1
      (setFromCluster dbc d st).2 (h ++ [Call.findDBClusterByID d.cluster_identifier])
      with ⟨hd, hst⟩ | ⟨found, hfound, hd, hst⟩
    · rw [hd, hst]
      exact ⟨rfl, dbc, Or.inl rfl, rfl, rfl, rfl, rfl⟩
    · rw [hd, hst]
      exact ⟨rfl, found, Or.inr hfound, rfl, rfl, rfl, rfl⟩

/-- C29.  The result of Read does not depend on the deployment records that the
filtered lookup returns: on two remotes that answer the cluster lookup alike
and both answer the deployment lookup, with whatever records, Read leaves the
same data, the same state (`arn`, `cluster_members`, `cluster_resource_id`,
`tags`, and `cluster_identifier` in the data), the same history and the same
outcome.  The block guarded by `len(bluegreen) < 0` is never executed. -/
theorem read_ignores_the_deployment_records (r1 r2 : Remote) (d : ResourceData)
    (st : ResourceState) (h : List Call) (out1 out2 : List BlueGreenDeployment)
    (hcluster : r1.cluster = r2.cluster)
    (hout1 : r1.deployments (h ++ [Call.describeBlueGreenDeployments d.cluster_identifier])
      = some out1)
    (hout2 : r2.deployments (h ++ [Call.describeBlueGreenDeployments d.cluster_identifier])
      = some out2) :
    resourceClusterBlueGreenRead r1 d st h = resourceClusterBlueGreenRead r2 d st h
    ∧ (if (deploymentIds out1).length < 0 then readGuardedBlock out1 else none) = none
    ∧ (if (deploymentIds out2).length < 0 then readGuardedBlock out2 else none) = none := by
  have hguard : ∀ out : List BlueGreenDeployment,
      (if (deploymentIds out).length < 0 then readGuardedBlock out else none) = none := by
    intro out
    simp
  refine ⟨?_, hguard out1, hguard out2⟩
  unfold resourceClusterBlueGreenRead
  simp only [hout1, hout2, hguard, hcluster]

/-- Two runs of Read, one on a remote without deployment records and one on a
remote with one record, leave the same result. -/
theorem read_ignores_the_deployment_records_witness :
    resourceClusterBlueGreenRead (remoteOf [] [sourceCluster]) (configOf true true true false)
        stateOf []
      = resourceClusterBlueGreenRead
          (remoteOf [deploymentRecord "bgd-1" "SWITCHOVER_COMPLETED"] [sourceCluster])
          (configOf true true true false) stateOf []
    ∧ (if (deploymentIds ([] : List BlueGreenDeployment)).length < 0
        then readGuardedBlock [] else none) = none
    ∧ (if (deploymentIds [deploymentRecord "bgd-1" "SWITCHOVER_COMPLETED"]).length < 0
        then readGuardedBlock [deploymentRecord "bgd-1" "SWITCHOVER_COMPLETED"] else none)
      = none :=
  read_ignores_the_deployment_records (remoteOf [] [sourceCluster])
    (remoteOf [deploymentRecord "bgd-1" "SWITCHOVER_COMPLETED"] [sourceCluster])
    (configOf true true true false) stateOf [] [] [deploymentRecord "bgd-1" "SWITCHOVER_COMPLETED"]
    rfl rfl rfl

/-! ## Parsing the ARN of a cluster -/

/-- The character class `[0-9a-z-]`, spelled out. -/
theorem isClusterIdChar_iff (c : Char) :
    isClusterIdChar c = true ↔ ('0' ≤ c ∧ c ≤ '9') ∨ ('a' ≤ c ∧ c ≤ 'z') ∨ c = '-' := by
  simp [isClusterIdChar, Char.isDigit, Char.isLower, Char.le_def, UInt32.le_def]
  exact or_assoc

/-- The regular expression `^cluster:([0-9a-z-]+)$` matches exactly the texts
that are `cluster:` followed by one or more characters of the class, and the
group is the text after `cluster:`. -/
theorem findClusterSubmatch_iff (resource : String) :
    (findClusterSubmatch resource = some [resource, String.mk (resource.data.drop 8)]
      ∧ ∃ id, resource.data = "cluster:".data ++ id ∧ id ≠ []
          ∧ ∀ c ∈ id, ('0' ≤ c ∧ c ≤ '9') ∨ ('a' ≤ c ∧ c ≤ 'z') ∨ c = '-')
    ∨ (findClusterSubmatch resource = none
      ∧ ¬ ∃ id, resource.data = "cluster:".data ++ id ∧ id ≠ []
          ∧ ∀ c ∈ id, ('0' ≤ c ∧ c ≤ '9') ∨ ('a' ≤ c ∧ c ≤ 'z') ∨ c = '-') := by
  unfold findClusterSubmatch
  split
  · next hcond =>
    left
    refine ⟨rfl, resource.data.drop 8, ?_, ?_, ?_⟩
    · simp only [Bool.and_eq_true] at hcond
      have hp := List.isPrefixOf_iff_prefix.mp hcond.1.1
      have := List.prefix_iff_eq_append.mp hp
      simpa using this.symm
    · simp only [Bool.and_eq_true] at hcond
      intro hnil
      rw [hnil] at hcond
      simp at hcond
    · simp only [Bool.and_eq_true, List.all_eq_true] at hcond
      intro c hc
      exact (isClusterIdChar_iff c).mp (hcond.2 c hc)
  · next hcond =>
    right
    refine ⟨rfl, ?_⟩
    rintro ⟨id, hdata, hne, hall⟩
    apply hcond
    have hdrop : resource.data.drop 8 = id := by
      rw [hdata]
      rfl
    simp only [Bool.and_eq_true, List.all_eq_true, hdrop]
    refine ⟨⟨?_, ?_⟩, fun c hc => (isClusterIdChar_iff c).mpr (hall c hc)⟩
    · rw [hdata]
      exact List.isPrefixOf_iff_prefix.mpr (List.prefix_append _ _)
    · cases id with
      | nil => exact absurd rfl hne
      | cons a t => rfl

/-- C30.  For any behaviour `parse` of `arn.Parse`: `parseDBClusterARN` returns
a nil error exactly when the input parses as an ARN whose resource section is
`cluster:` followed by one or more characters of `[0-9a-z-]`; on success the
value holds the parsed ARN and, as identifier, the resource section without
`cluster:`; in every other case the value is the zero value, and when `parse`
rejects the input its error is returned.  With `arn.Parse` as the SDK defines
it, an input that does not begin with `arn:`, such as the bare identifier
`db-1`, is rejected with the zero value. -/
theorem parse_cluster_arn_succeeds_iff (parse : String → Except String ARN) (s : String) :
    ((parseDBClusterARN parse s).2 = none ↔
      ∃ arn id, parse s = Except.ok arn ∧ arn.Resource.data = "cluster:".data ++ id ∧ id ≠ []
        ∧ ∀ c ∈ id, ('0' ≤ c ∧ c ≤ '9') ∨ ('a' ≤ c ∧ c ≤ 'z') ∨ c = '-')
    ∧ (parseDBClusterARN parse s).1
        = (match parse s, (parseDBClusterARN parse s).2 with
           | Except.ok arn, none => ⟨arn, String.mk (arn.Resource.data.drop "cluster:".length)⟩
           | _, _ => zeroDBClusterARN)
    ∧ ((∃ arn, parse s = Except.ok arn)
        ∨ ∃ e, parse s = Except.error e ∧ parseDBClusterARN parse s = (zeroDBClusterARN, some e))
    ∧ ("arn:".data.isPrefixOf s.data = true
        ∨ parseDBClusterARN arnParse s = (zeroDBClusterARN, some "arn: invalid prefix"))
    ∧ parseDBClusterARN arnParse "arn:aws:rds:eu-west-1:123456789012:cluster:db-1"
        = (⟨⟨"aws", "rds", "eu-west-1", "123456789012", "cluster:db-1"⟩, "db-1"⟩, none)
    ∧ parseDBClusterARN arnParse "db-1" = (zeroDBClusterARN, some "arn: invalid prefix") := by
  refine ⟨?_, ?_, ?_, ?_, by decide, by decide⟩
  · unfold parseDBClusterARN
    cases hparse : parse s with
    | error e => simp
    | ok arn =>
      simp only []
      rcases findClusterSubmatch_iff arn.Resource with ⟨hsome, id, hdata, hne, hall⟩ | ⟨hnone, hno⟩
      · rw [hsome]
        simp only [List.length_cons, List.length_nil]
        constructor
        · intro _
          exact ⟨arn, id, rfl, hdata, hne, hall⟩
        · intro _
          rfl
      · rw [hnone]
        constructor
        · intro habs
          exact absurd habs (by simp)
        · rintro ⟨arn2, id, harn, hdata, hne, hall⟩
          cases harn
          exact absurd ⟨id, hdata, hne, hall⟩ hno
  · unfold parseDBClusterARN
    cases hparse : parse s with
    | error e => rfl
    | ok arn =>
      simp only []
      rcases findClusterSubmatch_iff arn.Resource with ⟨hsome, _⟩ | ⟨hnone, _⟩
      · rw [hsome]
        rfl
      · rw [hnone]
  · unfold parseDBClusterARN
    cases hparse : parse s with
    | error e => exact Or.inr ⟨e, rfl, rfl⟩
    | ok arn => exact Or.inl ⟨arn, rfl⟩
  · cases hstart : "arn:".data.isPrefixOf s.data with
    | true => exact Or.inl rfl
    | false =>
      right
      unfold parseDBClusterARN arnParse
      simp only [hstart]
      rfl

end BlueGreen
